import Mathlib

/-!
# collectd `mysql` plugin (`src/mysql.c`): a shallow embedding

C strings are modelled as the list of their characters before the
terminating NUL (`CStr`); a nullable `char *` is an `Option CStr`.
Unsigned 64-bit values (`unsigned long long`) are natural numbers below
`2 ^ 64`; `derive_t` (a signed 64-bit integer) is an `Int` in
`[-2 ^ 63, 2 ^ 63)`.  Dispatching a value list or a notification appends an
`Event` to the output of the function.
-/

namespace Mysql

/-! ## C strings and the libc functions used by the plugin -/

/-- A C string: its characters up to, and without, the terminating NUL. -/
abbrev CStr := List Char

/-- The libc `strlen`. -/
def strlen (s : CStr) : Nat := s.length

/-- The libc `strncmp`: compares at most `n` characters, the end of a string
counting as a NUL character; the result is zero when they agree. -/
def strncmp : CStr → CStr → Nat → Int
  | _, _, 0 => 0
  | [], [], _ + 1 => 0
  | [], b :: _, _ + 1 => - (b.toNat : Int)
  | a :: _, [], _ + 1 => (a.toNat : Int)
  | a :: as, b :: bs, n + 1 =>
    if a = b then strncmp as bs n else (a.toNat : Int) - (b.toNat : Int)

/-- The libc `strcmp`. -/
def strcmp : CStr → CStr → Int
  | [], [] => 0
  | [], b :: _ => - (b.toNat : Int)
  | a :: _, [] => (a.toNat : Int)
  | a :: as, b :: bs =>
    if a = b then strcmp as bs else (a.toNat : Int) - (b.toNat : Int)

/-- The libc `tolower` in the C locale. -/
def tolower (c : Char) : Char :=
  if 65 ≤ c.toNat ∧ c.toNat ≤ 90 then Char.ofNat (c.toNat + 32) else c

/-- The libc `strcasecmp` in the C locale. -/
def strcasecmp : CStr → CStr → Int
  | [], [] => 0
  | [], b :: _ => - ((tolower b).toNat : Int)
  | a :: _, [] => ((tolower a).toNat : Int)
  | a :: as, b :: bs =>
    if tolower a = tolower b then strcasecmp as bs
    else ((tolower a).toNat : Int) - ((tolower b).toNat : Int)

/-- The libc `isspace` in the C locale. -/
def isspace (c : Char) : Bool :=
  c.toNat = 32 || (9 ≤ c.toNat && c.toNat ≤ 13)

/-- The libc `isdigit`. -/
def isdigit (c : Char) : Bool := 48 ≤ c.toNat && c.toNat ≤ 57

/-- The value of the longest prefix of decimal digits, continuing `acc`. -/
def digitsValue : Nat → CStr → Nat
  | acc, [] => acc
  | acc, c :: cs =>
    if isdigit c then digitsValue (acc * 10 + (c.toNat - 48)) cs else acc

/-- The libc `atoll`, i.e. `strtoll (s, NULL, 10)`: optional white space, an
optional sign, decimal digits; a value out of the range of `long long` is
clamped to `LLONG_MIN` or `LLONG_MAX`. -/
def atoll (s : CStr) : Int :=
  match s.dropWhile isspace with
  | '-' :: r => max (- (digitsValue 0 r : Int)) (- (2 : Int) ^ 63)
  | '+' :: r => min (digitsValue 0 r : Int) ((2 : Int) ^ 63 - 1)
  | r => min (digitsValue 0 r : Int) ((2 : Int) ^ 63 - 1)

/-- Conversion of a `long long` to `unsigned long long`. -/
def toU64 (i : Int) : Nat := (i % (2 : Int) ^ 64).toNat

/-- Conversion of an `unsigned long long` to `derive_t` (`int64_t`). -/
def toDerive (u : Nat) : Int :=
  if u % 2 ^ 64 < 2 ^ 63 then (u % 2 ^ 64 : Nat) else ((u % 2 ^ 64 : Nat) : Int) - (2 : Int) ^ 64

/-- A string literal of the source, as a C string. -/
def lit (s : String) : CStr := s.toList

/-- String literals of the source are read as C strings. -/
instance : Coe String CStr := ⟨lit⟩

/-- The libc `strstr` used as a test: `needle` occurs in `haystack`. -/
def strstr (haystack needle : CStr) : Bool :=
  haystack.tails.any (fun t => needle.isPrefixOf t)

/-! ## Values, events and the result of running a function -/

/-- A `double`, kept symbolic: the plugin only produces doubles by
converting an integer, by `atof`, or as the constant `NAN`. -/
inductive Double where
  | nan
  | ofU64 (u : Nat)
  | atof (s : CStr)
  deriving DecidableEq, Repr

/-- One `value_t` of a dispatched value list: a `derive_t` given as an
integer, a `derive_t` converted from a `double`, or a `gauge_t`. -/
inductive value_t where
  | derive (v : Int)
  | derive_of_double (d : Double)
  | gauge (g : Double)
  deriving DecidableEq, Repr

/-- Notification severities used by the plugin. -/
inductive Severity where
  | NOTIF_WARNING
  | NOTIF_OKAY
  deriving DecidableEq, Repr

/-- What the plugin hands to the daemon: the arguments of a call of `submit`
(type, type instance, values), or the severity and message of a dispatched
notification.  The copy into the fixed-size buffers of `value_list_t`
belongs to the daemon headers and is not part of the model. -/
inductive Event where
  | values (type : CStr) (type_instance : Option CStr) (values : List value_t)
  | notification (severity : Severity) (message : CStr)
  deriving DecidableEq, Repr

/-- The run of a piece of code: the events dispatched so far and its result;
`result = none` means that the process faulted (a NULL or uninitialised
pointer was dereferenced) after dispatching `events`. -/
structure Run (α : Type) where
  events : List Event
  result : Option α
  deriving Repr

namespace Run

/-- Sequencing: the events of both parts, unless the first part faulted. -/
def bind {α β : Type} (x : Run α) (f : α → Run β) : Run β :=
  match x.result with
  | none => ⟨x.events, none⟩
  | some a => ⟨x.events ++ (f a).events, (f a).result⟩

instance : Monad Run where
  pure a := ⟨[], some a⟩
  bind := Run.bind

/-- Dispatch one event. -/
def emit (e : Event) : Run Unit := ⟨[e], some ()⟩

/-- The process faults. -/
def fault {α : Type} : Run α := ⟨[], none⟩

/-- Dereference a nullable pointer. -/
def deref {α : Type} : Option α → Run α
  | some a => ⟨[], some a⟩
  | none => fault

end Run

/-- The constant `DATA_MAX_NAME_LEN` of collectd's `plugin.h`: the size of
the buffers `type` and `type_instance` of a value list. -/
def DATA_MAX_NAME_LEN : Nat := 64

/-- The function `sstrncpy (dest, src, n)` of collectd's `common.c`, as the
string left in `dest`: `strncpy (dest, src, n)` followed by
`dest[n - 1] = '\0'`, that is the first `n - 1` characters of `src`. -/
def sstrncpy (src : CStr) (n : Nat) : CStr := src.take (n - 1)

/-- The function `submit`: the type and, when it is not NULL, the type
instance are copied into the buffers of the value list, which is then
dispatched. -/
def submit (type : CStr) (type_instance : Option CStr) (values : List value_t) :
    Run Unit :=
  Run.emit (Event.values (sstrncpy type DATA_MAX_NAME_LEN)
    (type_instance.map (fun ti => sstrncpy ti DATA_MAX_NAME_LEN)) values)

/-- The function `counter_submit`. -/
def counter_submit (type : CStr) (type_instance : Option CStr) (value : value_t) :
    Run Unit :=
  submit type type_instance [value]

/-- The function `gauge_submit`. -/
def gauge_submit (type : CStr) (type_instance : Option CStr) (value : Double) :
    Run Unit :=
  submit type type_instance [value_t.gauge value]

/-- The function `derive_submit`. -/
def derive_submit (type : CStr) (type_instance : Option CStr) (value : value_t) :
    Run Unit :=
  submit type type_instance [value]

/-- The function `traffic_submit`. -/
def traffic_submit (rx tx : Int) : Run Unit :=
  submit "mysql_octets" none [value_t.derive rx, value_t.derive tx]

/-! ## The data model -/

/-- The structure `mysql_database_s`. `con` is the connection handle (`none`
for NULL); `state` is non-zero when the session is connected. -/
structure mysql_database_t where
  instance_name : Option CStr
  host : Option CStr
  user : Option CStr
  pass : Option CStr
  database : Option CStr
  socket : Option CStr
  port : Int
  master_stats : Bool
  slave_stats : Bool
  innodb_engine_stats : Bool
  slave_notif : Bool
  slave_io_running : Bool
  slave_sql_running : Bool
  aborted_stats : Bool
  bin_log_stats : Bool
  connection_stats : Bool
  innodb_stats : Bool
  key_stats : Bool
  open_stats : Bool
  query_stats : Bool
  select_stats : Bool
  semi_sync_stats : Bool
  slow_query_stats : Bool
  sort_stats : Bool
  table_lock_stats : Bool
  tmp_table_stats : Bool
  con : Option Nat
  state : Int
  deriving DecidableEq, Repr

/-- A row of a result: its cells, `none` for an SQL NULL. -/
abbrev MYSQL_ROW := List (Option CStr)

/-- A stored result (`MYSQL_RES`): the number of columns
(`mysql_num_fields`) and the rows, which `mysql_fetch_row` returns one after
the other.  In a result of the library every row has `num_fields` cells. -/
structure MYSQL_RES where
  num_fields : Nat
  rows : List MYSQL_ROW
  deriving DecidableEq, Repr

/-- The cell `row[i]`; a cell that the row does not have reads as NULL. -/
def cell (row : MYSQL_ROW) (i : Nat) : Option CStr := row.getD i none

/-! ## The global status loop of `mysql_read` -/

/-- The local variables of `mysql_read` that the status loop accumulates. -/
structure Locals where
  qcache_hits : Int
  qcache_inserts : Int
  qcache_not_cached : Int
  qcache_lowmem_prunes : Int
  qcache_queries_in_cache : Double
  threads_running : Double
  threads_connected : Double
  threads_cached : Double
  threads_created : Int
  traffic_incoming : Nat
  traffic_outgoing : Nat
  deriving DecidableEq, Repr

/-- The initial values of the locals of `mysql_read`. -/
def Locals.init : Locals :=
  { qcache_hits := 0, qcache_inserts := 0, qcache_not_cached := 0,
    qcache_lowmem_prunes := 0, qcache_queries_in_cache := Double.nan,
    threads_running := Double.nan, threads_connected := Double.nan,
    threads_cached := Double.nan, threads_created := 0,
    traffic_incoming := 0, traffic_outgoing := 0 }

/-- The body that the branches for a prefixed counter share:
`if (val == 0ULL) continue;` and then
`counter_submit (type, key + strlen (prefix), val, db)`. -/
def nonzero_counter (type : CStr) (type_instance : CStr) (val : Nat) (l : Locals) :
    Run Locals :=
  if val = 0 then pure l
  else do
    counter_submit type (some type_instance) (value_t.derive (toDerive val))
    pure l

/-- The body of the branch for the keys that start with `Com_`. -/
def classify_com (key : CStr) (val : Nat) (l : Locals) : Run Locals :=
  if val = 0 then pure l
  else if strncmp key "Com_stmt_" (strlen "Com_stmt_") ≠ 0 then do
    counter_submit "mysql_commands" (some (key.drop (strlen "Com_")))
      (value_t.derive (toDerive val))
    pure l
  else pure l

/-- The body of the branch for the keys that start with `Qcache_`. -/
def classify_qcache (key : CStr) (val : Nat) (l : Locals) : Locals :=
  if strcmp key "Qcache_hits" = 0 then
    { l with qcache_hits := toDerive val }
  else if strcmp key "Qcache_inserts" = 0 then
    { l with qcache_inserts := toDerive val }
  else if strcmp key "Qcache_not_cached" = 0 then
    { l with qcache_not_cached := toDerive val }
  else if strcmp key "Qcache_lowmem_prunes" = 0 then
    { l with qcache_lowmem_prunes := toDerive val }
  else if strcmp key "Qcache_queries_in_cache" = 0 then
    { l with qcache_queries_in_cache := Double.ofU64 val }
  else l

/-- The body of the branch for the keys that start with `Bytes_`. -/
def classify_bytes (key : CStr) (val : Nat) (l : Locals) : Locals :=
  if strcmp key "Bytes_received" = 0 then
    { l with traffic_incoming := (l.traffic_incoming + val) % 2 ^ 64 }
  else if strcmp key "Bytes_sent" = 0 then
    { l with traffic_outgoing := (l.traffic_outgoing + val) % 2 ^ 64 }
  else l

/-- The body of the branch for the keys that start with `Threads_`. -/
def classify_threads (key : CStr) (val : Nat) (l : Locals) : Locals :=
  if strcmp key "Threads_running" = 0 then
    { l with threads_running := Double.ofU64 val }
  else if strcmp key "Threads_connected" = 0 then
    { l with threads_connected := Double.ofU64 val }
  else if strcmp key "Threads_cached" = 0 then
    { l with threads_cached := Double.ofU64 val }
  else if strcmp key "Threads_created" = 0 then
    { l with threads_created := toDerive val }
  else l

/-- The cascade in the body of the status loop of `mysql_read`, for the key
`key` and the value `val` (an `unsigned long long`) of one row.  A
`continue` and the end of the body both return the locals. -/
def classify (db : mysql_database_t) (key : CStr) (val : Nat) (l : Locals) :
    Run Locals :=
  if strncmp key "Com_" (strlen "Com_") = 0 then
    classify_com key val l
  else if strncmp key "Binlog_" (strlen "Binlog_") = 0 ∧ db.bin_log_stats = true then
    nonzero_counter "mysql_binlog" (key.drop (strlen "Binlog_")) val l
  else if strncmp key "Connections" (strlen "Connections") = 0 ∧ db.connection_stats = true then
    nonzero_counter "mysql_connections" (key.drop (strlen "Connections")) val l
  else if strncmp key "Aborted_" (strlen "Aborted_") = 0 ∧ db.aborted_stats = true then
    nonzero_counter "mysql_aborted" (key.drop (strlen "Aborted_")) val l
  else if strncmp key "Max_used_connections" (strlen "Max_used_connections") = 0 ∧ db.connection_stats = true then
    nonzero_counter "mysql_max_used_connections" (key.drop (strlen "Max_used_connections")) val l
  else if strncmp key "Key_" (strlen "Key_") = 0 ∧ db.key_stats = true then
    nonzero_counter "mysql_key" (key.drop (strlen "Key_")) val l
  else if strncmp key "Queries" (strlen "Queries") = 0 ∧ db.query_stats = true then
    nonzero_counter "mysql_queries" (key.drop (strlen "Queries")) val l
  else if strncmp key "Questions" (strlen "Questions") = 0 ∧ db.query_stats = true then
    nonzero_counter "mysql_questions" (key.drop (strlen "Questions")) val l
  else if strncmp key "Select_" (strlen "Select_") = 0 ∧ db.select_stats = true then
    nonzero_counter "mysql_select" (key.drop (strlen "Select_")) val l
  else if strncmp key "Sort_" (strlen "Sort_") = 0 ∧ db.sort_stats = true then
    nonzero_counter "mysql_sort" (key.drop (strlen "Sort_")) val l
  else if strncmp key "Slow_" (strlen "Slow_") = 0 ∧ db.slow_query_stats = true then
    nonzero_counter "mysql_slow" (key.drop (strlen "Slow_")) val l
  else if strncmp key "Table_" (strlen "Table_") = 0 ∧ db.table_lock_stats = true then
    nonzero_counter "mysql_table" (key.drop (strlen "Table_")) val l
  else if strncmp key "Innodb_" (strlen "Innodb_") = 0 ∧ db.innodb_stats = true then
    nonzero_counter "mysql_innodb" (key.drop (strlen "Innodb_")) val l
  else if strncmp key "Open_" (strlen "Open_") = 0 ∧ db.open_stats = true then
    nonzero_counter "mysql_open" (key.drop (strlen "Open_")) val l
  else if strncmp key "Opened_" (strlen "Opened_") = 0 ∧ db.open_stats = true then
    nonzero_counter "mysql_opened" (key.drop (strlen "Opened_")) val l
  else if strncmp key "Rpl_" (strlen "Rpl_") = 0 ∧ db.semi_sync_stats = true then
    nonzero_counter "mysql_semisync" (key.drop (strlen "Rpl_")) val l
  else if strncmp key "Created_" (strlen "Created_") = 0 ∧ db.tmp_table_stats = true then
    nonzero_counter "mysql_created" (key.drop (strlen "Created_")) val l
  else if strncmp key "Handler_" (strlen "Handler_") = 0 then
    nonzero_counter "mysql_handler" (key.drop (strlen "Handler_")) val l
  else if strncmp key "Qcache_" (strlen "Qcache_") = 0 then
    pure (classify_qcache key val l)
  else if strncmp key "Bytes_" (strlen "Bytes_") = 0 then
    pure (classify_bytes key val l)
  else if strncmp key "Threads_" (strlen "Threads_") = 0 then
    pure (classify_threads key val l)
  else if strncmp key "Table_locks_" (strlen "Table_locks_") = 0 then do
    counter_submit "mysql_locks" (some (key.drop (strlen "Table_locks_")))
      (value_t.derive (toDerive val))
    pure l
  else pure l

/-- The body of the status loop for one fetched row: `key = row[0]`,
`val = atoll (row[1])`, then the cascade. -/
def mysql_read_row (db : mysql_database_t) (row : MYSQL_ROW) (l : Locals) :
    Run Locals := do
  let value ← Run.deref (cell row 1)
  let key ← Run.deref (cell row 0)
  classify db key (toU64 (atoll value)) l

/-- The status loop `while ((row = mysql_fetch_row (res)))`. -/
def mysql_read_loop (db : mysql_database_t) : List MYSQL_ROW → Locals → Run Locals
  | [], l => pure l
  | row :: rows, l => do
    let l ← mysql_read_row db row l
    mysql_read_loop db rows l

/-- The part of `mysql_read` after the status loop and before the optional
reports: the query cache group, the threads group and the traffic. -/
def mysql_read_totals (l : Locals) : Run Unit := do
  (if l.qcache_hits ≠ 0 ∨ l.qcache_inserts ≠ 0 ∨ l.qcache_not_cached ≠ 0
      ∨ l.qcache_lowmem_prunes ≠ 0 then do
    derive_submit "cache_result" (some "qcache-hits") (value_t.derive l.qcache_hits)
    derive_submit "cache_result" (some "qcache-inserts")
      (value_t.derive l.qcache_inserts)
    derive_submit "cache_result" (some "qcache-not_cached")
      (value_t.derive l.qcache_not_cached)
    derive_submit "cache_result" (some "qcache-prunes")
      (value_t.derive l.qcache_lowmem_prunes)
    gauge_submit "cache_size" (some "qcache") l.qcache_queries_in_cache
  else pure ())
  (if l.threads_created ≠ 0 then do
    gauge_submit "threads" (some "running") l.threads_running
    gauge_submit "threads" (some "connected") l.threads_connected
    gauge_submit "threads" (some "cached") l.threads_cached
    derive_submit "total_threads" (some "created") (value_t.derive l.threads_created)
  else pure ())
  traffic_submit (toDerive l.traffic_incoming) (toDerive l.traffic_outgoing)

/-! ## The connection -/

/-- What the MySQL client library answers during one read cycle: the result
of `mysql_ping`, of `mysql_init` (given the old handle), whether
`mysql_real_connect` succeeds, the server version, and for each query text
the status of `mysql_real_query` and the result of `mysql_store_result`. -/
structure Driver where
  ping : Int
  init : Option Nat → Option Nat
  real_connect : Bool
  server_version : Nat
  real_query : CStr → Int
  store_result : CStr → Option MYSQL_RES

/-- The second half of `getconnection`, from `mysql_init` on. -/
def getconnection_connect (drv : Driver) (db : mysql_database_t) :
    mysql_database_t × Option Nat :=
  let db := { db with con := drv.init db.con }
  if db.con = none then
    ({ db with state := 0 }, none)
  else if drv.real_connect = false then
    ({ db with state := 0 }, none)
  else
    ({ db with state := 1 }, db.con)

/-- The function `getconnection`: the updated database and the handle
(`none` for NULL). -/
def getconnection (drv : Driver) (db : mysql_database_t) :
    mysql_database_t × Option Nat :=
  if db.state ≠ 0 then
    if drv.ping ≠ 0 then
      getconnection_connect drv { db with state := 0 }
    else
      ({ db with state := 1 }, db.con)
  else getconnection_connect drv db

/-- The function `exec_query`. -/
def exec_query (drv : Driver) (query : CStr) : Option MYSQL_RES :=
  if drv.real_query query ≠ 0 then none
  else drv.store_result query

/-! ## The text splitters -/

/-- The tokens that successive calls of `strtok_r` return for a string: the
maximal runs of characters that are not in `delim`; `cur` is the token being
read, in reverse. -/
def strtok_all (delim : CStr) : CStr → CStr → List CStr
  | cur, [] => if cur = [] then [] else [cur.reverse]
  | cur, c :: cs =>
    if c ∈ delim then
      if cur = [] then strtok_all delim [] cs
      else cur.reverse :: strtok_all delim [] cs
    else strtok_all delim (c :: cur) cs

/-- The loop of `split_row` over the tokens still to come, `i` lines being
stored already: the lines it stores from here on. -/
def split_row_loop (size : Nat) : List CStr → Nat → List CStr
  | [], _ => []
  | t :: ts, i => t :: (if i + 1 ≥ size then [] else split_row_loop size ts (i + 1))

/-- The function `split_row`: the lines stored in `lines`; the return value
is their number. -/
def split_row (string : CStr) (size : Nat) : List CStr :=
  split_row_loop size (strtok_all "\n" [] string) 0

/-- A slot of the array `fields` of `mysql_innodb_engine_stats`: never
written, NULL, or a token. -/
inductive FieldSlot where
  | uninit
  | null
  | tok (s : CStr)
  deriving DecidableEq, Repr

/-- The loop of `split_line`: every token is stored in `fields[i]`, and so is
the NULL that ends the tokens; the slots after it keep their content. -/
def split_line_loop (size : Nat) : List CStr → Nat → List FieldSlot → List FieldSlot × Nat
  | [], i, fields => (fields.set i FieldSlot.null, i)
  | t :: ts, i, fields =>
    if i + 1 ≥ size then ((fields.set i (FieldSlot.tok t)), i + 1)
    else split_line_loop size ts (i + 1) (fields.set i (FieldSlot.tok t))

/-- The function `split_line`: the array `fields` after the call and the
return value. -/
def split_line (string : CStr) (fields : List FieldSlot) (size : Nat) :
    List FieldSlot × Nat :=
  split_line_loop size (strtok_all ", " [] string) 0 fields

/-! ## The master and slave reports -/

/-- The function `mysql_read_master_stats`. -/
def mysql_read_master_stats (drv : Driver) : Run Int :=
  match exec_query drv "SHOW MASTER STATUS" with
  | none => pure (-1)
  | some res =>
    match res.rows with
    | [] => pure (-1)
    | row :: _ =>
      if res.num_fields < 2 then pure (-1)
      else do
        let position := toU64 (atoll (← Run.deref (cell row 1)))
        counter_submit "mysql_log_position" (some "master-bin")
          (value_t.derive (toDerive position))
        pure 0

/-- The test `(p == NULL) || (strcasecmp (p, "yes") != 0)`. -/
def not_yes (p : Option CStr) : Bool :=
  match p with
  | none => true
  | some s => strcasecmp s "yes" ≠ 0

/-- The test `(p != NULL) && (strcasecmp (p, "yes") == 0)`. -/
def is_yes (p : Option CStr) : Bool :=
  match p with
  | none => false
  | some s => strcasecmp s "yes" = 0

/-- The message of the warning for the I/O thread. -/
def msg_io_stopped : CStr := "slave I/O thread not started or not connected to master"

/-- The message of the all-clear for the I/O thread. -/
def msg_io_started : CStr := "slave I/O thread started and connected to master"

/-- The message of the warning for the SQL thread. -/
def msg_sql_stopped : CStr := "slave SQL thread not started"

/-- The message of the all-clear for the SQL thread. -/
def msg_sql_started : CStr := "slave SQL thread started"

/-- The block `if (db->slave_stats)` of `mysql_read_slave_stats`. -/
def slave_stats_block (row : MYSQL_ROW) : Run Unit := do
  let counter := toU64 (atoll (← Run.deref (cell row 6)))
  counter_submit "mysql_log_position" (some "slave-read")
    (value_t.derive (toDerive counter))
  let counter := toU64 (atoll (← Run.deref (cell row 21)))
  counter_submit "mysql_log_position" (some "slave-exec")
    (value_t.derive (toDerive counter))
  match cell row 32 with
  | some s => gauge_submit "time_offset" none (Double.atof s)
  | none => pure ()

/-- The rule of the block `if (db->slave_notif)` for the I/O thread, with
`io = row[SLAVE_IO_RUNNING_IDX]`. -/
def slave_io_rule (db : mysql_database_t) (io : Option CStr) : Run mysql_database_t :=
  if not_yes io = true ∧ db.slave_io_running = true then do
    Run.emit (Event.notification Severity.NOTIF_WARNING msg_io_stopped)
    pure { db with slave_io_running := false }
  else if is_yes io = true ∧ db.slave_io_running = false then do
    Run.emit (Event.notification Severity.NOTIF_OKAY msg_io_started)
    pure { db with slave_io_running := true }
  else pure db

/-- The rule of the block `if (db->slave_notif)` for the SQL thread, with
`sql = row[SLAVE_SQL_RUNNING_IDX]`; its second branch assigns 0 to
`db->slave_sql_running`, as the source does. -/
def slave_sql_rule (db : mysql_database_t) (sql : Option CStr) : Run mysql_database_t :=
  if not_yes sql = true ∧ db.slave_sql_running = true then do
    Run.emit (Event.notification Severity.NOTIF_WARNING msg_sql_stopped)
    pure { db with slave_sql_running := false }
  else if is_yes sql = true ∧ db.slave_sql_running = false then do
    Run.emit (Event.notification Severity.NOTIF_OKAY msg_sql_started)
    pure { db with slave_sql_running := false }
  else pure db

/-- The block `if (db->slave_notif)` of `mysql_read_slave_stats`: the rule
for the I/O thread, then the rule for the SQL thread. -/
def slave_notif_block (db : mysql_database_t) (row : MYSQL_ROW) : Run mysql_database_t := do
  let db ← slave_io_rule db (cell row 10)
  slave_sql_rule db (cell row 11)

/-- The function `mysql_read_slave_stats`: the return value and the updated
database. -/
def mysql_read_slave_stats (db : mysql_database_t) (drv : Driver) :
    Run (Int × mysql_database_t) :=
  match exec_query drv "SHOW SLAVE STATUS" with
  | none => pure (-1, db)
  | some res =>
    match res.rows with
    | [] => pure (-1, db)
    | row :: _ =>
      if res.num_fields < 33 then pure (-1, db)
      else do
        (if db.slave_stats = true then slave_stats_block row else pure ())
        let db ← (if db.slave_notif = true then slave_notif_block db row else pure db)
        pure (0, db)

/-! ## The InnoDB engine report -/

/-- The value of a hexadecimal digit. -/
def hexval (c : Char) : Option Nat :=
  if 48 ≤ c.toNat ∧ c.toNat ≤ 57 then some (c.toNat - 48)
  else if 97 ≤ c.toNat ∧ c.toNat ≤ 102 then some (c.toNat - 87)
  else if 65 ≤ c.toNat ∧ c.toNat ≤ 70 then some (c.toNat - 55)
  else none

/-- The value of the longest prefix of hexadecimal digits, continuing `acc`. -/
def hexDigitsValue : Nat → CStr → Nat
  | acc, [] => acc
  | acc, c :: cs =>
    match hexval c with
    | some d => hexDigitsValue (acc * 16 + d) cs
    | none => acc

/-- The optional `0x` or `0X` of a hexadecimal number, skipped when a
hexadecimal digit follows it. -/
def skip0x : CStr → CStr
  | '0' :: x :: h :: t =>
    if (x = 'x' ∨ x = 'X') ∧ (hexval h).isSome then h :: t else '0' :: x :: h :: t
  | s => s

/-- The libc `strtol (s, NULL, 16)` with a 64-bit `long`: optional white
space, an optional sign, an optional `0x`, hexadecimal digits; a value out of
range is clamped. -/
def strtol16 (s : CStr) : Int :=
  match s.dropWhile isspace with
  | '-' :: r => max (- (hexDigitsValue 0 (skip0x r) : Int)) (- (2 : Int) ^ 63)
  | '+' :: r => min (hexDigitsValue 0 (skip0x r) : Int) ((2 : Int) ^ 63 - 1)
  | r => min (hexDigitsValue 0 (skip0x r) : Int) ((2 : Int) ^ 63 - 1)

/-- Conversion of a `long` to `int` (32 bits, two's complement). -/
def toInt32 (i : Int) : Int :=
  if i % (2 : Int) ^ 32 < (2 : Int) ^ 31 then i % (2 : Int) ^ 32
  else i % (2 : Int) ^ 32 - (2 : Int) ^ 32

/-- The locals of `mysql_innodb_engine_stats` that live across lines. -/
structure EngineLocals where
  fields : List FieldSlot
  txn_cnt : Int
  unpurge_cnt : Int
  deriving DecidableEq, Repr

/-- The locals at the start of the loop: `fields` is not initialised. -/
def EngineLocals.init : EngineLocals :=
  { fields := List.replicate 12 FieldSlot.uninit, txn_cnt := 0, unpurge_cnt := 0 }

/-- The token in `fields[k]`; reading a slot that is NULL or was never
written faults. -/
def field (fields : List FieldSlot) (k : Nat) : Run CStr :=
  match fields.getD k FieldSlot.uninit with
  | FieldSlot.tok s => pure s
  | _ => Run.fault

/-- The expression `atof (fields[k])`. -/
def atof_field (fields : List FieldSlot) (k : Nat) : Run Double := do
  let s ← field fields k
  pure (Double.atof s)

/-- The body of the loop of `mysql_innodb_engine_stats` for the line
`lines[i]`. -/
def innodb_line (line : CStr) (e : EngineLocals) : Run EngineLocals :=
  if strncmp "Mutex spin waits" line (strlen "Mutex spin waits") = 0 then do
    let fields := (split_line line e.fields 12).1
    counter_submit "mysql_semaphores" (some "mutex_spin_waits")
      (value_t.derive_of_double (← atof_field fields 3))
    counter_submit "mysql_semaphores" (some "mutex_spin_rounds")
      (value_t.derive_of_double (← atof_field fields 5))
    counter_submit "mysql_semaphores" (some "mutex_OS_waits")
      (value_t.derive_of_double (← atof_field fields 8))
    pure { e with fields := fields }
  else if strncmp "RW-shared spins" line (strlen "RW-shared spins") = 0
      ∧ strstr line ";" = true then do
    let fields := (split_line line e.fields 12).1
    counter_submit "mysql_semaphores" (some "rw_shared_spin_waits")
      (value_t.derive_of_double (← atof_field fields 2))
    counter_submit "mysql_semaphores" (some "rw_shared_os_waits")
      (value_t.derive_of_double (← atof_field fields 5))
    counter_submit "mysql_semaphores" (some "rw_excl_spin_waits")
      (value_t.derive_of_double (← atof_field fields 8))
    counter_submit "mysql_semaphores" (some "rw_excl_os_waits")
      (value_t.derive_of_double (← atof_field fields 11))
    pure { e with fields := fields }
  else if strncmp "RW-shared spins" line (strlen "RW-shared spins") = 0
      ∧ ¬ (strstr line "RW-excl spins" = true) then do
    let fields := (split_line line e.fields 12).1
    counter_submit "mysql_semaphores" (some "rw_shared_spin_waits")
      (value_t.derive_of_double (← atof_field fields 2))
    counter_submit "mysql_semaphores" (some "rw_shared_os_waits")
      (value_t.derive_of_double (← atof_field fields 7))
    pure { e with fields := fields }
  else if strncmp "RW-excl spins" line (strlen "RW-shared spins") = 0 then do
    counter_submit "mysql_semaphores" (some "rw_excl_spin_waits")
      (value_t.derive_of_double (← atof_field e.fields 2))
    counter_submit "mysql_semaphores" (some "rw_excl_os_waits")
      (value_t.derive_of_double (← atof_field e.fields 7))
    pure e
  else if strncmp "Trx id counter" line (strlen "Trx id counter") = 0 then do
    let fields := (split_line line e.fields 12).1
    let txn_cnt := toInt32 (strtol16 (← field fields 3))
    derive_submit "innodb_trx" (some "total_transactions") (value_t.derive txn_cnt)
    pure { e with fields := fields, txn_cnt := txn_cnt }
  else if strncmp "Purge done for trx" line (strlen "Trx id counter") = 0 then do
    let fields := (split_line line e.fields 12).1
    let unpurge_cnt := toInt32 (e.txn_cnt - strtol16 (← field fields 6))
    derive_submit "innodb_trx" (some "current_transactions")
      (value_t.derive unpurge_cnt)
    pure { e with fields := fields, unpurge_cnt := unpurge_cnt }
  else if strncmp "History list length" line (strlen "History list length") = 0 then do
    let fields := (split_line line e.fields 12).1
    derive_submit "innodb_trx" (some "history_list")
      (value_t.derive_of_double (← atof_field fields 3))
    pure { e with fields := fields }
  else if strncmp "Buffer pool size " line (strlen "Buffer pool size ") = 0 then do
    let fields := (split_line line e.fields 12).1
    gauge_submit "innodb_buffer_pool" (some "pool_size") (← atof_field fields 3)
    pure { e with fields := fields }
  else if strncmp "Free buffers" line (strlen "Free buffers") = 0 then do
    let fields := (split_line line e.fields 12).1
    gauge_submit "innodb_buffer_pool" (some "free_pages") (← atof_field fields 2)
    pure { e with fields := fields }
  else if strncmp "Database pages" line (strlen "Database pages") = 0 then do
    let fields := (split_line line e.fields 12).1
    gauge_submit "innodb_buffer_pool" (some "database_pages") (← atof_field fields 2)
    pure { e with fields := fields }
  else if strncmp "Modified db pages" line (strlen "Modified db pages") = 0 then do
    let fields := (split_line line e.fields 12).1
    gauge_submit "innodb_buffer_pool" (some "modified_db_pages")
      (← atof_field fields 3)
    pure { e with fields := fields }
  else if strncmp "Pages read ahead" line (strlen "Pages read ahead") = 0 then
    pure e
  else if strncmp "Pages read" line (strlen "Pages read") = 0 then do
    let fields := (split_line line e.fields 12).1
    derive_submit "innodb_buffer_pool_activity" (some "pages_read")
      (value_t.derive_of_double (← atof_field fields 2))
    derive_submit "innodb_buffer_pool_activity" (some "pages_created")
      (value_t.derive_of_double (← atof_field fields 4))
    derive_submit "innodb_buffer_pool_activity" (some "pages_written")
      (value_t.derive_of_double (← atof_field fields 6))
    pure { e with fields := fields }
  else if strstr line " OS file reads" = true then do
    let fields := (split_line line e.fields 12).1
    derive_submit "innodb_io_activity" (some "file_reads")
      (value_t.derive_of_double (← atof_field fields 0))
    derive_submit "innodb_io_activity" (some "file_writes")
      (value_t.derive_of_double (← atof_field fields 4))
    derive_submit "innodb_io_activity" (some "file_syncs")
      (value_t.derive_of_double (← atof_field fields 8))
    pure { e with fields := fields }
  else if strstr line " log i/o's done, " = true then do
    let fields := (split_line line e.fields 12).1
    derive_submit "innodb_io_activity" (some "log_writes")
      (value_t.derive_of_double (← atof_field fields 0))
    pure { e with fields := fields }
  else pure e

/-- The loop `for (i = 0; i < numlines; ++i)` of `mysql_innodb_engine_stats`. -/
def innodb_lines : List CStr → EngineLocals → Run EngineLocals
  | [], e => pure e
  | line :: lines, e => do
    let e ← innodb_line line e
    innodb_lines lines e

/-- The function `mysql_innodb_engine_stats`. -/
def mysql_innodb_engine_stats (drv : Driver) : Run Int :=
  match exec_query drv "SHOW /*!50000 ENGINE*/ INNODB STATUS" with
  | none => pure (-1)
  | some res =>
    match res.rows with
    | [] => pure (-1)
    | row :: _ =>
      if res.num_fields < 3 then pure (-1)
      else do
        let lines := split_row (← Run.deref (cell row 2)) 150
        let _ ← innodb_lines lines EngineLocals.init
        pure 0

/-! ## The read callback -/

/-- The end of `mysql_read`: the optional reports and `return (0)`. -/
def mysql_read_reports (drv : Driver) (db : mysql_database_t) :
    Run (Int × Option mysql_database_t) := do
  let _ ← (if db.master_stats = true then mysql_read_master_stats drv else pure 0)
  let db ← (if db.slave_stats = true ∨ db.slave_notif = true then do
      let r ← mysql_read_slave_stats db drv
      pure r.2
    else pure db)
  let _ ← (if db.innodb_engine_stats = true then mysql_innodb_engine_stats drv
    else pure 0)
  pure (0, some db)

/-- The function `mysql_read`, with `ud->data` as `ud` (`none` when `ud` or
`ud->data` is NULL): the return value and the database after the cycle. -/
def mysql_read (drv : Driver) (ud : Option mysql_database_t) :
    Run (Int × Option mysql_database_t) :=
  match ud with
  | none => pure (-1, none)
  | some db =>
    match getconnection drv db with
    | (db, none) => pure (-1, some db)
    | (db, some _) =>
      let query : CStr :=
        if drv.server_version ≥ 50002 then "SHOW GLOBAL STATUS" else "SHOW STATUS"
      match exec_query drv query with
      | none => pure (-1, some db)
      | some res => do
        let l ← mysql_read_loop db res.rows Locals.init
        mysql_read_totals l
        mysql_read_reports drv db

/-! ## Configuration -/

/-- A value of a configuration item (`oconfig_value_t`). -/
inductive oconfig_value_t where
  | string (s : CStr)
  | number (n : Int)
  | boolean (b : Bool)
  deriving DecidableEq, Repr

/-- A child of a configuration block: its key and its values. -/
structure oconfig_child_t where
  key : CStr
  values : List oconfig_value_t
  deriving DecidableEq, Repr

/-- A configuration block (`oconfig_item_t`): its key, its values and its
children. -/
structure oconfig_item_t where
  key : CStr
  values : List oconfig_value_t
  children : List oconfig_child_t
  deriving DecidableEq, Repr

/-- The helpers of the daemon that read a configuration value and are not
part of this source file (`cf_util_get_string`, `cf_util_get_boolean`,
`cf_util_get_port_number`), taken as parameters: the first two give the value
they store, or `none` for a non-zero status; the third gives the port or a
non-positive status. -/
structure CfUtil where
  get_string : CStr → List oconfig_value_t → Option CStr
  get_boolean : CStr → List oconfig_value_t → Option Bool
  get_port_number : CStr → List oconfig_value_t → Int

/-- The database after `malloc`, `memset` and the initialising assignments
of `mysql_config_database`. -/
def mysql_database_t.fresh : mysql_database_t :=
  { instance_name := none, host := none, user := none, pass := none,
    database := none, socket := none, port := 0,
    master_stats := false, slave_stats := false, innodb_engine_stats := false,
    slave_notif := false,
    slave_io_running := true, slave_sql_running := true,
    aborted_stats := false, bin_log_stats := false, connection_stats := false,
    innodb_stats := false, key_stats := false, open_stats := false,
    query_stats := false, select_stats := false, semi_sync_stats := false,
    slow_query_stats := false, sort_stats := false, table_lock_stats := false,
    tmp_table_stats := false, con := none, state := 0 }

/-- The body of the loop of `mysql_config_database` over the children: the
database after one child when `status` is zero, `none` when it is not (the
loop is left and the database freed). -/
def mysql_config_child (cf : CfUtil) (db : mysql_database_t) (child : oconfig_child_t) :
    Option mysql_database_t :=
  if strcasecmp "Host" child.key = 0 then
    (cf.get_string child.key child.values).map (fun v => { db with host := some v })
  else if strcasecmp "User" child.key = 0 then
    (cf.get_string child.key child.values).map (fun v => { db with user := some v })
  else if strcasecmp "Password" child.key = 0 then
    (cf.get_string child.key child.values).map (fun v => { db with pass := some v })
  else if strcasecmp "Port" child.key = 0 then
    if cf.get_port_number child.key child.values > 0 then
      some { db with port := cf.get_port_number child.key child.values }
    else if cf.get_port_number child.key child.values = 0 then some db
    else none
  else if strcasecmp "Socket" child.key = 0 then
    (cf.get_string child.key child.values).map (fun v => { db with socket := some v })
  else if strcasecmp "Database" child.key = 0 then
    (cf.get_string child.key child.values).map (fun v => { db with database := some v })
  else if strcasecmp "MasterStats" child.key = 0 then
    (cf.get_boolean child.key child.values).map (fun b => { db with master_stats := b })
  else if strcasecmp "SlaveStats" child.key = 0 then
    (cf.get_boolean child.key child.values).map (fun b => { db with slave_stats := b })
  else if strcasecmp "SlaveNotifications" child.key = 0 then
    (cf.get_boolean child.key child.values).map (fun b => { db with slave_notif := b })
  else if strcasecmp "AbortedStats" child.key = 0 then
    (cf.get_boolean child.key child.values).map (fun b => { db with aborted_stats := b })
  else if strcasecmp "BinlogStats" child.key = 0 then
    (cf.get_boolean child.key child.values).map (fun b => { db with bin_log_stats := b })
  else if strcasecmp "ConnectionStats" child.key = 0 then
    (cf.get_boolean child.key child.values).map (fun b => { db with connection_stats := b })
  else if strcasecmp "InnodbStats" child.key = 0 then
    (cf.get_boolean child.key child.values).map (fun b => { db with innodb_stats := b })
  else if strcasecmp "KeyStats" child.key = 0 then
    (cf.get_boolean child.key child.values).map (fun b => { db with key_stats := b })
  else if strcasecmp "OpenStats" child.key = 0 then
    (cf.get_boolean child.key child.values).map (fun b => { db with open_stats := b })
  else if strcasecmp "QueryStats" child.key = 0 then
    (cf.get_boolean child.key child.values).map (fun b => { db with query_stats := b })
  else if strcasecmp "SelectStats" child.key = 0 then
    (cf.get_boolean child.key child.values).map (fun b => { db with select_stats := b })
  else if strcasecmp "SemiSyncStats" child.key = 0 then
    (cf.get_boolean child.key child.values).map (fun b => { db with semi_sync_stats := b })
  else if strcasecmp "SlowQueryStats" child.key = 0 then
    (cf.get_boolean child.key child.values).map (fun b => { db with slow_query_stats := b })
  else if strcasecmp "SortStats" child.key = 0 then
    (cf.get_boolean child.key child.values).map (fun b => { db with sort_stats := b })
  else if strcasecmp "TableLockStats" child.key = 0 then
    (cf.get_boolean child.key child.values).map (fun b => { db with table_lock_stats := b })
  else if strcasecmp "TmpTableStats" child.key = 0 then
    (cf.get_boolean child.key child.values).map (fun b => { db with tmp_table_stats := b })
  else if strcasecmp "InnodbEngineStats" child.key = 0 then
    (cf.get_boolean child.key child.values).map (fun b => { db with innodb_engine_stats := b })
  else none

/-- The loop of `mysql_config_database` over the children, left at the first
non-zero status. -/
def mysql_config_children (cf : CfUtil) :
    List oconfig_child_t → mysql_database_t → Option mysql_database_t
  | [], db => some db
  | child :: rest, db =>
    match mysql_config_child cf db child with
    | none => none
    | some db => mysql_config_children cf rest db

/-- The test of `mysql_config_database` on the values of the block: exactly
one value, a string. -/
def one_string_value : List oconfig_value_t → Bool
  | [oconfig_value_t.string _] => true
  | _ => false

/-- The function `mysql_config_database`: the database it registers for
reading when it returns 0, `none` when it returns an error. -/
def mysql_config_database (cf : CfUtil) (ci : oconfig_item_t) :
    Option mysql_database_t :=
  if one_string_value ci.values = false then none
  else
    match cf.get_string ci.key ci.values with
    | none => none
    | some name =>
      mysql_config_children cf ci.children
        { mysql_database_t.fresh with instance_name := some name }

/-! ## Vocabulary of the statements -/

/-- The events of a run all satisfy `P`. -/
def Run.All {α : Type} (P : Event → Prop) (r : Run α) : Prop := ∀ e ∈ r.events, P e

/-- The run has the result `a`: it does not fault. -/
def Run.Gives {α : Type} (a : α) (r : Run α) : Prop := r.result = some a

/-- The run dispatches nothing. -/
def Run.Silent {α : Type} (r : Run α) : Prop := r.events = []

/-- The event is a value list of type `type` with type instance `ti`. -/
def Event.isSample (type : CStr) (ti : Option CStr) : Event → Bool
  | Event.values t i _ => t = type && i = ti
  | Event.notification _ _ => false

/-- The event is a value list of type `type`. -/
def Event.hasType (type : CStr) : Event → Bool
  | Event.values t _ _ => t = type
  | Event.notification _ _ => false

/-- The event is a value list whose type is one of `types`. -/
def Event.typeIn (types : List CStr) : Event → Bool
  | Event.values t _ _ => types.contains t
  | Event.notification _ _ => false

/-- The proposition that the event is a value list of one of the `types`. -/
def Event.InTypes (types : List CStr) (e : Event) : Prop := e.typeIn types = true

/-- The types of the value lists that the status loop dispatches. -/
def status_loop_types : List CStr :=
  ["mysql_commands", "mysql_binlog", "mysql_connections", "mysql_aborted",
   "mysql_max_used_connections", "mysql_key", "mysql_queries", "mysql_questions",
   "mysql_select", "mysql_sort", "mysql_slow", "mysql_table", "mysql_innodb",
   "mysql_open", "mysql_opened", "mysql_semisync", "mysql_created", "mysql_handler",
   "mysql_locks"]

/-- A C string holds no NUL character. -/
def NoNul (s : CStr) : Prop := ∀ c ∈ s, c.toNat ≠ 0

instance (s : CStr) : Decidable (NoNul s) := by unfold NoNul; infer_instance

/-- The row of a status result for a key and a value, both present. -/
def statusRow (p : CStr × CStr) : MYSQL_ROW := [some p.1, some p.2]

/-- The `unsigned long long` that `mysql_read` reads from a value cell. -/
def cellValue (value : CStr) : Nat := toU64 (atoll value)

/-- The value of the key `k` in a status table given as (key, value) pairs:
that of the last row with this key, and 0 when there is none. -/
def statusValue (kv : List (CStr × CStr)) (k : CStr) : Nat :=
  kv.foldl (fun acc p => if p.1 = k then cellValue p.2 else acc) 0

/-- The sum of the values of all rows with the key `k`. -/
def statusSum (kv : List (CStr × CStr)) (k : CStr) : Nat :=
  ((kv.filter (fun p => p.1 = k)).map (fun p => cellValue p.2)).sum

/-- The locals after the cascade, which do not depend on the flags: only
the branches for `Qcache_`, `Bytes_` and `Threads_` assign them. -/
def classify_locals (key : CStr) (val : Nat) (l : Locals) : Locals :=
  if strncmp key "Qcache_" (strlen "Qcache_") = 0 then classify_qcache key val l
  else if strncmp key "Bytes_" (strlen "Bytes_") = 0 then classify_bytes key val l
  else if strncmp key "Threads_" (strlen "Threads_") = 0 then classify_threads key val l
  else l

/-- The locals after the status loop over a table of (key, value) pairs. -/
def loop_locals (kv : List (CStr × CStr)) (l : Locals) : Locals :=
  kv.foldl (fun l p => classify_locals p.1 (cellValue p.2) l) l

/-- The types of the value lists that the optional reports dispatch. -/
def report_types : List CStr :=
  ["mysql_log_position", "time_offset", "mysql_semaphores", "innodb_trx",
   "innodb_buffer_pool", "innodb_buffer_pool_activity", "innodb_io_activity"]

/-- The event is a notification or a value list of one of the `types`. -/
def Event.NotifOr (types : List CStr) : Event → Prop
  | Event.values t _ _ => types.contains t = true
  | Event.notification _ _ => True

/-- The query text that `mysql_read` sends for the global status. -/
def status_query (drv : Driver) : CStr :=
  if drv.server_version ≥ 50002 then "SHOW GLOBAL STATUS" else "SHOW STATUS"

/-- The test of `mysql_read` for the query cache group. -/
abbrev cache_test (l : Locals) : Prop :=
  l.qcache_hits ≠ 0 ∨ l.qcache_inserts ≠ 0 ∨ l.qcache_not_cached ≠ 0
    ∨ l.qcache_lowmem_prunes ≠ 0

/-- The value lists of the query cache group. -/
def cache_events (l : Locals) : List Event :=
  [Event.values "cache_result" (some "qcache-hits") [value_t.derive l.qcache_hits],
   Event.values "cache_result" (some "qcache-inserts") [value_t.derive l.qcache_inserts],
   Event.values "cache_result" (some "qcache-not_cached")
     [value_t.derive l.qcache_not_cached],
   Event.values "cache_result" (some "qcache-prunes")
     [value_t.derive l.qcache_lowmem_prunes],
   Event.values "cache_size" (some "qcache") [value_t.gauge l.qcache_queries_in_cache]]

/-- The value lists of the threads group. -/
def thread_events (l : Locals) : List Event :=
  [Event.values "threads" (some "running") [value_t.gauge l.threads_running],
   Event.values "threads" (some "connected") [value_t.gauge l.threads_connected],
   Event.values "threads" (some "cached") [value_t.gauge l.threads_cached],
   Event.values "total_threads" (some "created") [value_t.derive l.threads_created]]

/-- The value list of the traffic. -/
def traffic_event (l : Locals) : Event :=
  Event.values "mysql_octets" none
    [value_t.derive (toDerive l.traffic_incoming),
     value_t.derive (toDerive l.traffic_outgoing)]

/-- The type and type instance of the five metrics of the query cache group. -/
def cache_samples : List (CStr × CStr) :=
  [("cache_result", "qcache-hits"), ("cache_result", "qcache-inserts"),
   ("cache_result", "qcache-not_cached"), ("cache_result", "qcache-prunes"),
   ("cache_size", "qcache")]

/-- The type and type instance of the four metrics of the threads group. -/
def thread_samples : List (CStr × CStr) :=
  [("threads", "running"), ("threads", "connected"), ("threads", "cached"),
   ("total_threads", "created")]

/-- A client library for the examples: the session connects, the server is
recent enough for `SHOW GLOBAL STATUS`, and that query returns the rows of
`status`; `mysql_real_query` fails for every other query. -/
def exampleDriver (status : List (CStr × CStr)) : Driver :=
  { ping := 0, init := fun _ => some 1, real_connect := true, server_version := 50500,
    real_query := fun q => if q = lit "SHOW GLOBAL STATUS" then 0 else 1,
    store_result := fun _ => some ⟨2, status.map statusRow⟩ }

/-- A status table for the examples. -/
def exampleStatus : List (CStr × CStr) :=
  [("Qcache_hits", "0"), ("Qcache_inserts", "7"), ("Qcache_queries_in_cache", "3"),
   ("Threads_running", "2"), ("Threads_created", "9"), ("Bytes_received", "100"),
   ("Bytes_sent", "250"), ("Bytes_received", "1"), ("Com_select", "5")]

/-- Successive calls of `mysql_read_slave_stats` on the same database, one
per element of `drvs`: the events of all of them and the database after the
last one. -/
def slave_run : mysql_database_t → List Driver → Run mysql_database_t
  | db, [] => pure db
  | db, drv :: drvs => do
    let r ← mysql_read_slave_stats db drv
    slave_run r.2 drvs

/-- The events of each of the successive calls of `mysql_read_slave_stats`,
tick by tick. -/
def slave_ticks : mysql_database_t → List Driver → List (List Event)
  | _, [] => []
  | db, drv :: drvs =>
    (mysql_read_slave_stats db drv).events ::
      (match (mysql_read_slave_stats db drv).result with
       | some r => slave_ticks r.2 drvs
       | none => [])

/-- The event is a notification about the I/O thread. -/
def Event.isIoNotification : Event → Bool
  | Event.notification _ m => m = msg_io_stopped || m = msg_io_started
  | Event.values _ _ _ => false

/-- The event is a notification about the SQL thread. -/
def Event.isSqlNotification : Event → Bool
  | Event.notification _ m => m = msg_sql_stopped || m = msg_sql_started
  | Event.values _ _ _ => false

/-- The event is no notification about a replication thread. -/
def Event.NoThreadNotif (e : Event) : Prop :=
  e.isIoNotification = false ∧ e.isSqlNotification = false

/-- The call of `mysql_read_slave_stats` with the driver `drv` observes the
thread states `io` and `sql`: the query succeeds with a first row of at least
33 columns that holds `io` and `sql` in the columns 10 and 11; when the
positions are read (`stats`), the columns 6 and 21 are not NULL. -/
def Observes (stats : Bool) (drv : Driver) (io sql : Option CStr) : Prop :=
  ∃ res row rest, exec_query drv (lit "SHOW SLAVE STATUS") = some res
    ∧ res.rows = row :: rest ∧ 33 ≤ res.num_fields
    ∧ cell row 10 = io ∧ cell row 11 = sql
    ∧ (stats = true → (cell row 6).isSome = true ∧ (cell row 21).isSome = true)

/-- A row of `SHOW SLAVE STATUS` for the examples: 33 columns, the thread
states `io` and `sql` in the columns 10 and 11. -/
def exampleSlaveRow (io sql : Option CStr) : MYSQL_ROW :=
  ((List.replicate 33 (some (lit "0"))).set 10 io).set 11 sql

/-- A client library for the examples, in which `SHOW SLAVE STATUS` returns
one row with the thread states `io` and `sql`. -/
def exampleSlaveDriver (io sql : Option CStr) : Driver :=
  { ping := 0, init := fun _ => some 1, real_connect := true, server_version := 50500,
    real_query := fun _ => 0,
    store_result := fun _ => some ⟨33, [exampleSlaveRow io sql]⟩ }

/-- A database for the examples: the defaults, with notifications enabled. -/
def exampleNotifDb : mysql_database_t :=
  { mysql_database_t.fresh with slave_notif := true }

/-- Configuration helpers for the examples: a single string, a single
boolean, a single number. -/
def exampleCf : CfUtil :=
  { get_string := fun _ vs =>
      match vs with
      | [oconfig_value_t.string s] => some s
      | _ => none,
    get_boolean := fun _ vs =>
      match vs with
      | [oconfig_value_t.boolean b] => some b
      | _ => none,
    get_port_number := fun _ vs =>
      match vs with
      | [oconfig_value_t.number n] => n
      | _ => -1 }

/-- A configuration block for the examples: a database `db1` with
`SlaveNotifications true`. -/
def exampleConfig : oconfig_item_t :=
  { key := lit "Database", values := [oconfig_value_t.string (lit "db1")],
    children := [{ key := lit "Host", values := [oconfig_value_t.string (lit "h")] },
                 { key := lit "SlaveNotifications", values := [oconfig_value_t.boolean true] }] }

/-- The database that `mysql_config_database` registers for `exampleConfig`. -/
def exampleConfigDb : mysql_database_t :=
  { mysql_database_t.fresh with
    instance_name := some (lit "db1"), host := some (lit "h"), slave_notif := true }

/-- The configuration step leaves the recorded thread states of `db`. -/
def KeepsRunning (db : mysql_database_t) (o : Option mysql_database_t) : Prop :=
  ∀ db2, o = some db2 →
    db2.slave_io_running = db.slave_io_running
      ∧ db2.slave_sql_running = db.slave_sql_running

/-! ## Vocabulary of the splitter statements -/

/-- The maximal runs of characters of `s` that are not in `delim`, in
order: `s` cut at every delimiter, the empty pieces left out. -/
def runs (delim : CStr) (s : CStr) : List CStr :=
  (s.splitOnP (fun c => decide (c ∈ delim))).filter (fun t => decide (t ≠ []))

/-- The fields of a line: its maximal runs without comma and space. -/
def fieldsOf (line : CStr) : List CStr := runs [',', ' '] line

/-- The non-empty newline-delimited segments of a blob. -/
def linesOf (blob : CStr) : List CStr := runs ['\n'] blob

/-- What `split_line` hands back to its caller: the first `n` slots of
the array, `n` being the returned count. -/
def split_line_fields (line : CStr) (fields : List FieldSlot) (size : Nat) :
    List FieldSlot :=
  (split_line line fields size).1.take (split_line line fields size).2

/-! ## Vocabulary of the classifier statements -/

/-- The prefix tests of the status cascade in source order: the prefix,
whether the test is enabled for the target (its category flag, `true` for a
test without one), and the family of the individual sample of the branch
(`none` for the three groups that are only accumulated). -/
def cascade_tests (db : mysql_database_t) : List (CStr × Bool × Option CStr) :=
  [("Com_", true, some "mysql_commands"),
   ("Binlog_", db.bin_log_stats, some "mysql_binlog"),
   ("Connections", db.connection_stats, some "mysql_connections"),
   ("Aborted_", db.aborted_stats, some "mysql_aborted"),
   ("Max_used_connections", db.connection_stats, some "mysql_max_used_connections"),
   ("Key_", db.key_stats, some "mysql_key"),
   ("Queries", db.query_stats, some "mysql_queries"),
   ("Questions", db.query_stats, some "mysql_questions"),
   ("Select_", db.select_stats, some "mysql_select"),
   ("Sort_", db.sort_stats, some "mysql_sort"),
   ("Slow_", db.slow_query_stats, some "mysql_slow"),
   ("Table_", db.table_lock_stats, some "mysql_table"),
   ("Innodb_", db.innodb_stats, some "mysql_innodb"),
   ("Open_", db.open_stats, some "mysql_open"),
   ("Opened_", db.open_stats, some "mysql_opened"),
   ("Rpl_", db.semi_sync_stats, some "mysql_semisync"),
   ("Created_", db.tmp_table_stats, some "mysql_created"),
   ("Handler_", true, some "mysql_handler"),
   ("Qcache_", true, none),
   ("Bytes_", true, none),
   ("Threads_", true, none),
   ("Table_locks_", true, some "mysql_locks")]

/-- The test `t` is enabled and its prefix starts the key. -/
def test_matches (key : CStr) (t : CStr × Bool × Option CStr) : Bool :=
  t.2.1 && t.1.isPrefixOf key

/-- The first test in cascade order that matches the key with its flag
enabled. -/
def first_test (db : mysql_database_t) (key : CStr) : Option (CStr × Bool × Option CStr) :=
  (cascade_tests db).find? (test_matches key)

/-- The key starts with `p`. -/
def StartsWith (key p : CStr) : Prop := ∃ rest, key = p ++ rest

/-- The gated families of the status loop, each with the category flag of
the target that enables it. -/
def gated_families (db : mysql_database_t) : List (CStr × Bool) :=
  [("mysql_binlog", db.bin_log_stats),
   ("mysql_connections", db.connection_stats),
   ("mysql_aborted", db.aborted_stats),
   ("mysql_max_used_connections", db.connection_stats),
   ("mysql_key", db.key_stats),
   ("mysql_queries", db.query_stats),
   ("mysql_questions", db.query_stats),
   ("mysql_select", db.select_stats),
   ("mysql_sort", db.sort_stats),
   ("mysql_slow", db.slow_query_stats),
   ("mysql_table", db.table_lock_stats),
   ("mysql_innodb", db.innodb_stats),
   ("mysql_open", db.open_stats),
   ("mysql_opened", db.open_stats),
   ("mysql_semisync", db.semi_sync_stats),
   ("mysql_created", db.tmp_table_stats)]

/-- The category flag that gates the family `t`; `true` for a family that is
not gated. -/
def family_flag (db : mysql_database_t) (t : CStr) : Bool :=
  match (gated_families db).lookup t with
  | some f => f
  | none => true

/-- A value list of a gated family has the flag of its family enabled. -/
def Event.FlagOn (db : mysql_database_t) : Event → Prop
  | Event.values t _ _ => family_flag db t = true
  | Event.notification _ _ => True

/-- Every category flag of the target is disabled. -/
def all_flags_off (db : mysql_database_t) : Prop :=
  db.aborted_stats = false ∧ db.bin_log_stats = false ∧ db.connection_stats = false ∧
  db.innodb_stats = false ∧ db.key_stats = false ∧ db.open_stats = false ∧
  db.query_stats = false ∧ db.select_stats = false ∧ db.semi_sync_stats = false ∧
  db.slow_query_stats = false ∧ db.sort_stats = false ∧ db.table_lock_stats = false ∧
  db.tmp_table_stats = false

/-- At most one value list, and it is that of the first matching test: the
family of the test, as type instance the first `DATA_MAX_NAME_LEN - 1`
characters of the key without the prefix of the test, and the one value
`v`. -/
def FirstMatch (db : mysql_database_t) (key : CStr) (v : Int) (r : Run Locals) : Prop :=
  r.events.length ≤ 1 ∧
  ∀ e ∈ r.events, ∃ p fam rest, first_test db key = some (p, true, some fam) ∧
    key = p ++ rest ∧
    e = Event.values fam (some (rest.take (DATA_MAX_NAME_LEN - 1))) [value_t.derive v]

/-- A target with the connection statistics enabled, for the examples. -/
def exampleConnectionsDb : mysql_database_t :=
  { mysql_database_t.fresh with connection_stats := true }

/-! ## Vocabulary of the engine report statements -/

/-- A server that answers every query with one row of three columns, the
third being the text `blob`. -/
def engineDriver (blob : CStr) : Driver :=
  { ping := 0, init := fun _ => some 1, real_connect := true, server_version := 50500,
    real_query := fun _ => 0,
    store_result := fun _ => some ⟨3, [[some (lit "InnoDB"), some (lit ""), some blob]]⟩ }

/-- The event is not the value list of type `type` with type instance `ti`. -/
def Event.Other (type : CStr) (ti : Option CStr) (e : Event) : Prop :=
  e.isSample type ti = false

/-- The run dispatches at most one value list of type `type` with type
instance `ti`. -/
def Run.AtMostOnce {α : Type} (type : CStr) (ti : Option CStr) (r : Run α) : Prop :=
  r.events.countP (Event.isSample type ti) ≤ 1

/-- The line passes none of the tests of the cascade of the parser loop. -/
def Unmatched (line : CStr) : Prop :=
  ¬ strncmp "Mutex spin waits" line (strlen "Mutex spin waits") = 0 ∧
  ¬ (strncmp "RW-shared spins" line (strlen "RW-shared spins") = 0
      ∧ strstr line ";" = true) ∧
  ¬ (strncmp "RW-shared spins" line (strlen "RW-shared spins") = 0
      ∧ ¬ (strstr line "RW-excl spins" = true)) ∧
  ¬ strncmp "RW-excl spins" line (strlen "RW-shared spins") = 0 ∧
  ¬ strncmp "Trx id counter" line (strlen "Trx id counter") = 0 ∧
  ¬ strncmp "Purge done for trx" line (strlen "Trx id counter") = 0 ∧
  ¬ strncmp "History list length" line (strlen "History list length") = 0 ∧
  ¬ strncmp "Buffer pool size " line (strlen "Buffer pool size ") = 0 ∧
  ¬ strncmp "Free buffers" line (strlen "Free buffers") = 0 ∧
  ¬ strncmp "Database pages" line (strlen "Database pages") = 0 ∧
  ¬ strncmp "Modified db pages" line (strlen "Modified db pages") = 0 ∧
  ¬ strncmp "Pages read ahead" line (strlen "Pages read ahead") = 0 ∧
  ¬ strncmp "Pages read" line (strlen "Pages read") = 0 ∧
  ¬ strstr line " OS file reads" = true ∧
  ¬ strstr line " log i/o's done, " = true

/-- The server answers the engine status query of `drv` with a result of at
least three columns whose first row has the text `blob` in its third cell. -/
def Reports (drv : Driver) (blob : CStr) : Prop :=
  ∃ res row rest, exec_query drv "SHOW /*!50000 ENGINE*/ INNODB STATUS" = some res ∧
    res.rows = row :: rest ∧ 3 ≤ res.num_fields ∧ cell row 2 = some blob

/-- When the run has a result, the result satisfies `Q`. -/
def Run.Post {α : Type} (Q : α → Prop) (r : Run α) : Prop :=
  ∀ a, r.result = some a → Q a

/-- The array `fields` of the locals has its 12 slots. -/
def TwelveSlots (e : EngineLocals) : Prop := e.fields.length = 12

/-! ## Vocabulary of the error handling statements -/

/-- The spellings of `yes` in upper and lower case ASCII letters. -/
def yes_spellings : List CStr :=
  ["yes", "yeS", "yEs", "yES", "Yes", "YeS", "YEs", "YES"]

/-- The cell is not NULL and holds one of the spellings of `yes`. -/
def SaysYes (p : Option CStr) : Prop := ∃ s, p = some s ∧ s ∈ yes_spellings

/-- A nullable C string holds no NUL character. -/
def NoNulCell (p : Option CStr) : Prop := ∀ s, p = some s → NoNul s

/-- The statement `if (db->master_stats) mysql_read_master_stats (db, con);`
of `mysql_read`. -/
def master_report (drv : Driver) (db : mysql_database_t) : Run Int :=
  if db.master_stats = true then mysql_read_master_stats drv else pure 0

/-- The statement `if ((db->slave_stats) || (db->slave_notif))
mysql_read_slave_stats (db, con);` of `mysql_read`: the database after it. -/
def slave_report (drv : Driver) (db : mysql_database_t) : Run mysql_database_t :=
  if db.slave_stats = true ∨ db.slave_notif = true then do
    let r ← mysql_read_slave_stats db drv
    pure r.2
  else pure db

/-- The statement `if (db->innodb_engine_stats) mysql_innodb_engine_stats
(db, con);` of `mysql_read`. -/
def engine_report (drv : Driver) (db : mysql_database_t) : Run Int :=
  if db.innodb_engine_stats = true then mysql_innodb_engine_stats drv else pure 0

/-- The query `q` of a report fails, or its result fails the shape check of
the report: no row, or fewer than `n` columns. -/
def QueryFails (drv : Driver) (q : CStr) (n : Nat) : Prop :=
  match exec_query drv q with
  | none => True
  | some res => res.rows = [] ∨ res.num_fields < n

/-- A server for the examples that answers the queries of the reports with
one row of three columns, and on which the global status query fails. -/
def statusFailDriver : Driver :=
  { ping := 0, init := fun _ => some 1, real_connect := true, server_version := 50500,
    real_query := fun q => if q = lit "SHOW GLOBAL STATUS" then 1 else 0,
    store_result := fun _ =>
      some ⟨3, [[some (lit "binlog.000001"), some (lit "7"), some (lit "Free buffers 10")]]⟩ }

/-- A database for the examples with the master report and the engine report
enabled. -/
def exampleReportsDb : mysql_database_t :=
  { mysql_database_t.fresh with master_stats := true, innodb_engine_stats := true }

/-- The session state of the database is consistent: a connected state has
a handle. `mysql_config_database` starts in it and `getconnection` keeps
it. -/
def SessionOk (db : mysql_database_t) : Prop := db.state ≠ 0 → db.con ≠ none

/-! ## Vocabulary of the statement on the flags of the reports -/

/-- The types of the value lists of the engine report. -/
def engine_types : List CStr :=
  ["mysql_semaphores", "innodb_trx", "innodb_buffer_pool", "innodb_buffer_pool_activity",
   "innodb_io_activity"]

/-- A value list has a non-empty type name. -/
def Event.named : Event → Bool
  | Event.values t _ _ => !t.isEmpty
  | Event.notification _ _ => true

/-- The flag of the target that gates the event: `master_stats` for the
position `master-bin`, `slave_stats` for the positions `slave-read` and
`slave-exec` and for `time_offset`, `innodb_engine_stats` for the types of
the engine report, `slave_notif` for a notification; `true` for an event of
no optional report. -/
def Event.report_flag (db : mysql_database_t) : Event → Bool
  | Event.values t ti _ =>
    if t = lit "mysql_log_position" ∧ ti = some (lit "master-bin") then db.master_stats
    else if (t = lit "mysql_log_position"
        ∧ (ti = some (lit "slave-read") ∨ ti = some (lit "slave-exec")))
        ∨ t = lit "time_offset" then db.slave_stats
    else if engine_types.contains t then db.innodb_engine_stats
    else true
  | Event.notification _ _ => db.slave_notif

/-- The event has a non-empty type name and the flag that gates it is
enabled. -/
def Event.Allowed (db : mysql_database_t) (e : Event) : Prop :=
  e.named = true ∧ e.report_flag db = true

/-- The database `db1` has the report flags of `db`. -/
def SameFlags (db db1 : mysql_database_t) : Prop :=
  db1.master_stats = db.master_stats ∧ db1.slave_stats = db.slave_stats ∧
  db1.slave_notif = db.slave_notif ∧ db1.innodb_engine_stats = db.innodb_engine_stats

/-- The database `db1` has the recorded thread states of `db`. -/
def SameThreads (db db1 : mysql_database_t) : Prop :=
  db1.slave_io_running = db.slave_io_running ∧ db1.slave_sql_running = db.slave_sql_running

/-- The database after the slave report: the flags of `db`, and `db` itself
when the notifications are disabled. -/
def AfterSlave (db d : mysql_database_t) : Prop :=
  SameFlags db d ∧ (db.slave_notif = false → d = db)

/-- The database returned by a cycle, when there is one, has the recorded
thread states of `db`. -/
def KeepsThreads (db : mysql_database_t) (r : Int × Option mysql_database_t) : Prop :=
  ∀ db2, r.2 = some db2 →
    db2.slave_io_running = db.slave_io_running ∧ db2.slave_sql_running = db.slave_sql_running

/-! ## Runs -/

@[simp] theorem Run.events_pure {α : Type} (a : α) : (pure a : Run α).events = [] := rfl

@[simp] theorem Run.result_pure {α : Type} (a : α) : (pure a : Run α).result = some a := rfl

theorem Run.bind_def {α β : Type} (x : Run α) (f : α → Run β) :
    (x >>= f) = Run.bind x f := rfl

theorem Run.events_bind {α β : Type} (x : Run α) (f : α → Run β) :
    (x >>= f).events
      = x.events ++ (match x.result with | none => [] | some a => (f a).events) := by
  rw [Run.bind_def]; unfold Run.bind
  cases x.result <;> simp

theorem Run.events_bind_some {α β : Type} (x : Run α) (f : α → Run β) (a : α)
    (h : x.result = some a) : (x >>= f).events = x.events ++ (f a).events := by
  rw [Run.events_bind, h]

theorem Run.result_bind_some {α β : Type} (x : Run α) (f : α → Run β) (a : α)
    (h : x.result = some a) : (x >>= f).result = (f a).result := by
  rw [Run.bind_def]; unfold Run.bind; rw [h]

theorem Run.result_bind_none {α β : Type} (x : Run α) (f : α → Run β)
    (h : x.result = none) : (x >>= f).result = none := by
  rw [Run.bind_def]; unfold Run.bind; rw [h]

theorem Run.All_pure {α : Type} (P : Event → Prop) (a : α) : Run.All P (pure a : Run α) := by
  intro e he; simp at he

theorem Run.All_bind {α β : Type} {P : Event → Prop} {x : Run α} {f : α → Run β}
    (hx : Run.All P x) (hf : ∀ a, Run.All P (f a)) : Run.All P (x >>= f) := by
  intro e he
  rw [Run.events_bind] at he
  rcases List.mem_append.mp he with h | h
  · exact hx e h
  · cases hr : x.result with
    | none => rw [hr] at h; simp at h
    | some a => rw [hr] at h; exact hf a e h

theorem Run.All_emit {P : Event → Prop} {e : Event} (h : P e) : Run.All P (Run.emit e) := by
  intro e' he'
  simp [Run.emit] at he'
  rw [he']; exact h

theorem Run.All_fault {α : Type} (P : Event → Prop) : Run.All P (Run.fault : Run α) := by
  intro e he; simp [Run.fault] at he

theorem Run.All_deref {α : Type} (P : Event → Prop) (o : Option α) :
    Run.All P (Run.deref o) := by
  cases o
  · exact Run.All_fault P
  · intro e he; simp [Run.deref] at he

theorem Run.All_of_silent {α : Type} {P : Event → Prop} {r : Run α} (h : Run.Silent r) :
    Run.All P r := by
  intro e he; rw [h] at he; simp at he

/-- Case analysis on an `if`, for goals of the form `P (if c then a else b)`. -/
theorem ite_ind {α : Type} {P : α → Prop} {c : Prop} [Decidable c] {a b : α}
    (ha : c → P a) (hb : ¬ c → P b) : P (if c then a else b) := by
  by_cases h : c
  · rw [if_pos h]; exact ha h
  · rw [if_neg h]; exact hb h

/-! ## C strings -/

theorem char_sub_ne_zero {a b : Char} (h : a ≠ b) : (a.toNat : Int) - (b.toNat : Int) ≠ 0 := by
  intro h0
  apply h
  have : a.toNat = b.toNat := by omega
  exact Char.ext (UInt32.ext this)

theorem strncmp_zero_split {p : CStr} (hp : NoNul p) :
    ∀ key : CStr, strncmp key p p.length = 0 → ∃ r, key = p ++ r := by
  induction p with
  | nil => intro key _; exact ⟨key, rfl⟩
  | cons b bs ih =>
    intro key h
    have hb : b.toNat ≠ 0 := hp b (List.mem_cons_self _ _)
    have hbs : NoNul bs := fun c hc => hp c (List.mem_cons_of_mem _ hc)
    cases key with
    | nil =>
      simp [strncmp] at h
      exact absurd h hb
    | cons a as =>
      simp only [List.length_cons, strncmp] at h
      by_cases hab : a = b
      · rw [if_pos hab] at h
        obtain ⟨r, hr⟩ := ih hbs as h
        exact ⟨r, by rw [hab, hr]; rfl⟩
      · rw [if_neg hab] at h
        exact absurd h (char_sub_ne_zero hab)

theorem strcmp_eq_zero {a : CStr} : ∀ b : CStr, NoNul a → NoNul b → strcmp a b = 0 → a = b := by
  induction a with
  | nil =>
    intro b _ hb h
    cases b with
    | nil => rfl
    | cons c cs =>
      simp [strcmp] at h
      exact absurd h (hb c (List.mem_cons_self _ _))
  | cons x xs ih =>
    intro b ha hb h
    cases b with
    | nil =>
      simp [strcmp] at h
      exact absurd h (ha x (List.mem_cons_self _ _))
    | cons c cs =>
      simp only [strcmp] at h
      by_cases hxc : x = c
      · rw [if_pos hxc] at h
        rw [hxc, ih cs (fun d hd => ha d (List.mem_cons_of_mem _ hd))
          (fun d hd => hb d (List.mem_cons_of_mem _ hd)) h]
      · rw [if_neg hxc] at h
        exact absurd h (char_sub_ne_zero hxc)

theorem strcmp_self (a : CStr) : strcmp a a = 0 := by
  induction a with
  | nil => rfl
  | cons x xs ih => simp [strcmp, ih]

theorem Run.gives_pure {α : Type} (a : α) : Run.Gives a (pure a : Run α) := rfl

/-! ## The cascade of the status loop -/

theorem prefix_of_strncmp {key p : CStr} (h : strncmp key p (strlen p) = 0) (hp : NoNul p) :
    ∃ r, key = p ++ r := strncmp_zero_split hp key h

theorem prefix_of_strncmp_and {key p : CStr} {q : Prop} (h : strncmp key p (strlen p) = 0 ∧ q)
    (hp : NoNul p) : ∃ r, key = p ++ r := strncmp_zero_split hp key h.1

theorem classify_locals_other (p r : CStr) (val : Nat) (l : Locals)
    (h1 : strncmp (p ++ r) "Qcache_" (strlen "Qcache_") ≠ 0)
    (h2 : strncmp (p ++ r) "Bytes_" (strlen "Bytes_") ≠ 0)
    (h3 : strncmp (p ++ r) "Threads_" (strlen "Threads_") ≠ 0) :
    classify_locals (p ++ r) val l = l := by
  unfold classify_locals
  rw [if_neg h1, if_neg h2, if_neg h3]

/-- The cascade never faults, and its result is `classify_locals`. -/
theorem classify_gives (db : mysql_database_t) (key : CStr) (val : Nat) (l : Locals) :
    Run.Gives (classify_locals key val l) (classify db key val l) := by
  unfold classify
  repeat' (apply ite_ind <;> intro _)
  all_goals first
    | (obtain ⟨r, rfl⟩ := prefix_of_strncmp (by assumption) (by decide)
       rw [classify_locals_other _ _ _ _ (by simp [lit, strncmp, strlen])
         (by simp [lit, strncmp, strlen]) (by simp [lit, strncmp, strlen])]
       rfl)
    | (obtain ⟨r, rfl⟩ := prefix_of_strncmp_and (by assumption) (by decide)
       rw [classify_locals_other _ _ _ _ (by simp [lit, strncmp, strlen])
         (by simp [lit, strncmp, strlen]) (by simp [lit, strncmp, strlen])]
       rfl)
    | (unfold classify_locals; rw [if_pos (by assumption)]; rfl)
    | (unfold classify_locals; rw [if_neg (by assumption), if_pos (by assumption)]; rfl)
    | (unfold classify_locals
       rw [if_neg (by assumption), if_neg (by assumption), if_pos (by assumption)]; rfl)
    | (unfold classify_locals
       rw [if_neg (by assumption), if_neg (by assumption), if_neg (by assumption)]; rfl)

theorem All_counter_submit {P : Event → Prop} {t : CStr} {ti : Option CStr} {v : value_t}
    (h : P (Event.values (sstrncpy t DATA_MAX_NAME_LEN)
      (ti.map (fun s => sstrncpy s DATA_MAX_NAME_LEN)) [v])) :
    Run.All P (counter_submit t ti v) :=
  Run.All_emit h

theorem inTypes_values {ts : List CStr} {t : CStr} {ti : Option CStr} {vs : List value_t}
    (h : ts.contains t = true) : Event.InTypes ts (Event.values t ti vs) := h

/-- Every value list of the cascade has one of the types of the status loop. -/
theorem classify_all (db : mysql_database_t) (key : CStr) (val : Nat) (l : Locals) :
    Run.All (Event.InTypes status_loop_types) (classify db key val l) := by
  unfold classify
  repeat' (apply ite_ind <;> intro _)
  all_goals first
    | exact Run.All_pure _ _
    | exact Run.All_bind (All_counter_submit (inTypes_values (by decide))) (fun _ => Run.All_pure _ _)

/-- A zero value dispatches nothing, unless the cascade reaches the branch
for `Table_locks_`. -/
theorem classify_zero_silent (db : mysql_database_t) (key : CStr) (l : Locals)
    (h : strncmp key "Table_locks_" (strlen "Table_locks_") ≠ 0 ∨ db.table_lock_stats = true) :
    Run.Silent (classify db key 0 l) := by
  unfold classify
  repeat' (apply ite_ind <;> intro _)
  all_goals first
    | rfl
    | exact absurd rfl (by assumption : ¬ (0 : Nat) = 0)
    | skip
  have hT : ¬ (strncmp key "Table_" (strlen "Table_") = 0 ∧ db.table_lock_stats = true) := by
    assumption
  have hL : strncmp key "Table_locks_" (strlen "Table_locks_") = 0 := by assumption
  rcases h with h | h
  · exact absurd hL h
  · exfalso
    apply hT
    refine ⟨?_, h⟩
    obtain ⟨r, rfl⟩ := prefix_of_strncmp hL (by decide)
    simp [lit, strncmp, strlen]

/-! ## The status loop and the reports -/

theorem mysql_read_row_statusRow (db : mysql_database_t) (p : CStr × CStr) (l : Locals) :
    mysql_read_row db (statusRow p) l = classify db p.1 (cellValue p.2) l := rfl

/-- The status loop over well-formed rows never faults. -/
theorem mysql_read_loop_gives (db : mysql_database_t) (kv : List (CStr × CStr)) :
    ∀ l : Locals, Run.Gives (loop_locals kv l) (mysql_read_loop db (kv.map statusRow) l) := by
  induction kv with
  | nil => intro l; rfl
  | cons p kv ih =>
    intro l
    show (mysql_read_row db (statusRow p) l >>= fun l => mysql_read_loop db (kv.map statusRow) l).result
      = some _
    rw [mysql_read_row_statusRow, Run.result_bind_some _ _ _ (classify_gives db p.1 (cellValue p.2) l)]
    exact ih _

theorem mysql_read_loop_all (db : mysql_database_t) (rows : List MYSQL_ROW) :
    ∀ l : Locals, Run.All (Event.InTypes status_loop_types) (mysql_read_loop db rows l) := by
  induction rows with
  | nil => intro l; exact Run.All_pure _ _
  | cons row rows ih =>
    intro l
    refine Run.All_bind ?_ (fun l => ih l)
    refine Run.All_bind (Run.All_deref _ _) (fun value => ?_)
    refine Run.All_bind (Run.All_deref _ _) (fun key => ?_)
    exact classify_all db key _ l

theorem All_gauge_submit {P : Event → Prop} {t : CStr} {ti : Option CStr} {v : Double}
    (h : P (Event.values (sstrncpy t DATA_MAX_NAME_LEN)
      (ti.map (fun s => sstrncpy s DATA_MAX_NAME_LEN)) [value_t.gauge v])) :
    Run.All P (gauge_submit t ti v) :=
  Run.All_emit h

theorem All_derive_submit {P : Event → Prop} {t : CStr} {ti : Option CStr} {v : value_t}
    (h : P (Event.values (sstrncpy t DATA_MAX_NAME_LEN)
      (ti.map (fun s => sstrncpy s DATA_MAX_NAME_LEN)) [v])) :
    Run.All P (derive_submit t ti v) :=
  Run.All_emit h

theorem notifOr_values {ts : List CStr} {t : CStr} {ti : Option CStr} {vs : List value_t}
    (h : ts.contains t = true) : Event.NotifOr ts (Event.values t ti vs) := h

theorem notifOr_notification (ts : List CStr) (s : Severity) (m : CStr) :
    Event.NotifOr ts (Event.notification s m) := trivial

theorem mysql_read_master_stats_all (drv : Driver) :
    Run.All (Event.NotifOr report_types) (mysql_read_master_stats drv) := by
  unfold mysql_read_master_stats
  cases exec_query drv (lit "SHOW MASTER STATUS") with
  | none => exact Run.All_pure _ _
  | some res =>
    obtain ⟨nf, rows⟩ := res
    cases rows with
    | nil => exact Run.All_pure _ _
    | cons row _ =>
      show Run.All _ (if nf < _ then _ else _)
      apply ite_ind <;> intro _
      · exact Run.All_pure _ _
      · refine Run.All_bind (Run.All_deref _ _) (fun _ => ?_)
        exact Run.All_bind (All_counter_submit (notifOr_values (by decide)))
          (fun _ => Run.All_pure _ _)

theorem slave_stats_block_all (row : MYSQL_ROW) :
    Run.All (Event.NotifOr report_types) (slave_stats_block row) := by
  unfold slave_stats_block
  refine Run.All_bind (Run.All_deref _ _) (fun _ => ?_)
  refine Run.All_bind (All_counter_submit (notifOr_values (by decide))) (fun _ => ?_)
  refine Run.All_bind (Run.All_deref _ _) (fun _ => ?_)
  refine Run.All_bind (All_counter_submit (notifOr_values (by decide))) (fun _ => ?_)
  cases cell row 32 with
  | none => exact Run.All_pure _ _
  | some s => exact All_gauge_submit (notifOr_values (by decide))

theorem slave_io_rule_all (db : mysql_database_t) (io : Option CStr) :
    Run.All (Event.NotifOr report_types) (slave_io_rule db io) := by
  unfold slave_io_rule
  repeat' (apply ite_ind <;> intro _)
  all_goals first
    | exact Run.All_pure _ _
    | exact Run.All_bind (Run.All_emit (notifOr_notification _ _ _)) (fun _ => Run.All_pure _ _)

theorem slave_sql_rule_all (db : mysql_database_t) (sql : Option CStr) :
    Run.All (Event.NotifOr report_types) (slave_sql_rule db sql) := by
  unfold slave_sql_rule
  repeat' (apply ite_ind <;> intro _)
  all_goals first
    | exact Run.All_pure _ _
    | exact Run.All_bind (Run.All_emit (notifOr_notification _ _ _)) (fun _ => Run.All_pure _ _)

theorem mysql_read_slave_stats_all (db : mysql_database_t) (drv : Driver) :
    Run.All (Event.NotifOr report_types) (mysql_read_slave_stats db drv) := by
  unfold mysql_read_slave_stats
  cases exec_query drv (lit "SHOW SLAVE STATUS") with
  | none => exact Run.All_pure _ _
  | some res =>
    obtain ⟨nf, rows⟩ := res
    cases rows with
    | nil => exact Run.All_pure _ _
    | cons row _ =>
      show Run.All _ (if nf < _ then _ else _)
      apply ite_ind <;> intro _
      · exact Run.All_pure _ _
      · refine Run.All_bind ?_ (fun _ => Run.All_bind ?_ (fun _ => Run.All_pure _ _))
        · apply ite_ind <;> intro _
          · exact slave_stats_block_all row
          · exact Run.All_pure _ _
        · apply ite_ind <;> intro _
          · exact Run.All_bind (slave_io_rule_all _ _) (fun _ => slave_sql_rule_all _ _)
          · exact Run.All_pure _ _

theorem field_silent (fields : List FieldSlot) (k : Nat) : Run.Silent (field fields k) := by
  unfold field
  cases fields.getD k FieldSlot.uninit <;> rfl

theorem All_field (P : Event → Prop) (fields : List FieldSlot) (k : Nat) :
    Run.All P (field fields k) := Run.All_of_silent (field_silent fields k)

theorem All_atof_field (P : Event → Prop) (fields : List FieldSlot) (k : Nat) :
    Run.All P (atof_field fields k) :=
  Run.All_bind (All_field P fields k) (fun _ => Run.All_pure _ _)

theorem innodb_line_all (line : CStr) (e : EngineLocals) :
    Run.All (Event.NotifOr report_types) (innodb_line line e) := by
  unfold innodb_line
  repeat' (apply ite_ind <;> intro _)
  all_goals
    repeat' first
      | exact Run.All_pure _ _
      | exact All_atof_field _ _ _
      | exact All_field _ _ _
      | exact All_counter_submit (notifOr_values (by decide))
      | exact All_derive_submit (notifOr_values (by decide))
      | exact All_gauge_submit (notifOr_values (by decide))
      | (refine Run.All_bind ?_ (fun _ => ?_))

theorem innodb_lines_all (lines : List CStr) :
    ∀ e : EngineLocals, Run.All (Event.NotifOr report_types) (innodb_lines lines e) := by
  induction lines with
  | nil => intro e; exact Run.All_pure _ _
  | cons line lines ih =>
    intro e
    exact Run.All_bind (innodb_line_all line e) (fun e => ih e)

theorem mysql_innodb_engine_stats_all (drv : Driver) :
    Run.All (Event.NotifOr report_types) (mysql_innodb_engine_stats drv) := by
  unfold mysql_innodb_engine_stats
  cases exec_query drv (lit "SHOW /*!50000 ENGINE*/ INNODB STATUS") with
  | none => exact Run.All_pure _ _
  | some res =>
    obtain ⟨nf, rows⟩ := res
    cases rows with
    | nil => exact Run.All_pure _ _
    | cons row _ =>
      show Run.All _ (if nf < _ then _ else _)
      apply ite_ind <;> intro _
      · exact Run.All_pure _ _
      · refine Run.All_bind (Run.All_deref _ _) (fun _ => ?_)
        exact Run.All_bind (innodb_lines_all _ _) (fun _ => Run.All_pure _ _)

theorem mysql_read_reports_all (drv : Driver) (db : mysql_database_t) :
    Run.All (Event.NotifOr report_types) (mysql_read_reports drv db) := by
  unfold mysql_read_reports
  refine Run.All_bind ?_ (fun _ => Run.All_bind ?_ (fun _ => Run.All_bind ?_ (fun _ => Run.All_pure _ _)))
  · apply ite_ind <;> intro _
    · exact mysql_read_master_stats_all drv
    · exact Run.All_pure _ _
  · apply ite_ind <;> intro _
    · exact Run.All_bind (mysql_read_slave_stats_all _ _) (fun _ => Run.All_pure _ _)
    · exact Run.All_pure _ _
  · apply ite_ind <;> intro _
    · exact mysql_innodb_engine_stats_all drv
    · exact Run.All_pure _ _

theorem mysql_read_totals_events (l : Locals) :
    (mysql_read_totals l).events
      = (if cache_test l then cache_events l else [])
        ++ (if l.threads_created ≠ 0 then thread_events l else [])
        ++ [traffic_event l] := by
  unfold mysql_read_totals
  by_cases h1 : cache_test l <;> by_cases h2 : l.threads_created ≠ 0
  · simp only [if_pos h1, if_pos h2]; rfl
  · simp only [if_pos h1, if_neg h2]; rfl
  · simp only [if_neg h1, if_pos h2]; rfl
  · simp only [if_neg h1, if_neg h2]; rfl

theorem mysql_read_totals_gives (l : Locals) : Run.Gives () (mysql_read_totals l) := by
  unfold mysql_read_totals
  by_cases h1 : cache_test l <;> by_cases h2 : l.threads_created ≠ 0
  · simp only [if_pos h1, if_pos h2]; rfl
  · simp only [if_pos h1, if_neg h2]; rfl
  · simp only [if_neg h1, if_pos h2]; rfl
  · simp only [if_neg h1, if_neg h2]; rfl

/-- The events of a cycle that gets a connection and a status result: those
of the status loop, of the groups after it, and of the optional reports. -/
theorem mysql_read_events (drv : Driver) (db : mysql_database_t) (res : MYSQL_RES)
    (kv : List (CStr × CStr))
    (hcon : (getconnection drv db).2 ≠ none)
    (hq : exec_query drv (status_query drv) = some res)
    (hrows : res.rows = kv.map statusRow) :
    (mysql_read drv (some db)).events
      = (mysql_read_loop (getconnection drv db).1 (kv.map statusRow) Locals.init).events
        ++ (mysql_read_totals (loop_locals kv Locals.init)).events
        ++ (mysql_read_reports drv (getconnection drv db).1).events := by
  unfold mysql_read
  rcases hg : getconnection drv db with ⟨db1, con⟩
  rw [hg] at hcon
  cases con with
  | none => exact absurd rfl hcon
  | some c =>
    simp only [hg]
    have hq' : exec_query drv (if drv.server_version ≥ 50002 then lit "SHOW GLOBAL STATUS"
        else lit "SHOW STATUS") = some res := hq
    rw [hq']
    simp only [hrows]
    rw [Run.events_bind_some _ _ _ (mysql_read_loop_gives db1 kv Locals.init),
      Run.events_bind_some _ _ _ (mysql_read_totals_gives _), List.append_assoc]

/-! ## The locals of the status loop -/

theorem strcmp_ne_zero {key K : CStr} (hk : NoNul key) (hK : NoNul K) (h : key ≠ K) :
    strcmp key K ≠ 0 := fun h0 => h (strcmp_eq_zero K hk hK h0)

theorem toU64_lt (i : Int) : toU64 i < 2 ^ 64 := by
  unfold toU64
  have h : i % (2 : Int) ^ 64 < (2 : Int) ^ 64 := Int.emod_lt_of_pos _ (by norm_num)
  have h0 : 0 ≤ i % (2 : Int) ^ 64 := Int.emod_nonneg _ (by norm_num)
  omega

theorem cellValue_lt (v : CStr) : cellValue v < 2 ^ 64 := toU64_lt _

theorem toDerive_eq_zero_iff {u : Nat} (h : u < 2 ^ 64) : toDerive u = 0 ↔ u = 0 := by
  unfold toDerive
  rw [Nat.mod_eq_of_lt h]
  split_ifs with h1
  · omega
  · constructor
    · intro h2; omega
    · intro h2; omega

theorem toU64_toDerive (u : Nat) : toU64 (toDerive u) = u % 2 ^ 64 := by
  unfold toU64 toDerive
  have h : u % 2 ^ 64 < 2 ^ 64 := Nat.mod_lt _ (by norm_num)
  split_ifs with h1
  · omega
  · omega

/-- Case analysis on an `if` under a function. -/
theorem ite_proj {α β : Type} (f : α → β) (v : β) {c : Prop} [Decidable c] {a b : α}
    (ha : c → f a = v) (hb : ¬ c → f b = v) : f (if c then a else b) = v := by
  by_cases h : c
  · rw [if_pos h]; exact ha h
  · rw [if_neg h]; exact hb h

/-- The local `threads_created` after the cascade. -/
theorem classify_locals_threads_created (key : CStr) (val : Nat) (l : Locals) (hk : NoNul key) :
    (classify_locals key val l).threads_created
      = if key = lit "Threads_created" then toDerive val else l.threads_created := by
  by_cases h : key = lit "Threads_created"
  · rw [if_pos h, h]; rfl
  · rw [if_neg h]
    have h0 := strcmp_ne_zero hk (by decide) h
    unfold classify_locals classify_qcache classify_bytes classify_threads
    repeat' (apply ite_proj <;> intro _)
    all_goals first
      | rfl
      | (exfalso; exact h0 (by assumption))

/-- The local `qcache_hits` after the cascade. -/
theorem classify_locals_qcache_hits (key : CStr) (val : Nat) (l : Locals) (hk : NoNul key) :
    (classify_locals key val l).qcache_hits
      = if key = lit "Qcache_hits" then toDerive val else l.qcache_hits := by
  by_cases h : key = lit "Qcache_hits"
  · rw [if_pos h, h]; rfl
  · rw [if_neg h]
    have h0 := strcmp_ne_zero hk (by decide) h
    unfold classify_locals classify_qcache classify_bytes classify_threads
    repeat' (apply ite_proj <;> intro _)
    all_goals first
      | rfl
      | (exfalso; exact h0 (by assumption))

/-- The local `qcache_inserts` after the cascade. -/
theorem classify_locals_qcache_inserts (key : CStr) (val : Nat) (l : Locals) (hk : NoNul key) :
    (classify_locals key val l).qcache_inserts
      = if key = lit "Qcache_inserts" then toDerive val else l.qcache_inserts := by
  by_cases h : key = lit "Qcache_inserts"
  · rw [if_pos h, h]; rfl
  · rw [if_neg h]
    have h0 := strcmp_ne_zero hk (by decide) h
    unfold classify_locals classify_qcache classify_bytes classify_threads
    repeat' (apply ite_proj <;> intro _)
    all_goals first
      | rfl
      | (exfalso; exact h0 (by assumption))

/-- The local `qcache_not_cached` after the cascade. -/
theorem classify_locals_qcache_not_cached (key : CStr) (val : Nat) (l : Locals) (hk : NoNul key) :
    (classify_locals key val l).qcache_not_cached
      = if key = lit "Qcache_not_cached" then toDerive val else l.qcache_not_cached := by
  by_cases h : key = lit "Qcache_not_cached"
  · rw [if_pos h, h]; rfl
  · rw [if_neg h]
    have h0 := strcmp_ne_zero hk (by decide) h
    unfold classify_locals classify_qcache classify_bytes classify_threads
    repeat' (apply ite_proj <;> intro _)
    all_goals first
      | rfl
      | (exfalso; exact h0 (by assumption))

/-- The local `qcache_lowmem_prunes` after the cascade. -/
theorem classify_locals_qcache_lowmem_prunes (key : CStr) (val : Nat) (l : Locals) (hk : NoNul key) :
    (classify_locals key val l).qcache_lowmem_prunes
      = if key = lit "Qcache_lowmem_prunes" then toDerive val else l.qcache_lowmem_prunes := by
  by_cases h : key = lit "Qcache_lowmem_prunes"
  · rw [if_pos h, h]; rfl
  · rw [if_neg h]
    have h0 := strcmp_ne_zero hk (by decide) h
    unfold classify_locals classify_qcache classify_bytes classify_threads
    repeat' (apply ite_proj <;> intro _)
    all_goals first
      | rfl
      | (exfalso; exact h0 (by assumption))

/-- The local `traffic_incoming` after the cascade. -/
theorem classify_locals_traffic_incoming (key : CStr) (val : Nat) (l : Locals) (hk : NoNul key) :
    (classify_locals key val l).traffic_incoming
      = if key = lit "Bytes_received" then (l.traffic_incoming + val) % 2 ^ 64 else l.traffic_incoming := by
  by_cases h : key = lit "Bytes_received"
  · rw [if_pos h, h]; rfl
  · rw [if_neg h]
    have h0 := strcmp_ne_zero hk (by decide) h
    unfold classify_locals classify_qcache classify_bytes classify_threads
    repeat' (apply ite_proj <;> intro _)
    all_goals first
      | rfl
      | (exfalso; exact h0 (by assumption))

/-- The local `traffic_outgoing` after the cascade. -/
theorem classify_locals_traffic_outgoing (key : CStr) (val : Nat) (l : Locals) (hk : NoNul key) :
    (classify_locals key val l).traffic_outgoing
      = if key = lit "Bytes_sent" then (l.traffic_outgoing + val) % 2 ^ 64 else l.traffic_outgoing := by
  by_cases h : key = lit "Bytes_sent"
  · rw [if_pos h, h]; rfl
  · rw [if_neg h]
    have h0 := strcmp_ne_zero hk (by decide) h
    unfold classify_locals classify_qcache classify_bytes classify_threads
    repeat' (apply ite_proj <;> intro _)
    all_goals first
      | rfl
      | (exfalso; exact h0 (by assumption))

theorem loop_locals_cons (p : CStr × CStr) (kv : List (CStr × CStr)) (l : Locals) :
    loop_locals (p :: kv) l = loop_locals kv (classify_locals p.1 (cellValue p.2) l) := rfl

theorem loop_locals_derive (proj : Locals → Int) (K : CStr)
    (hstep : ∀ key val l, NoNul key →
      proj (classify_locals key val l) = if key = K then toDerive val else proj l) :
    ∀ (kv : List (CStr × CStr)) (l : Locals), (∀ p ∈ kv, NoNul p.1) →
      proj (loop_locals kv l)
        = kv.foldl (fun acc p => if p.1 = K then toDerive (cellValue p.2) else acc) (proj l) := by
  intro kv
  induction kv with
  | nil => intro l _; rfl
  | cons p kv ih =>
    intro l hk
    rw [loop_locals_cons, ih _ (fun q hq => hk q (List.mem_cons_of_mem _ hq)),
      hstep _ _ _ (hk p (List.mem_cons_self _ _))]
    rfl

theorem foldl_toDerive (K : CStr) (kv : List (CStr × CStr)) :
    ∀ a : Nat, kv.foldl (fun acc p => if p.1 = K then toDerive (cellValue p.2) else acc) (toDerive a)
      = toDerive (kv.foldl (fun acc p => if p.1 = K then cellValue p.2 else acc) a) := by
  induction kv with
  | nil => intro a; rfl
  | cons p kv ih =>
    intro a
    simp only [List.foldl_cons]
    by_cases h : p.1 = K
    · rw [if_pos h, if_pos h]; exact ih _
    · rw [if_neg h, if_neg h]; exact ih _

theorem loop_locals_init_derive (proj : Locals → Int) (K : CStr) (h0 : proj Locals.init = 0)
    (hstep : ∀ key val l, NoNul key →
      proj (classify_locals key val l) = if key = K then toDerive val else proj l)
    (kv : List (CStr × CStr)) (hk : ∀ p ∈ kv, NoNul p.1) :
    proj (loop_locals kv Locals.init) = toDerive (statusValue kv K) := by
  rw [loop_locals_derive proj K hstep kv _ hk, h0]
  exact foldl_toDerive K kv 0

theorem statusValue_lt (kv : List (CStr × CStr)) (K : CStr) : statusValue kv K < 2 ^ 64 := by
  unfold statusValue
  have : ∀ (kv : List (CStr × CStr)) (a : Nat), a < 2 ^ 64 →
      kv.foldl (fun acc p => if p.1 = K then cellValue p.2 else acc) a < 2 ^ 64 := by
    intro kv
    induction kv with
    | nil => intro a ha; exact ha
    | cons p kv ih =>
      intro a ha
      simp only [List.foldl_cons]
      by_cases h : p.1 = K
      · rw [if_pos h]; exact ih _ (cellValue_lt _)
      · rw [if_neg h]; exact ih _ ha
  exact this kv 0 (by norm_num)

theorem loop_locals_ne_zero (proj : Locals → Int) (K : CStr) (h0 : proj Locals.init = 0)
    (hstep : ∀ key val l, NoNul key →
      proj (classify_locals key val l) = if key = K then toDerive val else proj l)
    (kv : List (CStr × CStr)) (hk : ∀ p ∈ kv, NoNul p.1) :
    proj (loop_locals kv Locals.init) ≠ 0 ↔ statusValue kv K ≠ 0 := by
  rw [loop_locals_init_derive proj K h0 hstep kv hk]
  exact not_congr (toDerive_eq_zero_iff (statusValue_lt kv K))

theorem statusSum_cons (p : CStr × CStr) (kv : List (CStr × CStr)) (K : CStr) :
    statusSum (p :: kv) K = (if p.1 = K then cellValue p.2 else 0) + statusSum kv K := by
  unfold statusSum
  by_cases h : p.1 = K
  · simp [List.filter_cons, h]
  · simp [List.filter_cons, h]

theorem loop_locals_traffic (proj : Locals → Nat) (K : CStr)
    (hstep : ∀ key val l, NoNul key →
      proj (classify_locals key val l) = if key = K then (proj l + val) % 2 ^ 64 else proj l) :
    ∀ (kv : List (CStr × CStr)) (l : Locals), (∀ p ∈ kv, NoNul p.1) → proj l < 2 ^ 64 →
      proj (loop_locals kv l) = (proj l + statusSum kv K) % 2 ^ 64 := by
  intro kv
  induction kv with
  | nil =>
    intro l _ hl
    show proj l = (proj l + 0) % 2 ^ 64
    rw [Nat.add_zero, Nat.mod_eq_of_lt hl]
  | cons p kv ih =>
    intro l hk hl
    have hp := hstep p.1 (cellValue p.2) l (hk p (List.mem_cons_self _ _))
    rw [loop_locals_cons, statusSum_cons]
    by_cases h : p.1 = K
    · rw [if_pos h] at hp
      rw [ih _ (fun q hq => hk q (List.mem_cons_of_mem _ hq))
        (by rw [hp]; exact Nat.mod_lt _ (by norm_num)), hp, if_pos h]
      omega
    · rw [if_neg h] at hp
      rw [ih _ (fun q hq => hk q (List.mem_cons_of_mem _ hq)) (by rw [hp]; exact hl), hp,
        if_neg h, Nat.zero_add]

/-! ## Counting the dispatched metrics -/

theorem countP_eq_zero_of_forall {q : Event → Bool} {evs : List Event}
    (h : ∀ e ∈ evs, q e = false) : evs.countP q = 0 := by
  rw [List.countP_eq_zero]
  intro e he
  rw [h e he]
  exact Bool.false_ne_true

theorem filter_eq_nil_of_forall {q : Event → Bool} {evs : List Event}
    (h : ∀ e ∈ evs, q e = false) : evs.filter q = [] := by
  rw [List.filter_eq_nil_iff]
  intro e he
  rw [h e he]
  exact Bool.false_ne_true

theorem isSample_false_of_inTypes {ts : List CStr} {t : CStr} (ti : Option CStr)
    (ht : ts.contains t = false) (e : Event) (he : Event.InTypes ts e) :
    Event.isSample t ti e = false := by
  cases e with
  | notification s m => rfl
  | values t1 i1 vs =>
    have he' : ts.contains t1 = true := he
    show (decide (t1 = t) && decide (i1 = ti)) = false
    have : t1 ≠ t := by
      intro h; rw [h] at he'; rw [he'] at ht; exact Bool.noConfusion ht
    simp [this]

theorem isSample_false_of_notifOr {ts : List CStr} {t : CStr} (ti : Option CStr)
    (ht : ts.contains t = false) (e : Event) (he : Event.NotifOr ts e) :
    Event.isSample t ti e = false := by
  cases e with
  | notification s m => rfl
  | values t1 i1 vs =>
    have he' : ts.contains t1 = true := he
    show (decide (t1 = t) && decide (i1 = ti)) = false
    have : t1 ≠ t := by
      intro h; rw [h] at he'; rw [he'] at ht; exact Bool.noConfusion ht
    simp [this]

theorem hasType_false_of_inTypes {ts : List CStr} {t : CStr}
    (ht : ts.contains t = false) (e : Event) (he : Event.InTypes ts e) :
    Event.hasType t e = false := by
  cases e with
  | notification s m => rfl
  | values t1 i1 vs =>
    have he' : ts.contains t1 = true := he
    show decide (t1 = t) = false
    have : t1 ≠ t := by
      intro h; rw [h] at he'; rw [he'] at ht; exact Bool.noConfusion ht
    simp [this]

theorem hasType_false_of_notifOr {ts : List CStr} {t : CStr}
    (ht : ts.contains t = false) (e : Event) (he : Event.NotifOr ts e) :
    Event.hasType t e = false := by
  cases e with
  | notification s m => rfl
  | values t1 i1 vs =>
    have he' : ts.contains t1 = true := he
    show decide (t1 = t) = false
    have : t1 ≠ t := by
      intro h; rw [h] at he'; rw [he'] at ht; exact Bool.noConfusion ht
    simp [this]

/-- In a cycle that reaches the status loop, a metric that neither the loop
nor the optional reports dispatch is counted in the groups after the loop. -/
theorem mysql_read_countP (drv : Driver) (db : mysql_database_t) (res : MYSQL_RES)
    (kv : List (CStr × CStr))
    (hcon : (getconnection drv db).2 ≠ none)
    (hq : exec_query drv (status_query drv) = some res)
    (hrows : res.rows = kv.map statusRow)
    (t : CStr) (ti : Option CStr)
    (h1 : status_loop_types.contains t = false) (h2 : report_types.contains t = false) :
    (mysql_read drv (some db)).events.countP (Event.isSample t ti)
      = (mysql_read_totals (loop_locals kv Locals.init)).events.countP (Event.isSample t ti) := by
  rw [mysql_read_events drv db res kv hcon hq hrows, List.countP_append, List.countP_append,
    countP_eq_zero_of_forall (fun e he =>
      isSample_false_of_inTypes ti h1 e (mysql_read_loop_all _ _ _ e he)),
    countP_eq_zero_of_forall (fun e he =>
      isSample_false_of_notifOr ti h2 e (mysql_read_reports_all _ _ e he))]
  omega

theorem cache_test_iff (kv : List (CStr × CStr)) (hk : ∀ p ∈ kv, NoNul p.1) :
    cache_test (loop_locals kv Locals.init)
      ↔ (statusValue kv (lit "Qcache_hits") ≠ 0 ∨ statusValue kv (lit "Qcache_inserts") ≠ 0
        ∨ statusValue kv (lit "Qcache_not_cached") ≠ 0
        ∨ statusValue kv (lit "Qcache_lowmem_prunes") ≠ 0) := by
  unfold cache_test
  rw [loop_locals_ne_zero Locals.qcache_hits _ rfl classify_locals_qcache_hits kv hk,
    loop_locals_ne_zero Locals.qcache_inserts _ rfl classify_locals_qcache_inserts kv hk,
    loop_locals_ne_zero Locals.qcache_not_cached _ rfl classify_locals_qcache_not_cached kv hk,
    loop_locals_ne_zero Locals.qcache_lowmem_prunes _ rfl
      classify_locals_qcache_lowmem_prunes kv hk]

theorem totals_count_cache (l : Locals) (s : CStr × CStr) (hs : s ∈ cache_samples) :
    (mysql_read_totals l).events.countP (Event.isSample s.1 (some s.2))
      = if cache_test l then 1 else 0 := by
  rw [mysql_read_totals_events]
  simp only [cache_samples, List.mem_cons, List.mem_singleton, List.not_mem_nil, or_false] at hs
  by_cases h1 : cache_test l <;> by_cases h2 : l.threads_created ≠ 0
  · simp only [if_pos h1, if_pos h2]
    rcases hs with rfl | rfl | rfl | rfl | rfl <;> rfl
  · simp only [if_pos h1, if_neg h2]
    rcases hs with rfl | rfl | rfl | rfl | rfl <;> rfl
  · simp only [if_neg h1, if_pos h2]
    rcases hs with rfl | rfl | rfl | rfl | rfl <;> rfl
  · simp only [if_neg h1, if_neg h2]
    rcases hs with rfl | rfl | rfl | rfl | rfl <;> rfl

theorem totals_count_threads (l : Locals) (s : CStr × CStr) (hs : s ∈ thread_samples) :
    (mysql_read_totals l).events.countP (Event.isSample s.1 (some s.2))
      = if l.threads_created ≠ 0 then 1 else 0 := by
  rw [mysql_read_totals_events]
  simp only [thread_samples, List.mem_cons, List.mem_singleton, List.not_mem_nil, or_false] at hs
  by_cases h1 : cache_test l <;> by_cases h2 : l.threads_created ≠ 0
  · simp only [if_pos h1, if_pos h2]
    rcases hs with rfl | rfl | rfl | rfl <;> rfl
  · simp only [if_pos h1, if_neg h2]
    rcases hs with rfl | rfl | rfl | rfl <;> rfl
  · simp only [if_neg h1, if_pos h2]
    rcases hs with rfl | rfl | rfl | rfl <;> rfl
  · simp only [if_neg h1, if_neg h2]
    rcases hs with rfl | rfl | rfl | rfl <;> rfl

/-! ## The value of a key in a status table -/

theorem statusValue_foldl_absent (K : CStr) (kv : List (CStr × CStr))
    (h : ∀ p ∈ kv, p.1 ≠ K) (a : Nat) :
    kv.foldl (fun acc p => if p.1 = K then cellValue p.2 else acc) a = a := by
  induction kv generalizing a with
  | nil => rfl
  | cons p kv ih =>
    simp only [List.foldl_cons]
    rw [if_neg (h p (List.mem_cons_self _ _))]
    exact ih (fun q hq => h q (List.mem_cons_of_mem _ hq)) a

/-- A key without a row has the value 0. -/
theorem statusValue_absent (K : CStr) (kv : List (CStr × CStr)) (h : ∀ p ∈ kv, p.1 ≠ K) :
    statusValue kv K = 0 :=
  statusValue_foldl_absent K kv h 0

/-- A key has the value of its last row; so a key with exactly one row has
the value of that row. -/
theorem statusValue_last (K v : CStr) (a b : List (CStr × CStr))
    (hb : ∀ p ∈ b, p.1 ≠ K) :
    statusValue (a ++ (K, v) :: b) K = cellValue v := by
  unfold statusValue
  rw [List.foldl_append, List.foldl_cons, if_pos rfl]
  exact statusValue_foldl_absent K b hb _

theorem totals_filter_octets (l : Locals) :
    (mysql_read_totals l).events.filter (Event.hasType (lit "mysql_octets"))
      = [traffic_event l] := by
  rw [mysql_read_totals_events]
  by_cases h1 : cache_test l <;> by_cases h2 : l.threads_created ≠ 0
  · simp only [if_pos h1, if_pos h2]; rfl
  · simp only [if_pos h1, if_neg h2]; rfl
  · simp only [if_neg h1, if_pos h2]; rfl
  · simp only [if_neg h1, if_neg h2]; rfl

/-! ## The claims on the status loop -/

/-- C1 (the code departs from the claim): with the category flags at their
defaults, the row `("Table_locks_waited", "0")`, whose value parses to zero
and whose key is none of the aggregated keys, makes the loop body dispatch
the value list `mysql_locks` / `waited` / 0; the branch for `Table_locks_`
is the only one of the cascade without the test `if (val == 0ULL) continue;`. -/
theorem C1_table_locks_zero_is_dispatched :
    cellValue (lit "0") = 0 ∧
    (mysql_read_row mysql_database_t.fresh
        (statusRow (lit "Table_locks_waited", lit "0")) Locals.init).events
      = [Event.values (lit "mysql_locks") (some (lit "waited")) [value_t.derive 0]] := by
  decide

/-- C7: in every cycle that gets a connection and a status result whose rows
are the (key, value) pairs `kv`, each of the five metrics of the query cache
group is dispatched exactly once if one of `Qcache_hits`, `Qcache_inserts`,
`Qcache_not_cached`, `Qcache_lowmem_prunes` has a non-zero value, and not at
all otherwise, whatever the value of `Qcache_queries_in_cache`. -/
theorem C7_cache_group_all_or_nothing (drv : Driver) (db : mysql_database_t)
    (res : MYSQL_RES) (kv : List (CStr × CStr))
    (hcon : (getconnection drv db).2 ≠ none)
    (hq : exec_query drv (status_query drv) = some res)
    (hrows : res.rows = kv.map statusRow)
    (hkeys : ∀ p ∈ kv, NoNul p.1) :
    ∀ s ∈ cache_samples,
      (mysql_read drv (some db)).events.countP (Event.isSample s.1 (some s.2))
        = if statusValue kv (lit "Qcache_hits") ≠ 0
            ∨ statusValue kv (lit "Qcache_inserts") ≠ 0
            ∨ statusValue kv (lit "Qcache_not_cached") ≠ 0
            ∨ statusValue kv (lit "Qcache_lowmem_prunes") ≠ 0 then 1 else 0 := by
  intro s hs
  have ht : status_loop_types.contains s.1 = false ∧ report_types.contains s.1 = false := by
    simp only [cache_samples, List.mem_cons, List.mem_singleton, List.not_mem_nil,
      or_false] at hs
    rcases hs with rfl | rfl | rfl | rfl | rfl <;> decide
  rw [mysql_read_countP drv db res kv hcon hq hrows s.1 (some s.2) ht.1 ht.2,
    totals_count_cache _ s hs]
  exact if_congr (cache_test_iff kv hkeys) rfl rfl

/-- C7, at an example: a table with `Qcache_hits` 0 and `Qcache_inserts` 7. -/
theorem C7_cache_group_witness :
    (getconnection (exampleDriver exampleStatus) mysql_database_t.fresh).2 ≠ none ∧
    ∀ s ∈ cache_samples,
      (mysql_read (exampleDriver exampleStatus) (some mysql_database_t.fresh)).events.countP
          (Event.isSample s.1 (some s.2))
        = if statusValue exampleStatus (lit "Qcache_hits") ≠ 0
            ∨ statusValue exampleStatus (lit "Qcache_inserts") ≠ 0
            ∨ statusValue exampleStatus (lit "Qcache_not_cached") ≠ 0
            ∨ statusValue exampleStatus (lit "Qcache_lowmem_prunes") ≠ 0 then 1 else 0 :=
  ⟨by decide,
   C7_cache_group_all_or_nothing (exampleDriver exampleStatus) mysql_database_t.fresh
     ⟨2, exampleStatus.map statusRow⟩ exampleStatus (by decide) (by decide) rfl (by decide)⟩

/-- C8: in every cycle that gets a connection and a status result whose rows
are the (key, value) pairs `kv`, each of the four metrics of the threads
group is dispatched exactly once if the value of `Threads_created` is
non-zero, and not at all if it is zero or the key is absent, whatever the
other three keys hold. -/
theorem C8_threads_group_all_or_nothing (drv : Driver) (db : mysql_database_t)
    (res : MYSQL_RES) (kv : List (CStr × CStr))
    (hcon : (getconnection drv db).2 ≠ none)
    (hq : exec_query drv (status_query drv) = some res)
    (hrows : res.rows = kv.map statusRow)
    (hkeys : ∀ p ∈ kv, NoNul p.1) :
    ∀ s ∈ thread_samples,
      (mysql_read drv (some db)).events.countP (Event.isSample s.1 (some s.2))
        = if statusValue kv (lit "Threads_created") ≠ 0 then 1 else 0 := by
  intro s hs
  have ht : status_loop_types.contains s.1 = false ∧ report_types.contains s.1 = false := by
    simp only [thread_samples, List.mem_cons, List.mem_singleton, List.not_mem_nil,
      or_false] at hs
    rcases hs with rfl | rfl | rfl | rfl <;> decide
  rw [mysql_read_countP drv db res kv hcon hq hrows s.1 (some s.2) ht.1 ht.2,
    totals_count_threads _ s hs]
  exact if_congr
    (loop_locals_ne_zero Locals.threads_created _ rfl classify_locals_threads_created kv hkeys)
    rfl rfl

/-- C8, at an example: a table with `Threads_created` 9. -/
theorem C8_threads_group_witness :
    (getconnection (exampleDriver exampleStatus) mysql_database_t.fresh).2 ≠ none ∧
    ∀ s ∈ thread_samples,
      (mysql_read (exampleDriver exampleStatus) (some mysql_database_t.fresh)).events.countP
          (Event.isSample s.1 (some s.2))
        = if statusValue exampleStatus (lit "Threads_created") ≠ 0 then 1 else 0 :=
  ⟨by decide,
   C8_threads_group_all_or_nothing (exampleDriver exampleStatus) mysql_database_t.fresh
     ⟨2, exampleStatus.map statusRow⟩ exampleStatus (by decide) (by decide) rfl (by decide)⟩

/-- C9: in every cycle that gets a connection and a status result whose rows
are the (key, value) pairs `kv`, the value lists of type `mysql_octets` are
exactly one, with two values: the sum modulo `2 ^ 64` of the values of the
rows with key `Bytes_received`, and that of the rows with key `Bytes_sent`,
each handed over as a `derive_t`. -/
theorem C9_traffic_once (drv : Driver) (db : mysql_database_t)
    (res : MYSQL_RES) (kv : List (CStr × CStr))
    (hcon : (getconnection drv db).2 ≠ none)
    (hq : exec_query drv (status_query drv) = some res)
    (hrows : res.rows = kv.map statusRow)
    (hkeys : ∀ p ∈ kv, NoNul p.1) :
    (mysql_read drv (some db)).events.filter (Event.hasType (lit "mysql_octets"))
      = [Event.values (lit "mysql_octets") none
          [value_t.derive (toDerive (statusSum kv (lit "Bytes_received") % 2 ^ 64)),
           value_t.derive (toDerive (statusSum kv (lit "Bytes_sent") % 2 ^ 64))]] := by
  rw [mysql_read_events drv db res kv hcon hq hrows, List.filter_append, List.filter_append,
    filter_eq_nil_of_forall (fun e he =>
      hasType_false_of_inTypes (by decide) e (mysql_read_loop_all _ _ _ e he)),
    filter_eq_nil_of_forall (fun e he =>
      hasType_false_of_notifOr (by decide) e (mysql_read_reports_all _ _ e he)),
    totals_filter_octets, List.nil_append, List.append_nil]
  unfold traffic_event
  rw [loop_locals_traffic Locals.traffic_incoming _ classify_locals_traffic_incoming kv _ hkeys
      (by decide),
    loop_locals_traffic Locals.traffic_outgoing _ classify_locals_traffic_outgoing kv _ hkeys
      (by decide)]
  simp only [Locals.init, Nat.zero_add]

/-- C9, at an example: two rows `Bytes_received` (100 and 1), one `Bytes_sent`. -/
theorem C9_traffic_witness :
    (getconnection (exampleDriver exampleStatus) mysql_database_t.fresh).2 ≠ none ∧
    (mysql_read (exampleDriver exampleStatus) (some mysql_database_t.fresh)).events.filter
        (Event.hasType (lit "mysql_octets"))
      = [Event.values (lit "mysql_octets") none
          [value_t.derive (toDerive (statusSum exampleStatus (lit "Bytes_received") % 2 ^ 64)),
           value_t.derive (toDerive (statusSum exampleStatus (lit "Bytes_sent") % 2 ^ 64))]] :=
  ⟨by decide,
   C9_traffic_once (exampleDriver exampleStatus) mysql_database_t.fresh
     ⟨2, exampleStatus.map statusRow⟩ exampleStatus (by decide) (by decide) rfl (by decide)⟩

/-! ## The replication state machine -/

theorem is_yes_eq_not (p : Option CStr) : is_yes p = !not_yes p := by
  cases p with
  | none => rfl
  | some s => simp [is_yes, not_yes]

/-- The rule for the I/O thread, case by case. -/
theorem slave_io_rule_eq (db : mysql_database_t) (io : Option CStr) :
    slave_io_rule db io =
      match not_yes io, db.slave_io_running with
      | true, true =>
        ⟨[Event.notification Severity.NOTIF_WARNING msg_io_stopped],
          some { db with slave_io_running := false }⟩
      | false, false =>
        ⟨[Event.notification Severity.NOTIF_OKAY msg_io_started],
          some { db with slave_io_running := true }⟩
      | _, _ => ⟨[], some db⟩ := by
  unfold slave_io_rule
  rw [is_yes_eq_not]
  cases not_yes io <;> cases db.slave_io_running <;> rfl

/-- The rule for the SQL thread, case by case: the recorded state is false
after either notification. -/
theorem slave_sql_rule_eq (db : mysql_database_t) (sql : Option CStr) :
    slave_sql_rule db sql =
      match not_yes sql, db.slave_sql_running with
      | true, true =>
        ⟨[Event.notification Severity.NOTIF_WARNING msg_sql_stopped],
          some { db with slave_sql_running := false }⟩
      | false, false =>
        ⟨[Event.notification Severity.NOTIF_OKAY msg_sql_started],
          some { db with slave_sql_running := false }⟩
      | _, _ => ⟨[], some db⟩ := by
  unfold slave_sql_rule
  rw [is_yes_eq_not]
  cases not_yes sql <;> cases db.slave_sql_running <;> rfl

theorem slave_stats_block_gives (row : MYSQL_ROW)
    (h6 : (cell row 6).isSome = true) (h21 : (cell row 21).isSome = true) :
    Run.Gives () (slave_stats_block row) := by
  unfold slave_stats_block
  obtain ⟨a, ha⟩ := Option.isSome_iff_exists.mp h6
  obtain ⟨b, hb⟩ := Option.isSome_iff_exists.mp h21
  rw [ha, hb]
  cases cell row 32 <;> rfl

theorem slave_stats_block_no_notif (row : MYSQL_ROW) :
    Run.All Event.NoThreadNotif (slave_stats_block row) := by
  unfold slave_stats_block
  refine Run.All_bind (Run.All_deref _ _) (fun _ => ?_)
  refine Run.All_bind (All_counter_submit ⟨rfl, rfl⟩) (fun _ => ?_)
  refine Run.All_bind (Run.All_deref _ _) (fun _ => ?_)
  refine Run.All_bind (All_counter_submit ⟨rfl, rfl⟩) (fun _ => ?_)
  cases cell row 32 with
  | none => exact Run.All_pure _ _
  | some s => exact All_gauge_submit ⟨rfl, rfl⟩

theorem Run.bind_bind_pure {α β : Type} (s : Run Unit) (r : Run α) (g : α → β)
    (hs : Run.Gives () s) :
    (s >>= fun _ => r >>= fun d => pure (g d))
      = ⟨s.events ++ r.events, r.result.map g⟩ := by
  have hs' : s.result = some () := hs
  rw [Run.bind_def, Run.bind_def]
  unfold Run.bind
  rw [hs']
  cases hr : r.result with
  | none => simp [hr]
  | some d => simp [hr]

/-- A call that observes `io` and `sql` with notifications enabled: the
events are those of the positions, which are no notifications, followed by
those of the two rules, and the call returns 0. -/
theorem mysql_read_slave_stats_observes (db : mysql_database_t) (drv : Driver)
    (io sql : Option CStr) (hn : db.slave_notif = true)
    (hobs : Observes db.slave_stats drv io sql) :
    ∃ evs, (∀ e ∈ evs, Event.NoThreadNotif e)
      ∧ mysql_read_slave_stats db drv
          = ⟨evs ++ (slave_io_rule db io >>= fun d => slave_sql_rule d sql).events,
             ((slave_io_rule db io >>= fun d => slave_sql_rule d sql).result).map
               (fun d => ((0 : Int), d))⟩ := by
  obtain ⟨res, row, rest, hq, hrows, hnf, hio, hsql, hst⟩ := hobs
  obtain ⟨nf, rows⟩ := res
  simp only at hrows hnf
  subst hrows
  unfold mysql_read_slave_stats
  rw [hq]
  simp only [if_neg (Nat.not_lt.mpr hnf), hn, if_true]
  unfold slave_notif_block
  rw [hio, hsql]
  by_cases hs : db.slave_stats = true
  · refine ⟨(slave_stats_block row).events, slave_stats_block_no_notif row, ?_⟩
    rw [if_pos hs]
    exact Run.bind_bind_pure _ _ _ (slave_stats_block_gives row (hst hs).1 (hst hs).2)
  · refine ⟨[], fun e he => absurd he (List.not_mem_nil e), ?_⟩
    rw [if_neg hs]
    exact Run.bind_bind_pure _ _ _ rfl

/-- The two rules, seen from the I/O thread: the recorded state becomes the
observed one, and there is one notification exactly when it changes. -/
theorem slave_rules_io (db : mysql_database_t) (io sql : Option CStr) :
    ∃ db2, (slave_io_rule db io >>= fun d => slave_sql_rule d sql).result = some db2
      ∧ db2.slave_io_running = (!not_yes io)
      ∧ db2.slave_notif = db.slave_notif ∧ db2.slave_stats = db.slave_stats
      ∧ (slave_io_rule db io >>= fun d => slave_sql_rule d sql).events.filter
          Event.isIoNotification
        = if db.slave_io_running = (!not_yes io) then []
          else [Event.notification
            (if not_yes io = true then Severity.NOTIF_WARNING else Severity.NOTIF_OKAY)
            (if not_yes io = true then msg_io_stopped else msg_io_started)] := by
  rw [slave_io_rule_eq]
  cases hio : not_yes io <;> cases hr : db.slave_io_running <;>
    simp only [Run.bind_def, Run.bind] <;>
    rw [slave_sql_rule_eq] <;>
    cases not_yes sql <;> cases hs : db.slave_sql_running <;>
    simp only [hs, hr] <;>
    exact ⟨_, rfl, by simp [hr], rfl, rfl, by decide⟩

/-- The two rules, seen from the SQL thread: a warning when a recorded
running thread is observed stopped, an all-clear when a recorded stopped
thread is observed running, and the recorded state is true afterwards only
if it was true before and the thread is observed running. -/
theorem slave_rules_sql (db : mysql_database_t) (io sql : Option CStr) :
    ∃ db2, (slave_io_rule db io >>= fun d => slave_sql_rule d sql).result = some db2
      ∧ db2.slave_sql_running = (db.slave_sql_running && !not_yes sql)
      ∧ db2.slave_notif = db.slave_notif ∧ db2.slave_stats = db.slave_stats
      ∧ (slave_io_rule db io >>= fun d => slave_sql_rule d sql).events.filter
          Event.isSqlNotification
        = match not_yes sql, db.slave_sql_running with
          | true, true => [Event.notification Severity.NOTIF_WARNING msg_sql_stopped]
          | false, false => [Event.notification Severity.NOTIF_OKAY msg_sql_started]
          | _, _ => [] := by
  rw [slave_io_rule_eq]
  cases hio : not_yes io <;> cases hr : db.slave_io_running <;>
    simp only [Run.bind_def, Run.bind] <;>
    rw [slave_sql_rule_eq] <;>
    cases not_yes sql <;> cases hs : db.slave_sql_running <;>
    simp only [hs, hr] <;>
    exact ⟨_, rfl, by simp [hs], rfl, rfl, by decide⟩

theorem filter_eq_nil_of_no_notif_io {evs : List Event}
    (h : ∀ e ∈ evs, Event.NoThreadNotif e) : evs.filter Event.isIoNotification = [] :=
  filter_eq_nil_of_forall (fun e he => (h e he).1)

theorem filter_eq_nil_of_no_notif_sql {evs : List Event}
    (h : ∀ e ∈ evs, Event.NoThreadNotif e) : evs.filter Event.isSqlNotification = [] :=
  filter_eq_nil_of_forall (fun e he => (h e he).2)

/-- One call that observes `io`, seen from the I/O thread. -/
theorem slave_tick_io (db : mysql_database_t) (drv : Driver) (io sql : Option CStr)
    (hn : db.slave_notif = true) (hobs : Observes db.slave_stats drv io sql) :
    ∃ db2, (mysql_read_slave_stats db drv).result = some (0, db2)
      ∧ db2.slave_io_running = (!not_yes io)
      ∧ db2.slave_notif = true ∧ db2.slave_stats = db.slave_stats
      ∧ (mysql_read_slave_stats db drv).events.filter Event.isIoNotification
        = if db.slave_io_running = (!not_yes io) then []
          else [Event.notification
            (if not_yes io = true then Severity.NOTIF_WARNING else Severity.NOTIF_OKAY)
            (if not_yes io = true then msg_io_stopped else msg_io_started)] := by
  obtain ⟨evs, hev, heq⟩ := mysql_read_slave_stats_observes db drv io sql hn hobs
  obtain ⟨db2, hres, hio, hnot, hst, hf⟩ := slave_rules_io db io sql
  refine ⟨db2, ?_, hio, hnot.trans hn, hst, ?_⟩
  · rw [heq, hres]; rfl
  · rw [heq]
    simp only [List.filter_append, filter_eq_nil_of_no_notif_io hev, List.nil_append]
    exact hf

/-- One call that observes `sql`, seen from the SQL thread. -/
theorem slave_tick_sql (db : mysql_database_t) (drv : Driver) (io sql : Option CStr)
    (hn : db.slave_notif = true) (hobs : Observes db.slave_stats drv io sql) :
    ∃ db2, (mysql_read_slave_stats db drv).result = some (0, db2)
      ∧ db2.slave_sql_running = (db.slave_sql_running && !not_yes sql)
      ∧ db2.slave_notif = true ∧ db2.slave_stats = db.slave_stats
      ∧ (mysql_read_slave_stats db drv).events.filter Event.isSqlNotification
        = match not_yes sql, db.slave_sql_running with
          | true, true => [Event.notification Severity.NOTIF_WARNING msg_sql_stopped]
          | false, false => [Event.notification Severity.NOTIF_OKAY msg_sql_started]
          | _, _ => [] := by
  obtain ⟨evs, hev, heq⟩ := mysql_read_slave_stats_observes db drv io sql hn hobs
  obtain ⟨db2, hres, hsql, hnot, hst, hf⟩ := slave_rules_sql db io sql
  refine ⟨db2, ?_, hsql, hnot.trans hn, hst, ?_⟩
  · rw [heq, hres]; rfl
  · rw [heq]
    simp only [List.filter_append, filter_eq_nil_of_no_notif_sql hev, List.nil_append]
    exact hf

theorem slave_run_cons (db : mysql_database_t) (d : Driver) (ds : List Driver) :
    slave_run db (d :: ds) = (mysql_read_slave_stats db d >>= fun r => slave_run r.2 ds) := rfl

/-- Calls that all observe the recorded state of the I/O thread dispatch no
notification about it and leave the recorded state. -/
theorem slave_run_steady_io (b : Bool) :
    ∀ (ds : List Driver) (db : mysql_database_t), db.slave_notif = true →
      db.slave_io_running = (!b) →
      (∀ d ∈ ds, ∃ io sql, Observes db.slave_stats d io sql ∧ not_yes io = b) →
      ∃ dbf, (slave_run db ds).result = some dbf ∧ dbf.slave_io_running = (!b)
        ∧ dbf.slave_notif = true ∧ dbf.slave_stats = db.slave_stats
        ∧ (slave_run db ds).events.filter Event.isIoNotification = [] := by
  intro ds
  induction ds with
  | nil => intro db hn hr _; exact ⟨db, rfl, hr, hn, rfl, rfl⟩
  | cons d ds ih =>
    intro db hn hr hds
    obtain ⟨io, sql, hobs, hio⟩ := hds d (List.mem_cons_self _ _)
    obtain ⟨db2, hres, hio2, hn2, hst2, hf⟩ := slave_tick_io db d io sql hn hobs
    rw [hio] at hio2 hf
    rw [if_pos hr] at hf
    obtain ⟨dbf, hresf, hiof, hnf, hstf, hff⟩ := ih db2 hn2 hio2
      (fun d' hd' => by rw [hst2]; exact hds d' (List.mem_cons_of_mem _ hd'))
    refine ⟨dbf, ?_, hiof, hnf, hstf.trans hst2, ?_⟩
    · rw [slave_run_cons, Run.result_bind_some _ _ _ hres]; exact hresf
    · rw [slave_run_cons, Run.events_bind_some _ _ _ hres, List.filter_append, hf, hff]
      rfl

/-- Calls that all observe a running SQL thread, recorded as running,
dispatch no notification about it and leave the recorded state. -/
theorem slave_run_steady_sql :
    ∀ (ds : List Driver) (db : mysql_database_t), db.slave_notif = true →
      db.slave_sql_running = true →
      (∀ d ∈ ds, ∃ io sql, Observes db.slave_stats d io sql ∧ not_yes sql = false) →
      ∃ dbf, (slave_run db ds).result = some dbf ∧ dbf.slave_sql_running = true
        ∧ dbf.slave_notif = true ∧ dbf.slave_stats = db.slave_stats
        ∧ (slave_run db ds).events.filter Event.isSqlNotification = [] := by
  intro ds
  induction ds with
  | nil => intro db hn hr _; exact ⟨db, rfl, hr, hn, rfl, rfl⟩
  | cons d ds ih =>
    intro db hn hr hds
    obtain ⟨io, sql, hobs, hsql⟩ := hds d (List.mem_cons_self _ _)
    obtain ⟨db2, hres, hsql2, hn2, hst2, hf⟩ := slave_tick_sql db d io sql hn hobs
    rw [hsql, hr] at hsql2 hf
    obtain ⟨dbf, hresf, hsqlf, hnf, hstf, hff⟩ := ih db2 hn2 hsql2
      (fun d' hd' => by rw [hst2]; exact hds d' (List.mem_cons_of_mem _ hd'))
    refine ⟨dbf, ?_, hsqlf, hnf, hstf.trans hst2, ?_⟩
    · rw [slave_run_cons, Run.result_bind_some _ _ _ hres]; exact hresf
    · rw [slave_run_cons, Run.events_bind_some _ _ _ hres, List.filter_append, hf, hff]
      rfl

theorem observes_example (stats : Bool) (io sql : Option CStr) :
    Observes stats (exampleSlaveDriver io sql) io sql :=
  ⟨⟨33, [exampleSlaveRow io sql]⟩, exampleSlaveRow io sql, [], rfl, rfl, Nat.le_refl _, rfl, rfl,
    fun _ => ⟨rfl, rfl⟩⟩

/-! ## The claims on the replication state machine -/

/-- C2 (the code departs from the claim): with notifications enabled and the
initial state (true, true), the observations (Yes, No), (Yes, Yes),
(Yes, Yes), (Yes, No) of (I/O, SQL) give a warning for the SQL thread at
tick 0, an all-clear at tick 1, a second all-clear at tick 2 although the SQL
thread was running at tick 1 already, and nothing at tick 3 although it
stopped: the branch of the all-clear assigns 0 to `slave_sql_running`. -/
theorem C2_sql_edges_are_missed :
    slave_ticks exampleNotifDb
        [exampleSlaveDriver (some (lit "Yes")) (some (lit "No")),
         exampleSlaveDriver (some (lit "Yes")) (some (lit "Yes")),
         exampleSlaveDriver (some (lit "Yes")) (some (lit "Yes")),
         exampleSlaveDriver (some (lit "Yes")) (some (lit "No"))]
      = [[Event.notification Severity.NOTIF_WARNING msg_sql_stopped],
         [Event.notification Severity.NOTIF_OKAY msg_sql_started],
         [Event.notification Severity.NOTIF_OKAY msg_sql_started],
         []] := by
  decide

/-- C3 (the code departs from the claim): with the SQL thread recorded as
not running and observed as running (`Yes`), the call dispatches the one
all-clear for the SQL thread and returns with `slave_sql_running` still
false. -/
theorem C3_sql_recorded_state_stays_false :
    (mysql_read_slave_stats { exampleNotifDb with slave_sql_running := false }
        (exampleSlaveDriver (some (lit "Yes")) (some (lit "Yes")))).events
      = [Event.notification Severity.NOTIF_OKAY msg_sql_started]
    ∧ (mysql_read_slave_stats { exampleNotifDb with slave_sql_running := false }
        (exampleSlaveDriver (some (lit "Yes")) (some (lit "Yes")))).result
      = some (0, { exampleNotifDb with slave_sql_running := false }) := by
  decide

/-- C4: with notifications enabled and the I/O thread recorded as running, a
call that observes the I/O status `No` dispatches exactly one notification
about the I/O thread, the warning, and records the thread as not running;
the following calls, as long as each observes `No` again, dispatch no
notification about the I/O thread and leave it recorded as not running. -/
theorem C4_io_warning_once (db : mysql_database_t) (drv : Driver) (sql : Option CStr)
    (ds : List Driver)
    (hn : db.slave_notif = true) (hrun : db.slave_io_running = true)
    (hobs : Observes db.slave_stats drv (some (lit "No")) sql)
    (hds : ∀ d ∈ ds, ∃ sql2, Observes db.slave_stats d (some (lit "No")) sql2) :
    ∃ db1 dbf, (mysql_read_slave_stats db drv).result = some (0, db1)
      ∧ db1.slave_io_running = false
      ∧ (mysql_read_slave_stats db drv).events.filter Event.isIoNotification
          = [Event.notification Severity.NOTIF_WARNING msg_io_stopped]
      ∧ (slave_run db1 ds).result = some dbf
      ∧ dbf.slave_io_running = false
      ∧ (slave_run db1 ds).events.filter Event.isIoNotification = [] := by
  have hno : not_yes (some (lit "No")) = true := by decide
  obtain ⟨db1, hres, hio, hn1, hst1, hf⟩ := slave_tick_io db drv _ sql hn hobs
  rw [hno] at hio hf
  rw [hrun] at hf
  obtain ⟨dbf, hresf, hiof, _, _, hff⟩ := slave_run_steady_io true ds db1 hn1 hio
    (fun d hd => by
      obtain ⟨sql2, h2⟩ := hds d hd
      exact ⟨_, sql2, by rw [hst1]; exact h2, hno⟩)
  exact ⟨db1, dbf, hres, hio, hf, hresf, hiof, hff⟩

/-- C4, at an example: `No`, followed by two more `No`. -/
theorem C4_io_warning_once_witness :
    ∃ db1 dbf,
      (mysql_read_slave_stats exampleNotifDb
          (exampleSlaveDriver (some (lit "No")) (some (lit "Yes")))).result = some (0, db1)
      ∧ db1.slave_io_running = false
      ∧ (mysql_read_slave_stats exampleNotifDb
          (exampleSlaveDriver (some (lit "No")) (some (lit "Yes")))).events.filter
            Event.isIoNotification
          = [Event.notification Severity.NOTIF_WARNING msg_io_stopped]
      ∧ (slave_run db1 [exampleSlaveDriver (some (lit "No")) (some (lit "Yes")),
            exampleSlaveDriver (some (lit "No")) none]).result = some dbf
      ∧ dbf.slave_io_running = false
      ∧ (slave_run db1 [exampleSlaveDriver (some (lit "No")) (some (lit "Yes")),
            exampleSlaveDriver (some (lit "No")) none]).events.filter
            Event.isIoNotification = [] :=
  C4_io_warning_once exampleNotifDb (exampleSlaveDriver (some (lit "No")) (some (lit "Yes")))
    (some (lit "Yes"))
    [exampleSlaveDriver (some (lit "No")) (some (lit "Yes")),
     exampleSlaveDriver (some (lit "No")) none]
    rfl rfl (observes_example _ _ _)
    (fun d hd => by
      simp only [List.mem_cons, List.mem_singleton, List.not_mem_nil, or_false] at hd
      rcases hd with rfl | rfl
      · exact ⟨_, observes_example _ _ _⟩
      · exact ⟨_, observes_example _ _ _⟩)

/-- C5: with notifications enabled and the I/O thread recorded as not
running, a call that observes the I/O status `Yes` dispatches exactly one
notification about the I/O thread, the all-clear, and records the thread as
running; a further call that observes `Yes` dispatches no notification about
the I/O thread. -/
theorem C5_io_okay_once (db : mysql_database_t) (drv drv2 : Driver) (sql sql2 : Option CStr)
    (hn : db.slave_notif = true) (hrun : db.slave_io_running = false)
    (hobs : Observes db.slave_stats drv (some (lit "Yes")) sql)
    (hobs2 : Observes db.slave_stats drv2 (some (lit "Yes")) sql2) :
    ∃ db1 db2, (mysql_read_slave_stats db drv).result = some (0, db1)
      ∧ db1.slave_io_running = true
      ∧ (mysql_read_slave_stats db drv).events.filter Event.isIoNotification
          = [Event.notification Severity.NOTIF_OKAY msg_io_started]
      ∧ (mysql_read_slave_stats db1 drv2).result = some (0, db2)
      ∧ db2.slave_io_running = true
      ∧ (mysql_read_slave_stats db1 drv2).events.filter Event.isIoNotification = [] := by
  have hyes : not_yes (some (lit "Yes")) = false := by decide
  obtain ⟨db1, hres, hio, hn1, hst1, hf⟩ := slave_tick_io db drv _ sql hn hobs
  rw [hyes] at hio hf
  rw [hrun] at hf
  obtain ⟨db2, hres2, hio2, _, _, hf2⟩ := slave_tick_io db1 drv2 _ sql2 hn1
    (by rw [hst1]; exact hobs2)
  rw [hyes] at hio2 hf2
  rw [hio] at hf2
  exact ⟨db1, db2, hres, hio, hf, hres2, hio2, hf2⟩

/-- C5, at an example: recorded as not running, then `Yes` twice. -/
theorem C5_io_okay_once_witness :
    ∃ db1 db2,
      (mysql_read_slave_stats { exampleNotifDb with slave_io_running := false }
          (exampleSlaveDriver (some (lit "Yes")) (some (lit "Yes")))).result = some (0, db1)
      ∧ db1.slave_io_running = true
      ∧ (mysql_read_slave_stats { exampleNotifDb with slave_io_running := false }
          (exampleSlaveDriver (some (lit "Yes")) (some (lit "Yes")))).events.filter
            Event.isIoNotification
          = [Event.notification Severity.NOTIF_OKAY msg_io_started]
      ∧ (mysql_read_slave_stats db1
          (exampleSlaveDriver (some (lit "Yes")) (some (lit "No")))).result = some (0, db2)
      ∧ db2.slave_io_running = true
      ∧ (mysql_read_slave_stats db1
          (exampleSlaveDriver (some (lit "Yes")) (some (lit "No")))).events.filter
            Event.isIoNotification = [] :=
  C5_io_okay_once { exampleNotifDb with slave_io_running := false }
    (exampleSlaveDriver (some (lit "Yes")) (some (lit "Yes")))
    (exampleSlaveDriver (some (lit "Yes")) (some (lit "No")))
    (some (lit "Yes")) (some (lit "No")) rfl rfl (observes_example _ _ _)
    (observes_example _ _ _)

/-! ## Configuration and the first observation -/

theorem keepsRunning_map {α : Type} (db : mysql_database_t) (o : Option α)
    (f : α → mysql_database_t)
    (hf : ∀ a, (f a).slave_io_running = db.slave_io_running
      ∧ (f a).slave_sql_running = db.slave_sql_running) :
    KeepsRunning db (o.map f) := by
  intro db2 h
  cases o with
  | none => exact absurd h (by simp)
  | some a =>
    simp only [Option.map_some', Option.some.injEq] at h
    rw [← h]; exact hf a

theorem mysql_config_child_keeps (cf : CfUtil) (db : mysql_database_t)
    (child : oconfig_child_t) : KeepsRunning db (mysql_config_child cf db child) := by
  unfold mysql_config_child
  repeat' (apply ite_ind <;> intro _)
  all_goals first
    | exact keepsRunning_map db _ _ (fun _ => ⟨rfl, rfl⟩)
    | (intro db2 h
       first
         | (simp only [Option.some.injEq] at h; rw [← h]; exact ⟨rfl, rfl⟩)
         | exact absurd h (by simp))

theorem mysql_config_children_keeps (cf : CfUtil) :
    ∀ (children : List oconfig_child_t) (db : mysql_database_t),
      KeepsRunning db (mysql_config_children cf children db) := by
  intro children
  induction children with
  | nil =>
    intro db db2 h
    simp only [mysql_config_children, Option.some.injEq] at h
    rw [← h]; exact ⟨rfl, rfl⟩
  | cons child rest ih =>
    intro db db2 h
    unfold mysql_config_children at h
    cases hc : mysql_config_child cf db child with
    | none => rw [hc] at h; exact absurd h (by simp)
    | some db1 =>
      rw [hc] at h
      have h1 := mysql_config_child_keeps cf db child db1 hc
      have h2 := ih db1 db2 h
      exact ⟨h2.1.trans h1.1, h2.2.trans h1.2⟩

/-- A database registered by `mysql_config_database` records both threads as
running. -/
theorem mysql_config_database_running (cf : CfUtil) (ci : oconfig_item_t)
    (db : mysql_database_t) (h : mysql_config_database cf ci = some db) :
    db.slave_io_running = true ∧ db.slave_sql_running = true := by
  unfold mysql_config_database at h
  by_cases h1 : one_string_value ci.values = false
  · rw [if_pos h1] at h; exact absurd h (by simp)
  · rw [if_neg h1] at h
    cases hs : cf.get_string ci.key ci.values with
    | none => rw [hs] at h; exact absurd h (by simp)
    | some name =>
      rw [hs] at h
      exact mysql_config_children_keeps cf _ _ db h

/-- Calls that each observe something do not fault. -/
theorem slave_run_gives :
    ∀ (ds : List Driver) (db : mysql_database_t), db.slave_notif = true →
      (∀ d ∈ ds, ∃ io sql, Observes db.slave_stats d io sql) →
      ∃ dbf, (slave_run db ds).result = some dbf := by
  intro ds
  induction ds with
  | nil => intro db _ _; exact ⟨db, rfl⟩
  | cons d ds ih =>
    intro db hn hds
    obtain ⟨io, sql, hobs⟩ := hds d (List.mem_cons_self _ _)
    obtain ⟨db2, hres, _, hn2, hst2, _⟩ := slave_tick_io db d io sql hn hobs
    obtain ⟨dbf, hresf⟩ := ih db2 hn2
      (fun d' hd' => by rw [hst2]; exact hds d' (List.mem_cons_of_mem _ hd'))
    exact ⟨dbf, by rw [slave_run_cons, Run.result_bind_some _ _ _ hres]; exact hresf⟩

/-- C6: a database registered by `mysql_config_database` records both
threads as running; with notifications enabled, after any calls that
observed `yes` for a thread, the first call that observes another status for
it, a NULL cell included, dispatches exactly one notification about that
thread, the warning. -/
theorem C6_fresh_target_warns_first (cf : CfUtil) (ci : oconfig_item_t)
    (db : mysql_database_t) (ds : List Driver) (drv : Driver) (io sql : Option CStr)
    (hcfg : mysql_config_database cf ci = some db)
    (hn : db.slave_notif = true)
    (hprior : ∀ d ∈ ds, ∃ io2 sql2, Observes db.slave_stats d io2 sql2
      ∧ (not_yes io = true → not_yes io2 = false)
      ∧ (not_yes sql = true → not_yes sql2 = false))
    (hobs : Observes db.slave_stats drv io sql) :
    db.slave_io_running = true ∧ db.slave_sql_running = true
      ∧ ∃ db1, (slave_run db ds).result = some db1
        ∧ (not_yes io = true →
            (slave_run db ds).events.filter Event.isIoNotification = []
            ∧ (mysql_read_slave_stats db1 drv).events.filter Event.isIoNotification
              = [Event.notification Severity.NOTIF_WARNING msg_io_stopped])
        ∧ (not_yes sql = true →
            (slave_run db ds).events.filter Event.isSqlNotification = []
            ∧ (mysql_read_slave_stats db1 drv).events.filter Event.isSqlNotification
              = [Event.notification Severity.NOTIF_WARNING msg_sql_stopped]) := by
  obtain ⟨hio0, hsql0⟩ := mysql_config_database_running cf ci db hcfg
  obtain ⟨db1, hres⟩ := slave_run_gives ds db hn
    (fun d hd => by obtain ⟨io2, sql2, h, _⟩ := hprior d hd; exact ⟨io2, sql2, h⟩)
  refine ⟨hio0, hsql0, db1, hres, ?_, ?_⟩
  · intro hio
    obtain ⟨dbf, hresf, hiof, hnf, hstf, hff⟩ := slave_run_steady_io false ds db hn hio0
      (fun d hd => by
        obtain ⟨io2, sql2, h, h1, _⟩ := hprior d hd
        exact ⟨io2, sql2, h, h1 hio⟩)
    rw [hres] at hresf
    obtain rfl : db1 = dbf := Option.some.inj hresf
    obtain ⟨_, _, _, _, _, hf⟩ := slave_tick_io db1 drv io sql hnf (by rw [hstf]; exact hobs)
    rw [hio, hiof] at hf
    exact ⟨hff, hf⟩
  · intro hsql
    obtain ⟨dbf, hresf, hsqlf, hnf, hstf, hff⟩ := slave_run_steady_sql ds db hn hsql0
      (fun d hd => by
        obtain ⟨io2, sql2, h, _, h2⟩ := hprior d hd
        exact ⟨io2, sql2, h, h2 hsql⟩)
    rw [hres] at hresf
    obtain rfl : db1 = dbf := Option.some.inj hresf
    obtain ⟨_, _, _, _, _, hf⟩ := slave_tick_sql db1 drv io sql hnf (by rw [hstf]; exact hobs)
    rw [hsql, hsqlf] at hf
    exact ⟨hff, hf⟩

/-- C6, at an example: the database of `exampleConfig`, one call that
observes `Yes` for both threads, then a call with a NULL I/O status and the
SQL status `No`. -/
theorem C6_fresh_target_warns_first_witness :
    mysql_config_database exampleCf exampleConfig = some exampleConfigDb
    ∧ not_yes none = true ∧ not_yes (some (lit "No")) = true
    ∧ exampleConfigDb.slave_io_running = true ∧ exampleConfigDb.slave_sql_running = true
      ∧ ∃ db1, (slave_run exampleConfigDb
            [exampleSlaveDriver (some (lit "Yes")) (some (lit "YES"))]).result = some db1
        ∧ (not_yes none = true →
            (slave_run exampleConfigDb
              [exampleSlaveDriver (some (lit "Yes")) (some (lit "YES"))]).events.filter
                Event.isIoNotification = []
            ∧ (mysql_read_slave_stats db1
                (exampleSlaveDriver none (some (lit "No")))).events.filter
                  Event.isIoNotification
              = [Event.notification Severity.NOTIF_WARNING msg_io_stopped])
        ∧ (not_yes (some (lit "No")) = true →
            (slave_run exampleConfigDb
              [exampleSlaveDriver (some (lit "Yes")) (some (lit "YES"))]).events.filter
                Event.isSqlNotification = []
            ∧ (mysql_read_slave_stats db1
                (exampleSlaveDriver none (some (lit "No")))).events.filter
                  Event.isSqlNotification
              = [Event.notification Severity.NOTIF_WARNING msg_sql_stopped]) :=
  ⟨by decide, by decide, by decide,
   C6_fresh_target_warns_first exampleCf exampleConfig exampleConfigDb
     [exampleSlaveDriver (some (lit "Yes")) (some (lit "YES"))]
     (exampleSlaveDriver none (some (lit "No"))) none (some (lit "No"))
     (by decide) rfl
     (fun d hd => by
       simp only [List.mem_singleton] at hd
       subst hd
       exact ⟨_, _, observes_example _ _ _, fun _ => by decide, fun _ => by decide⟩)
     (observes_example _ _ _)⟩

/-! ## The claim on the lock-wait keys -/

/-- The cascade on a key that starts with `Table_locks_`, for a non-zero
value. -/
theorem classify_table_locks (db : mysql_database_t) (rest : CStr) (val : Nat) (l : Locals)
    (hval : val ≠ 0) :
    (classify db (lit "Table_locks_" ++ rest) val l).events
      = if db.table_lock_stats = true then
          [Event.values (lit "mysql_table")
            (some ((lit "locks_" ++ rest).take (DATA_MAX_NAME_LEN - 1)))
            [value_t.derive (toDerive val)]]
        else
          [Event.values (lit "mysql_locks") (some (rest.take (DATA_MAX_NAME_LEN - 1)))
            [value_t.derive (toDerive val)]] := by
  simp [classify, lit, strncmp, strlen, nonzero_counter, hval]
  cases db.table_lock_stats <;> rfl

/-- C10, as stated, fails in two ways.  With `table_lock_stats` enabled the
row `("Table_locks_waited", "5")` gives the one value list `mysql_table` /
`locks_waited` / 5, and no value list of type `mysql_locks`.  With the flags
at their defaults, a key of `Table_locks_` and 100 characters gives a value
list `mysql_locks` whose type instance is the first 63 of them, not the key
without its prefix. -/
theorem C10_counterexample :
    cellValue (lit "5") ≠ 0
    ∧ (mysql_read_row { mysql_database_t.fresh with table_lock_stats := true }
        (statusRow (lit "Table_locks_waited", lit "5")) Locals.init).events
      = [Event.values (lit "mysql_table") (some (lit "locks_waited")) [value_t.derive 5]]
    ∧ (mysql_read_row { mysql_database_t.fresh with table_lock_stats := true }
        (statusRow (lit "Table_locks_waited", lit "5")) Locals.init).events.countP
          (Event.hasType (lit "mysql_locks")) = 0
    ∧ (mysql_read_row mysql_database_t.fresh
        (statusRow (lit "Table_locks_" ++ List.replicate 100 'x', lit "5")) Locals.init).events
      = [Event.values (lit "mysql_locks") (some (List.replicate 63 'x')) [value_t.derive 5]]
    ∧ List.replicate 63 'x' ≠ List.replicate 100 'x' := by
  decide

/-- C10, amended: for a key that starts with `Table_locks_` and a non-zero
value, the loop body dispatches exactly one value list, whose type instance
is cut to the `DATA_MAX_NAME_LEN - 1` characters that its buffer holds; with
`table_lock_stats` disabled it has the type `mysql_locks` and the first
`DATA_MAX_NAME_LEN - 1` characters of the key without `Table_locks_` as its
type instance, whatever the other flags; with `table_lock_stats` enabled the
earlier test for `Table_` takes the key, and the value list has the type
`mysql_table` and the first `DATA_MAX_NAME_LEN - 1` characters of the key
without `Table_` as its type instance. -/
theorem C10_table_locks_family (db : mysql_database_t) (rest value : CStr) (l : Locals)
    (hval : cellValue value ≠ 0) :
    (mysql_read_row db (statusRow (lit "Table_locks_" ++ rest, value)) l).events
      = if db.table_lock_stats = true then
          [Event.values (lit "mysql_table")
            (some ((lit "locks_" ++ rest).take (DATA_MAX_NAME_LEN - 1)))
            [value_t.derive (toDerive (cellValue value))]]
        else
          [Event.values (lit "mysql_locks") (some (rest.take (DATA_MAX_NAME_LEN - 1)))
            [value_t.derive (toDerive (cellValue value))]] := by
  rw [mysql_read_row_statusRow]
  exact classify_table_locks db rest (cellValue value) l hval

/-- C10 amended, at an example: `Table_locks_waited` with the value 5 and the
flags at their defaults. -/
theorem C10_table_locks_family_witness :
    cellValue (lit "5") ≠ 0
    ∧ (mysql_read_row mysql_database_t.fresh
        (statusRow (lit "Table_locks_" ++ lit "waited", lit "5")) Locals.init).events
      = (if mysql_database_t.fresh.table_lock_stats = true then
          [Event.values (lit "mysql_table")
            (some ((lit "locks_" ++ lit "waited").take (DATA_MAX_NAME_LEN - 1)))
            [value_t.derive (toDerive (cellValue (lit "5")))]]
        else
          [Event.values (lit "mysql_locks") (some ((lit "waited").take (DATA_MAX_NAME_LEN - 1)))
            [value_t.derive (toDerive (cellValue (lit "5")))]])
    ∧ (mysql_read_row mysql_database_t.fresh
        (statusRow (lit "Table_locks_" ++ lit "waited", lit "5")) Locals.init).events
      = [Event.values (lit "mysql_locks") (some (lit "waited")) [value_t.derive 5]] :=
  ⟨by decide,
   C10_table_locks_family mysql_database_t.fresh (lit "waited") (lit "5") Locals.init
     (by decide),
   by decide⟩

/-! ## The text splitters (C13, C14, C15) -/

theorem strtok_all_go (delim : CStr) (s : CStr) : ∀ cur : CStr,
    strtok_all delim cur s =
      (List.splitOnP.go (fun c => decide (c ∈ delim)) s cur).filter
        (fun t => decide (t ≠ [])) := by
  induction s with
  | nil =>
    intro cur
    by_cases h : cur = []
    · simp [strtok_all, List.splitOnP.go, h]
    · simp [strtok_all, List.splitOnP.go, h]
  | cons c cs ih =>
    intro cur
    by_cases hc : c ∈ delim
    · by_cases h : cur = []
      · simp [strtok_all, List.splitOnP.go, hc, h, ih]
      · simp [strtok_all, List.splitOnP.go, hc, h, ih]
    · simp [strtok_all, List.splitOnP.go, hc, ih]

theorem strtok_all_eq_runs (delim s : CStr) : strtok_all delim [] s = runs delim s := by
  rw [strtok_all_go]; rfl

theorem lit_comma_space : (lit ", " : CStr) = [',', ' '] := rfl
theorem lit_newline : (lit "\n" : CStr) = ['\n'] := rfl

theorem split_row_loop_take (size : Nat) : ∀ (ts : List CStr) (i : Nat), i < size →
    split_row_loop size ts i = ts.take (size - i) := by
  intro ts
  induction ts with
  | nil => intro i _; simp [split_row_loop]
  | cons t ts ih =>
    intro i hi
    obtain ⟨k, hk⟩ : ∃ k, size - i = k + 1 := ⟨size - i - 1, by omega⟩
    rw [hk]
    by_cases h : i + 1 ≥ size
    · have : k = 0 := by omega
      simp [split_row_loop, h, this]
    · have hk2 : size - (i + 1) = k := by omega
      simp [split_row_loop, h, ih (i + 1) (by omega), hk2]

theorem split_row_eq (s : CStr) (size : Nat) (h : 1 ≤ size) :
    split_row s size = (linesOf s).take size := by
  unfold split_row
  rw [split_row_loop_take size _ 0 (by omega)]
  show List.take (size - 0) (strtok_all ['\n'] [] s) = _
  rw [strtok_all_eq_runs]; rfl

theorem splitOnP_go_clean (P : Char → Bool) (s : CStr) : ∀ acc : CStr,
    (∀ c ∈ acc, P c = false) → ∀ t ∈ List.splitOnP.go P s acc, ∀ c ∈ t, P c = false := by
  induction s with
  | nil =>
    intro acc hacc t ht c hc
    simp only [List.splitOnP.go, List.mem_singleton] at ht
    subst ht
    exact hacc c (List.mem_reverse.mp hc)
  | cons a s ih =>
    intro acc hacc t ht c hc
    by_cases ha : P a = true
    · simp only [List.splitOnP.go, ha, if_true, List.mem_cons] at ht
      rcases ht with ht | ht
      · subst ht
        exact hacc c (List.mem_reverse.mp hc)
      · exact ih [] (by simp) t ht c hc
    · simp only [List.splitOnP.go, ha] at ht
      refine ih (a :: acc) ?_ t ht c hc
      intro d hd
      rcases List.mem_cons.mp hd with hd | hd
      · subst hd; simpa using ha
      · exact hacc d hd

theorem runs_mem (delim s t : CStr) (h : t ∈ runs delim s) :
    t ≠ [] ∧ ∀ c ∈ t, c ∉ delim := by
  unfold runs at h
  rw [List.mem_filter] at h
  refine ⟨by simpa using h.2, fun c hc => ?_⟩
  have := splitOnP_go_clean (fun c => decide (c ∈ delim)) s [] (by simp) t h.1 c hc
  simpa using this

theorem split_line_loop_eq (size : Nat) : ∀ (ts : List CStr) (i : Nat) (fields : List FieldSlot),
    i < size → size ≤ fields.length →
    split_line_loop size ts i fields =
      (fields.take i ++ (ts.take (size - i)).map FieldSlot.tok ++
        (if ts.length < size - i then FieldSlot.null :: fields.drop (i + ts.length + 1)
         else fields.drop size),
       i + min ts.length (size - i)) := by
  intro ts
  induction ts with
  | nil =>
    intro i fields hi hf
    have h1 : (0 : Nat) < size - i := by omega
    simp [split_line_loop, h1, List.set_eq_take_append_cons_drop, show i < fields.length by omega]
  | cons t ts ih =>
    intro i fields hi hf
    by_cases h : i + 1 ≥ size
    · have h1 : size - i = 1 := by omega
      have h2 : size = i + 1 := by omega
      simp [split_line_loop, h, h1, List.set_eq_take_append_cons_drop,
        show i < fields.length by omega]
      simp [h2]
    · have hlen : size ≤ (fields.set i (FieldSlot.tok t)).length := by simpa using hf
      obtain ⟨k, hk⟩ : ∃ k, size - i = k + 1 := ⟨size - i - 1, by omega⟩
      have hk2 : size - (i + 1) = k := by omega
      rw [split_line_loop, if_neg h, ih (i + 1) _ (by omega) hlen, hk, hk2]
      have e1 : (fields.set i (FieldSlot.tok t)).take (i + 1) = fields.take i ++ [FieldSlot.tok t] := by
        rw [List.set_eq_take_append_cons_drop, if_pos (by omega)]
        rw [List.take_append_eq_append_take]
        simp [show i ≤ fields.length by omega]
      have e2 : (fields.set i (FieldSlot.tok t)).drop (i + 1 + ts.length + 1) =
          fields.drop (i + (ts.length + 1) + 1) := by
        rw [List.drop_set_of_lt _ _ (by omega)]
        congr 1; omega
      have e3 : (fields.set i (FieldSlot.tok t)).drop size = fields.drop size := by
        rw [List.drop_set_of_lt _ _ (by omega)]
      rw [e1, e2, e3]
      have e4 : (ts.length < k) = (ts.length + 1 < k + 1) := by
        apply propext; omega
      simp only [List.length_cons, List.take_succ_cons, List.map_cons, List.append_assoc,
        List.singleton_append, List.cons_append, List.nil_append, e4]
      congr 1
      omega



theorem split_line_eq (line : CStr) (fields : List FieldSlot) (size : Nat)
    (h1 : 1 ≤ size) (hf : size ≤ fields.length) :
    split_line line fields size =
      (((fieldsOf line).take size).map FieldSlot.tok ++
        (if (fieldsOf line).length < size
         then FieldSlot.null :: fields.drop ((fieldsOf line).length + 1)
         else fields.drop size),
       min (fieldsOf line).length size) := by
  unfold split_line
  rw [split_line_loop_eq size _ 0 fields (by omega) hf]
  show _ = _
  rw [lit_comma_space, strtok_all_eq_runs]
  simp [fieldsOf]

theorem split_line_count (line : CStr) (fields : List FieldSlot) (size : Nat)
    (h1 : 1 ≤ size) (hf : size ≤ fields.length) :
    (split_line line fields size).2 = min (fieldsOf line).length size := by
  rw [split_line_eq line fields size h1 hf]

theorem split_line_fields_eq (line : CStr) (fields : List FieldSlot) (size : Nat)
    (h1 : 1 ≤ size) (hf : size ≤ fields.length) :
    split_line_fields line fields size = ((fieldsOf line).take size).map FieldSlot.tok := by
  unfold split_line_fields
  rw [split_line_eq line fields size h1 hf]
  simp only
  rw [List.take_append_of_le_length (by simp [List.length_take])]
  rw [List.take_of_length_le (by simp [List.length_take])]

theorem take_min_length {α : Type} (l : List α) (n : Nat) :
    l.take (min l.length n) = l.take n := by
  by_cases h : n ≤ l.length
  · rw [Nat.min_eq_right h]
  · rw [Nat.min_eq_left (by omega), List.take_of_length_le (Nat.le_refl _),
      List.take_of_length_le (by omega)]

theorem runs_single (delim s : CStr) (hs : s ≠ []) (h : ∀ c ∈ s, c ∉ delim) :
    runs delim s = [s] := by
  unfold runs
  rw [List.splitOnP_eq_single]
  · simp [hs]
  · intro x hx; simpa using h x hx

/-- C13: for every line and every bound `size ≥ 1` (the caller's array
having `size` slots), `split_line` returns as its count `min n size` and as
its fields the first `min n size` maximal comma-and-space-free runs of the
line, in order, `n` being the number of runs; every returned field is a
non-empty token without comma and space, the count is at most `size`, and
the line `a, b,  c` gives the three fields `a`, `b`, `c`. -/
theorem C13_split_line_runs (line : CStr) (fields : List FieldSlot) (size : Nat)
    (h1 : 1 ≤ size) (hf : size ≤ fields.length) :
    (split_line line fields size).2 = min (fieldsOf line).length size ∧
    split_line_fields line fields size =
      ((fieldsOf line).take (min (fieldsOf line).length size)).map FieldSlot.tok ∧
    (∀ slot ∈ split_line_fields line fields size,
      ∃ t : CStr, slot = FieldSlot.tok t ∧ t ≠ [] ∧ ',' ∉ t ∧ ' ' ∉ t) ∧
    (split_line line fields size).2 ≤ size ∧
    split_line_fields "a, b,  c" (List.replicate 12 FieldSlot.uninit) 12 =
      [FieldSlot.tok "a", FieldSlot.tok "b", FieldSlot.tok "c"] := by
  refine ⟨split_line_count line fields size h1 hf, ?_, ?_, ?_, by decide⟩
  · rw [split_line_fields_eq line fields size h1 hf, take_min_length]
  · intro slot hslot
    rw [split_line_fields_eq line fields size h1 hf, List.mem_map] at hslot
    obtain ⟨t, ht, rfl⟩ := hslot
    have := runs_mem _ _ _ (List.mem_of_mem_take ht)
    exact ⟨t, rfl, this.1, fun hc => this.2 _ hc (by simp),
      fun hc => this.2 _ hc (by simp)⟩
  · rw [split_line_count line fields size h1 hf]; omega

theorem C13_split_line_runs_witness :
    (split_line "Mutex spin waits 5, rounds 6" (List.replicate 12 FieldSlot.uninit) 3).2 =
      min (fieldsOf "Mutex spin waits 5, rounds 6").length 3 ∧
    (split_line "Mutex spin waits 5, rounds 6" (List.replicate 12 FieldSlot.uninit) 3).2 = 3 :=
  ⟨(C13_split_line_runs "Mutex spin waits 5, rounds 6" (List.replicate 12 FieldSlot.uninit) 3
      (by decide) (by decide)).1, by decide⟩

/-- C14, counterexample: the line `a<TAB>b` comes back as the single field
`a<TAB>b`, not as the two fields `a` and `b`. -/
theorem C14_counterexample :
    split_line_fields "a\tb" (List.replicate 12 FieldSlot.uninit) 12 = [FieldSlot.tok "a\tb"] ∧
    (split_line "a\tb" (List.replicate 12 FieldSlot.uninit) 12).2 = 1 ∧
    split_line_fields "a\tb" (List.replicate 12 FieldSlot.uninit) 12 ≠
      [FieldSlot.tok "a", FieldSlot.tok "b"] := by
  decide

/-- C14 (amended): `split_line` treats only the comma and the space as field
delimiters; a tab is an ordinary character of a field: two tokens without
comma and space that are separated only by a tab are returned as one field,
the whole text with its tab. -/
theorem C14_tab_is_no_delimiter (u v : CStr) (fields : List FieldSlot) (size : Nat)
    (h1 : 1 ≤ size) (hf : size ≤ fields.length)
    (hu : ∀ c ∈ u, c ≠ ',' ∧ c ≠ ' ') (hv : ∀ c ∈ v, c ≠ ',' ∧ c ≠ ' ') :
    split_line_fields (u ++ '\t' :: v) fields size = [FieldSlot.tok (u ++ '\t' :: v)] ∧
    (split_line (u ++ '\t' :: v) fields size).2 = 1 := by
  have hr : fieldsOf (u ++ '\t' :: v) = [u ++ '\t' :: v] := by
    apply runs_single
    · simp
    · intro c hc
      rcases List.mem_append.mp hc with h | h
      · have := hu c h; simp [this.1, this.2]
      · rcases List.mem_cons.mp h with h | h
        · subst h; decide
        · have := hv c h; simp [this.1, this.2]
  constructor
  · rw [split_line_fields_eq _ fields size h1 hf, hr]
    obtain ⟨k, rfl⟩ : ∃ k, size = k + 1 := ⟨size - 1, by omega⟩
    simp
  · rw [split_line_count _ fields size h1 hf, hr]
    simp; omega

theorem C14_tab_is_no_delimiter_witness :
    split_line_fields (lit "a" ++ '\t' :: lit "b") (List.replicate 12 FieldSlot.uninit) 12 =
      [FieldSlot.tok (lit "a" ++ '\t' :: lit "b")] ∧
    (split_line (lit "a" ++ '\t' :: lit "b") (List.replicate 12 FieldSlot.uninit) 12).2 = 1 :=
  C14_tab_is_no_delimiter (lit "a") (lit "b") (List.replicate 12 FieldSlot.uninit) 12
    (by decide) (by decide) (by decide) (by decide)

/-- C15: for every blob and every bound `size ≥ 1`, `split_row` returns, in
order, the first `min n size` non-empty newline-delimited segments of the
blob, `n` being their number; the result has at most `size` entries, no
returned line is empty or contains a newline, the lines past the bound are
left out (the function has no failure path), and the result for a bound `k`
is the first `k` entries of the result for any larger bound. -/
theorem C15_split_row_lines (blob : CStr) (size : Nat) (h1 : 1 ≤ size) :
    split_row blob size = (linesOf blob).take (min (linesOf blob).length size) ∧
    (split_row blob size).length = min (linesOf blob).length size ∧
    (split_row blob size).length ≤ size ∧
    (∀ t ∈ split_row blob size, t ≠ [] ∧ '\n' ∉ t) ∧
    (∀ k, 1 ≤ k → k ≤ size → split_row blob k = (split_row blob size).take k) := by
  refine ⟨?_, ?_, ?_, ?_, ?_⟩
  · rw [split_row_eq blob size h1, take_min_length]
  · rw [split_row_eq blob size h1, List.length_take]; omega
  · rw [split_row_eq blob size h1, List.length_take]; omega
  · intro t ht
    rw [split_row_eq blob size h1] at ht
    have := runs_mem _ _ _ (List.mem_of_mem_take ht)
    exact ⟨this.1, fun hc => this.2 _ hc (by simp)⟩
  · intro k hk hks
    rw [split_row_eq blob size h1, split_row_eq blob k hk, List.take_take,
      Nat.min_eq_left hks]

theorem C15_split_row_lines_witness :
    split_row "a\n\nb\nc" 2 = (linesOf "a\n\nb\nc").take (min (linesOf "a\n\nb\nc").length 2) ∧
    split_row "a\n\nb\nc" 2 = ["a", "b"] :=
  ⟨(C15_split_row_lines "a\n\nb\nc" 2 (by decide)).1, by decide⟩

/-! ## The first matching test of the cascade -/

theorem strncmp_append_self (p : CStr) : ∀ r : CStr, strncmp (p ++ r) p p.length = 0 := by
  induction p with
  | nil => intro r; simp [strncmp]
  | cons a p ih => intro r; simp [strncmp, ih]

theorem isPrefixOf_iff_strncmp (key p : CStr) (hp : NoNul p) :
    p.isPrefixOf key = true ↔ strncmp key p (strlen p) = 0 := by
  constructor
  · intro h
    obtain ⟨r, rfl⟩ := List.isPrefixOf_iff_prefix.mp h
    exact strncmp_append_self p r
  · intro h
    obtain ⟨r, rfl⟩ := prefix_of_strncmp h hp
    exact List.isPrefixOf_iff_prefix.mpr ⟨r, rfl⟩

theorem find_skip {key p : CStr} {f : Bool} {fam : Option CStr}
    {ts : List (CStr × Bool × Option CStr)} {r : Option (CStr × Bool × Option CStr)}
    (h : ¬ (strncmp key p (strlen p) = 0 ∧ f = true)) (hp : NoNul p)
    (hr : ts.find? (test_matches key) = r) :
    ((p, f, fam) :: ts).find? (test_matches key) = r := by
  have : test_matches key (p, f, fam) = false := by
    unfold test_matches
    cases hf : f
    · simp
    · have hn : ¬ strncmp key p (strlen p) = 0 := fun hs => h ⟨hs, hf⟩
      simp only [Bool.true_and]
      cases hq : p.isPrefixOf key
      · rfl
      · exact absurd ((isPrefixOf_iff_strncmp key p hp).mp hq) hn
  rw [List.find?_cons, this]; exact hr

theorem find_skip_plain {key p : CStr} {fam : Option CStr}
    {ts : List (CStr × Bool × Option CStr)} {r : Option (CStr × Bool × Option CStr)}
    (h : ¬ (strncmp key p (strlen p) = 0)) (hp : NoNul p)
    (hr : ts.find? (test_matches key) = r) :
    ((p, true, fam) :: ts).find? (test_matches key) = r :=
  find_skip (fun hh => h hh.1) hp hr

theorem find_hit {key p : CStr} {f : Bool} {fam : Option CStr}
    {ts : List (CStr × Bool × Option CStr)}
    (h : strncmp key p (strlen p) = 0 ∧ f = true) (hp : NoNul p) :
    ((p, f, fam) :: ts).find? (test_matches key) = some (p, true, fam) := by
  have : test_matches key (p, f, fam) = true := by
    unfold test_matches
    simp [h.2, (isPrefixOf_iff_strncmp key p hp).mpr h.1]
  rw [List.find?_cons, this, h.2]

theorem find_hit_plain {key p : CStr} {fam : Option CStr}
    {ts : List (CStr × Bool × Option CStr)}
    (h : strncmp key p (strlen p) = 0) (hp : NoNul p) :
    ((p, true, fam) :: ts).find? (test_matches key) = some (p, true, fam) :=
  find_hit ⟨h, rfl⟩ hp

theorem firstMatch_pure (db : mysql_database_t) (key : CStr) (v : Int) (l : Locals) :
    FirstMatch db key v (pure l) :=
  ⟨by simp [Run.events_pure], by simp [Run.events_pure]⟩

theorem counter_then_pure_events {α : Type} (t : CStr) (ti : Option CStr) (v : value_t) (a : α) :
    (do counter_submit t ti v; pure a : Run α).events =
      [Event.values (sstrncpy t DATA_MAX_NAME_LEN)
        (ti.map (fun s => sstrncpy s DATA_MAX_NAME_LEN)) [v]] := rfl

/-- A type shorter than the buffer is copied whole. -/
theorem sstrncpy_short (t : CStr) (n : Nat) (h : t.length < n) : sstrncpy t n = t :=
  List.take_of_length_le (by omega)

theorem firstMatch_emit {db : mysql_database_t} {key p fam : CStr} {val : Nat} {l : Locals}
    (hm : strncmp key p (strlen p) = 0) (hp : NoNul p) (hl : fam.length < DATA_MAX_NAME_LEN)
    (hf : first_test db key = some (p, true, some fam)) :
    FirstMatch db key (toDerive val)
      (do counter_submit fam (some (key.drop (strlen p))) (value_t.derive (toDerive val))
          pure l) := by
  obtain ⟨r, rfl⟩ := prefix_of_strncmp hm hp
  rw [FirstMatch, counter_then_pure_events, sstrncpy_short fam _ hl]
  refine ⟨by simp, ?_⟩
  intro e he
  refine ⟨p, fam, r, hf, rfl, ?_⟩
  simpa [strlen, sstrncpy] using he


theorem firstMatch_emit_and {db : mysql_database_t} {key p fam : CStr} {val : Nat}
    {l : Locals} {q : Prop} (hm : strncmp key p (strlen p) = 0 ∧ q) (hp : NoNul p)
    (hl : fam.length < DATA_MAX_NAME_LEN)
    (hf : first_test db key = some (p, true, some fam)) :
    FirstMatch db key (toDerive val)
      (do counter_submit fam (some (key.drop (strlen p))) (value_t.derive (toDerive val))
          pure l) :=
  firstMatch_emit hm.1 hp hl hf

/-- The cascade dispatches at most one value list, that of the first test
that matches the key with its flag enabled. -/
theorem classify_firstMatch (db : mysql_database_t) (key : CStr) (val : Nat) (l : Locals) :
    FirstMatch db key (toDerive val) (classify db key val l) := by
  unfold classify
  repeat' (apply ite_ind <;> intro _)
  all_goals first
    | exact firstMatch_pure _ _ _ _
    | refine firstMatch_emit (by assumption) (by decide) (by decide) ?_
    | refine firstMatch_emit_and (by assumption) (by decide) (by decide) ?_
  all_goals
    show List.find? (test_matches key) (cascade_tests db) = _
    unfold cascade_tests
    repeat (first
      | refine find_skip (by assumption) (by decide) ?_
      | refine find_skip_plain (by assumption) (by decide) ?_)
    first
      | exact find_hit (by assumption) (by decide)
      | exact find_hit_plain (by assumption) (by decide)


theorem atoll_range (s : CStr) : -(2 : Int) ^ 63 ≤ atoll s ∧ atoll s < (2 : Int) ^ 63 := by
  unfold atoll
  split
  · have : (0 : Int) ≤ (digitsValue 0 ‹CStr› : Int) := Int.natCast_nonneg _
    omega
  · have : (0 : Int) ≤ (digitsValue 0 ‹CStr› : Int) := Int.natCast_nonneg _
    omega
  · have : (0 : Int) ≤ (digitsValue 0 ‹CStr› : Int) := Int.natCast_nonneg _
    omega

theorem toDerive_toU64 (i : Int) (h1 : -(2 : Int) ^ 63 ≤ i) (h2 : i < (2 : Int) ^ 63) :
    toDerive (toU64 i) = i := by
  unfold toDerive toU64
  have e : (i % (2 : Int) ^ 64).toNat % 2 ^ 64 = (i % (2 : Int) ^ 64).toNat := by
    apply Nat.mod_eq_of_lt
    have := Int.emod_lt_of_pos i (show (0 : Int) < (2 : Int) ^ 64 by norm_num)
    have := Int.emod_nonneg i (show ((2 : Int) ^ 64) ≠ 0 by norm_num)
    omega
  rw [e]
  have hn := Int.emod_nonneg i (show ((2 : Int) ^ 64) ≠ 0 by norm_num)
  have hc : ((i % (2 : Int) ^ 64).toNat : Int) = i % (2 : Int) ^ 64 := Int.toNat_of_nonneg hn
  by_cases hi : 0 ≤ i
  · have : i % (2 : Int) ^ 64 = i := Int.emod_eq_of_lt hi (by omega)
    rw [if_pos (by omega)]
    omega
  · have : i % (2 : Int) ^ 64 = i + (2 : Int) ^ 64 := by
      rw [← Int.add_emod_self]
      exact Int.emod_eq_of_lt (by omega) (by omega)
    rw [if_neg (by omega)]
    omega

theorem derive_cellValue (value : CStr) : toDerive (cellValue value) = atoll value :=
  toDerive_toU64 _ (atoll_range value).1 (atoll_range value).2

/-- A row either has both cells, and its body is the cascade, or dispatches
nothing. -/
theorem mysql_read_row_cases (db : mysql_database_t) (row : MYSQL_ROW) (l : Locals) :
    (∃ key value, cell row 0 = some key ∧ cell row 1 = some value ∧
      mysql_read_row db row l = classify db key (cellValue value) l) ∨
    (mysql_read_row db row l).events = [] := by
  unfold mysql_read_row
  cases h1 : cell row 1 with
  | none => right; rfl
  | some value =>
    cases h0 : cell row 0 with
    | none => right; rfl
    | some key => left; exact ⟨key, value, rfl, rfl, rfl⟩


theorem flagOn_plain {db : mysql_database_t} {t : CStr} {ti : Option CStr} {vs : List value_t}
    (e : family_flag db t = true) : Event.FlagOn db (Event.values t ti vs) := e

theorem flagOn_gated {db : mysql_database_t} {t : CStr} {ti : Option CStr} {vs : List value_t}
    {f : Bool} {q : Prop} (h : q ∧ f = true) (e : family_flag db t = f) :
    Event.FlagOn db (Event.values t ti vs) := by
  show family_flag db t = true
  rw [e]; exact h.2

/-- Every value list of the cascade has the flag of its family enabled. -/
theorem classify_flagOn (db : mysql_database_t) (key : CStr) (val : Nat) (l : Locals) :
    Run.All (Event.FlagOn db) (classify db key val l) := by
  unfold classify
  repeat' (apply ite_ind <;> intro _)
  all_goals first
    | exact Run.All_pure _ _
    | exact Run.All_bind (All_counter_submit (flagOn_plain rfl)) (fun _ => Run.All_pure _ _)
    | exact Run.All_bind (All_counter_submit (flagOn_gated (by assumption) rfl))
        (fun _ => Run.All_pure _ _)

/-- A key that starts with `Com_stmt_` dispatches nothing. -/
theorem classify_com_stmt_silent (db : mysql_database_t) (rest : CStr) (val : Nat)
    (l : Locals) : (classify db (lit "Com_stmt_" ++ rest) val l).events = [] := by
  unfold classify
  rw [if_pos (by simp [lit, strncmp, strlen])]
  unfold classify_com
  by_cases hv : val = 0
  · rw [if_pos hv]; rfl
  · rw [if_neg hv, if_neg (by simp [lit, strncmp, strlen])]; rfl

/-- With every flag disabled, the first matching test of a dispatched value
list is one of the three tests without a flag that dispatch. -/
theorem first_test_flags_off {db : mysql_database_t} {key p fam : CStr}
    (hoff : all_flags_off db) (h : first_test db key = some (p, true, some fam)) :
    p = lit "Com_" ∨ p = lit "Handler_" ∨ p = lit "Table_locks_" := by
  obtain ⟨h1, h2, h3, h4, h5, h6, h7, h8, h9, h10, h11, h12, h13⟩ := hoff
  have hm := List.mem_of_find?_eq_some h
  unfold cascade_tests at hm
  rw [h1, h2, h3, h4, h5, h6, h7, h8, h9, h10, h11, h12, h13] at hm
  simp only [List.mem_cons, Prod.mk.injEq, Bool.true_eq_false, false_and, and_false, false_or,
    or_false, true_and, List.mem_nil_iff, List.not_mem_nil, Option.some.injEq,
    reduceCtorEq] at hm
  rcases hm with hm | hm | hm
  · exact Or.inl hm.1
  · exact Or.inr (Or.inl hm.1)
  · exact Or.inr (Or.inr hm.1)

/-! ## Claims on the classifier (C11, C12) -/

/-- C11: for every row of the global status and every flag configuration,
(1) a value list of a gated family is dispatched only with the category flag
of that family enabled; (2) with every flag disabled, a row that dispatches
an individual sample has a key that starts with `Com_` but not with
`Com_stmt_`, or with `Handler_`, or with `Table_locks_`; (3) a key that
starts with `Com_stmt_` never dispatches a sample. -/
theorem C11_gated_families (db : mysql_database_t) (row : MYSQL_ROW) (l : Locals) :
    Run.All (Event.FlagOn db) (mysql_read_row db row l) ∧
    (all_flags_off db → (mysql_read_row db row l).events ≠ [] →
      ∃ key, cell row 0 = some key ∧
        ((StartsWith key "Com_" ∧ ¬ StartsWith key "Com_stmt_") ∨
          StartsWith key "Handler_" ∨ StartsWith key "Table_locks_")) ∧
    (∀ key, cell row 0 = some key → StartsWith key "Com_stmt_" →
      (mysql_read_row db row l).events = []) := by
  rcases mysql_read_row_cases db row l with ⟨key, value, h0, h1, he⟩ | hs
  · rw [he]
    refine ⟨classify_flagOn db key _ l, ?_, ?_⟩
    · intro hoff hne
      refine ⟨key, h0, ?_⟩
      obtain ⟨_, hall⟩ := classify_firstMatch db key (cellValue value) l
      obtain ⟨e, he2⟩ := List.exists_mem_of_ne_nil _ hne
      obtain ⟨p, fam, rest, hft, hk, _⟩ := hall e he2
      rcases first_test_flags_off hoff hft with hp | hp | hp
      · left
        refine ⟨⟨rest, by rw [hk, hp]⟩, ?_⟩
        rintro ⟨r2, hr2⟩
        apply hne
        rw [hr2]
        exact classify_com_stmt_silent db r2 _ l
      · right; left; exact ⟨rest, by rw [hk, hp]⟩
      · right; right; exact ⟨rest, by rw [hk, hp]⟩
    · intro key2 hk2 hst
      obtain ⟨r2, hr2⟩ := hst
      have : key = key2 := Option.some.inj (h0.symm.trans hk2)
      rw [this, hr2]
      exact classify_com_stmt_silent db r2 _ l
  · refine ⟨fun e he => ?_, fun _ hne => absurd hs hne, fun _ _ _ => hs⟩
    rw [hs] at he
    exact absurd he (List.not_mem_nil e)

theorem C11_gated_families_witness :
    (∃ key, cell (statusRow ("Handler_read_first", "3")) 0 = some key ∧
      ((StartsWith key "Com_" ∧ ¬ StartsWith key "Com_stmt_") ∨
        StartsWith key "Handler_" ∨ StartsWith key "Table_locks_")) ∧
    (mysql_read_row mysql_database_t.fresh (statusRow ("Com_stmt_execute", "3"))
      Locals.init).events = [] ∧
    (mysql_read_row mysql_database_t.fresh (statusRow ("Binlog_cache_use", "3"))
      Locals.init).events = [] ∧
    (mysql_read_row mysql_database_t.fresh (statusRow ("Handler_read_first", "3"))
      Locals.init).events =
        [Event.values "mysql_handler" (some "read_first") [value_t.derive 3]] :=
  ⟨(C11_gated_families mysql_database_t.fresh (statusRow ("Handler_read_first", "3"))
      Locals.init).2.1 (by unfold all_flags_off; decide) (by decide),
   (C11_gated_families mysql_database_t.fresh (statusRow ("Com_stmt_execute", "3"))
      Locals.init).2.2 "Com_stmt_execute" rfl ⟨"execute", by decide⟩,
   by decide, by decide⟩

/-- C12, as stated, fails: the type instance is copied into a buffer of
`DATA_MAX_NAME_LEN` bytes.  A key of `Com_` and 100 characters, whose first
matching test is that for `Com_`, gives a value list `mysql_commands` whose
type instance is the first 63 of these characters, not the key with the
prefix removed. -/
theorem C12_counterexample :
    first_test mysql_database_t.fresh (lit "Com_" ++ List.replicate 100 'x') =
      some (lit "Com_", true, some (lit "mysql_commands"))
    ∧ (mysql_read_row mysql_database_t.fresh
        (statusRow (lit "Com_" ++ List.replicate 100 'x', lit "5")) Locals.init).events
      = [Event.values (lit "mysql_commands") (some (List.replicate 63 'x')) [value_t.derive 5]]
    ∧ List.replicate 63 'x' ≠ List.replicate 100 'x' := by
  decide

/-- C12 (amended): for every row of the global status, the body of the status
loop dispatches at most one individual sample; a dispatched sample has the
family of the first test in cascade order that matches the key with its
flag enabled, as type instance the first `DATA_MAX_NAME_LEN - 1` characters
of the key without exactly the prefix of that test (the whole of it when it
is shorter than `DATA_MAX_NAME_LEN`), and as its one value the parsed value
cell of the row.  `Com_select` with the value 5 gives `mysql_commands` /
`select` / 5, and the key `Connections` gives an empty type instance. -/
theorem C12_first_matching_test (db : mysql_database_t) (row : MYSQL_ROW) (l : Locals) :
    (mysql_read_row db row l).events.length ≤ 1 ∧
    (∀ e ∈ (mysql_read_row db row l).events, ∃ key value p fam rest,
      cell row 0 = some key ∧ cell row 1 = some value ∧
      first_test db key = some (p, true, some fam) ∧ key = p ++ rest ∧
      e = Event.values fam (some (rest.take (DATA_MAX_NAME_LEN - 1)))
        [value_t.derive (atoll value)] ∧
      (rest.length < DATA_MAX_NAME_LEN →
        e = Event.values fam (some rest) [value_t.derive (atoll value)])) ∧
    (mysql_read_row db (statusRow ("Com_select", "5")) l).events =
      [Event.values "mysql_commands" (some "select") [value_t.derive 5]] ∧
    (mysql_read_row exampleConnectionsDb (statusRow ("Connections", "7")) l).events =
      [Event.values "mysql_connections" (some []) [value_t.derive 7]] := by
  refine ⟨?_, ?_, rfl, rfl⟩
  · rcases mysql_read_row_cases db row l with ⟨key, value, _, _, he⟩ | hs
    · rw [he]; exact (classify_firstMatch db key (cellValue value) l).1
    · rw [hs]; simp
  · rcases mysql_read_row_cases db row l with ⟨key, value, h0, h1, he⟩ | hs
    · rw [he]
      intro e hmem
      obtain ⟨p, fam, rest, hft, hk, hev⟩ :=
        (classify_firstMatch db key (cellValue value) l).2 e hmem
      rw [derive_cellValue] at hev
      refine ⟨key, value, p, fam, rest, h0, h1, hft, hk, hev, fun hlen => ?_⟩
      rw [hev, List.take_of_length_le (by omega)]
    · rw [hs]; intro e hmem; exact absurd hmem (List.not_mem_nil e)

theorem C12_first_matching_test_witness :
    ∃ key value p fam rest,
      cell (statusRow ("Connections", "7")) 0 = some key ∧
      cell (statusRow ("Connections", "7")) 1 = some value ∧
      first_test exampleConnectionsDb key = some (p, true, some fam) ∧ key = p ++ rest ∧
      Event.values "mysql_connections" (some []) [value_t.derive 7] =
        Event.values fam (some (rest.take (DATA_MAX_NAME_LEN - 1)))
          [value_t.derive (atoll value)] ∧
      (rest.length < DATA_MAX_NAME_LEN →
        Event.values "mysql_connections" (some []) [value_t.derive 7] =
          Event.values fam (some rest) [value_t.derive (atoll value)]) :=
  (C12_first_matching_test exampleConnectionsDb (statusRow ("Connections", "7"))
    Locals.init).2.1 (Event.values "mysql_connections" (some []) [value_t.derive 7])
    (by decide)

/-! ## The lines of the engine report -/

theorem strncmp_lit_append (p : CStr) : ∀ r : CStr, strncmp p (p ++ r) p.length = 0 := by
  induction p with
  | nil => intro r; simp [strncmp]
  | cons a p ih => intro r; simp [strncmp, ih]

/-- The slot `k` after tokenizing a line that has more than `k` fields is
the field `k` of the line. -/
theorem field_split_line (line : CStr) (fields : List FieldSlot) (k : Nat)
    (hf : fields.length = 12) (hk : k < (fieldsOf line).length) (hk12 : k < 12) :
    field (split_line line fields 12).1 k = pure ((fieldsOf line).getD k []) := by
  rw [split_line_eq line fields 12 (by omega) (by omega)]
  unfold field
  have : (List.map FieldSlot.tok (List.take 12 (fieldsOf line)) ++
      if (fieldsOf line).length < 12 then
        FieldSlot.null :: List.drop ((fieldsOf line).length + 1) fields
      else List.drop 12 fields).getD k FieldSlot.uninit
        = FieldSlot.tok ((fieldsOf line).getD k []) := by
    rw [List.getD_eq_getElem?_getD, List.getElem?_append_left
      (by simp only [List.length_map, List.length_take]; omega)]
    rw [List.getElem?_map, List.getElem?_take_of_lt hk12, List.getD_eq_getElem?_getD,
      List.getElem?_eq_getElem hk]
    rfl
  simp only [this]

theorem atof_field_split_line (line : CStr) (fields : List FieldSlot) (k : Nat)
    (hf : fields.length = 12) (hk : k < (fieldsOf line).length) (hk12 : k < 12) :
    atof_field (split_line line fields 12).1 k
      = pure (Double.atof ((fieldsOf line).getD k [])) := by
  unfold atof_field
  rw [field_split_line line fields k hf hk hk12]
  rfl

theorem other_values {t t2 : CStr} {ti ti2 : Option CStr} {vs : List value_t}
    (h : (decide (t2 = t) && decide (ti2 = ti)) = false) :
    Event.Other t ti (Event.values t2 ti2 vs) := h

theorem atMostOnce_of_all {α : Type} {t : CStr} {ti : Option CStr} {r : Run α}
    (h : Run.All (Event.Other t ti) r) : Run.AtMostOnce t ti r := by
  unfold Run.AtMostOnce
  rw [countP_eq_zero_of_forall h]
  omega

theorem atMostOnce_bind_silent {α β : Type} {t : CStr} {ti : Option CStr} {x : Run α}
    {f : α → Run β} (hx : Run.Silent x) (hf : ∀ a, Run.AtMostOnce t ti (f a)) :
    Run.AtMostOnce t ti (x >>= f) := by
  unfold Run.AtMostOnce
  rw [Run.events_bind, hx]
  cases x.result with
  | none => simp
  | some a => simpa using hf a

theorem atMostOnce_emit_bind {β : Type} {t : CStr} {ti : Option CStr} {x : Run Unit}
    {f : Unit → Run β} (hx : x.events.length ≤ 1) (hf : ∀ a, Run.All (Event.Other t ti) (f a)) :
    Run.AtMostOnce t ti (x >>= f) := by
  unfold Run.AtMostOnce
  rw [Run.events_bind, List.countP_append]
  have h1 : x.events.countP (Event.isSample t ti) ≤ 1 :=
    Nat.le_trans (List.countP_le_length _) hx
  cases x.result with
  | none => simpa using h1
  | some a =>
    have := countP_eq_zero_of_forall (hf a)
    simp only [this]
    omega

theorem atof_field_silent (fields : List FieldSlot) (k : Nat) :
    Run.Silent (atof_field fields k) := by
  unfold atof_field
  have := field_silent fields k
  unfold Run.Silent at this ⊢
  rw [Run.events_bind, this]
  cases (field fields k).result <;> rfl

/-- The body of the parser loop dispatches `rw_shared_spin_waits` at most
once for a line. -/
theorem innodb_line_spin_once (line : CStr) (e : EngineLocals) :
    Run.AtMostOnce "mysql_semaphores" (some "rw_shared_spin_waits") (innodb_line line e) := by
  unfold innodb_line
  repeat' (apply ite_ind <;> intro _)
  all_goals first
    | (refine atMostOnce_of_all ?_
       repeat' first
         | exact Run.All_pure _ _
         | exact All_atof_field _ _ _
         | exact All_field _ _ _
         | exact All_counter_submit (other_values (by decide))
         | exact All_derive_submit (other_values (by decide))
         | exact All_gauge_submit (other_values (by decide))
         | (refine Run.All_bind ?_ (fun _ => ?_))
       done)
    | (refine atMostOnce_bind_silent (atof_field_silent _ _) (fun _ => ?_)
       refine atMostOnce_emit_bind (Nat.le_refl 1) (fun _ => ?_)
       repeat' first
         | exact Run.All_pure _ _
         | exact All_atof_field _ _ _
         | exact All_counter_submit (other_values (by decide))
         | (refine Run.All_bind ?_ (fun _ => ?_)))


theorem innodb_lines_count (lines : List CStr) : ∀ e : EngineLocals,
    (innodb_lines lines e).events.countP
      (Event.isSample "mysql_semaphores" (some "rw_shared_spin_waits")) ≤ lines.length := by
  induction lines with
  | nil => intro e; simp [innodb_lines, Run.events_pure]
  | cons line lines ih =>
    intro e
    have h1 := innodb_line_spin_once line e
    unfold Run.AtMostOnce at h1
    rw [innodb_lines, Run.events_bind, List.countP_append, List.length_cons]
    cases (innodb_line line e).result with
    | none => simp only [List.countP_nil]; omega
    | some e1 =>
      have := ih e1
      simp only
      omega

/-- C17, counterexample: a report with a line of the earlier dialect and a
line of the later dialect fires both branches in one parse, and
`rw_shared_spin_waits` is dispatched twice. -/
theorem C17_counterexample :
    (mysql_innodb_engine_stats (engineDriver
      "RW-shared spins 10, OS waits 20; RW-excl spins 30, OS waits 40\nRW-shared spins 5, rounds 6, OS waits 7")).events =
      [Event.values "mysql_semaphores" (some "rw_shared_spin_waits")
         [value_t.derive_of_double (Double.atof "10")],
       Event.values "mysql_semaphores" (some "rw_shared_os_waits")
         [value_t.derive_of_double (Double.atof "20;")],
       Event.values "mysql_semaphores" (some "rw_excl_spin_waits")
         [value_t.derive_of_double (Double.atof "30")],
       Event.values "mysql_semaphores" (some "rw_excl_os_waits")
         [value_t.derive_of_double (Double.atof "40")],
       Event.values "mysql_semaphores" (some "rw_shared_spin_waits")
         [value_t.derive_of_double (Double.atof "5")],
       Event.values "mysql_semaphores" (some "rw_shared_os_waits")
         [value_t.derive_of_double (Double.atof "7")]] ∧
    (mysql_innodb_engine_stats (engineDriver
      "RW-shared spins 10, OS waits 20; RW-excl spins 30, OS waits 40\nRW-shared spins 5, rounds 6, OS waits 7")).events.countP
        (Event.isSample "mysql_semaphores" (some "rw_shared_spin_waits")) = 2 := by
  decide

/-- C17 (amended): for every line of a diagnostics report, whatever the
lines before it left in the locals, the branch of the earlier dialect and
the branch of the later dialect do not both fire for that line:
`rw_shared_spin_waits` is dispatched at most once per line, hence at most as
often as the report has lines. -/
theorem C17_one_dialect_per_line (lines : List CStr) (e : EngineLocals) :
    (∀ line ∈ lines, ∀ e1 : EngineLocals,
      (innodb_line line e1).events.countP
        (Event.isSample "mysql_semaphores" (some "rw_shared_spin_waits")) ≤ 1) ∧
    (innodb_lines lines e).events.countP
      (Event.isSample "mysql_semaphores" (some "rw_shared_spin_waits")) ≤ lines.length :=
  ⟨fun line _ e1 => innodb_line_spin_once line e1, innodb_lines_count lines e⟩

theorem C17_one_dialect_per_line_witness :
    (innodb_line "RW-shared spins 10, OS waits 20; RW-excl spins 30, OS waits 40"
      EngineLocals.init).events.countP
        (Event.isSample "mysql_semaphores" (some "rw_shared_spin_waits")) ≤ 1 :=
  (C17_one_dialect_per_line
    ["RW-shared spins 10, OS waits 20; RW-excl spins 30, OS waits 40"]
    EngineLocals.init).1
    "RW-shared spins 10, OS waits 20; RW-excl spins 30, OS waits 40"
    (List.mem_singleton.mpr rfl) EngineLocals.init

/-! ## Unmatched and short lines (C18, C19) -/

theorem Run.ext_fields {α : Type} {x y : Run α} (h1 : x.events = y.events)
    (h2 : x.result = y.result) : x = y := by
  cases x; cases y; simp_all

theorem Run.pure_bind {α β : Type} (a : α) (f : α → Run β) : (pure a >>= f) = f a := by
  apply Run.ext_fields
  · rw [Run.events_bind_some _ _ a rfl]; rfl
  · rw [Run.result_bind_some _ _ a rfl]

theorem Run.bind_assoc {α β γ : Type} (x : Run α) (f : α → Run β) (g : β → Run γ) :
    ((x >>= f) >>= g) = (x >>= fun a => f a >>= g) := by
  cases hx : x.result with
  | none =>
    apply Run.ext_fields
    · rw [Run.events_bind, Run.result_bind_none _ _ hx, Run.events_bind, hx, Run.events_bind, hx]
      simp
    · rw [Run.result_bind_none _ _ (Run.result_bind_none _ _ hx), Run.result_bind_none _ _ hx]
  | some a =>
    cases hf : (f a).result with
    | none =>
      have h1 : (x >>= f).result = none := by rw [Run.result_bind_some _ _ a hx, hf]
      apply Run.ext_fields
      · rw [Run.events_bind, h1, Run.events_bind_some _ _ a hx, Run.events_bind_some _ _ a hx,
          Run.events_bind, hf]
        simp
      · rw [Run.result_bind_none _ _ h1, Run.result_bind_some _ _ a hx,
          Run.result_bind_none _ _ hf]
    | some b =>
      have h1 : (x >>= f).result = some b := by rw [Run.result_bind_some _ _ a hx, hf]
      apply Run.ext_fields
      · rw [Run.events_bind_some _ _ b h1, Run.events_bind_some _ _ a hx,
          Run.events_bind_some _ _ a hx, Run.events_bind_some _ _ b hf, List.append_assoc]
      · rw [Run.result_bind_some _ _ b h1, Run.result_bind_some _ _ a hx,
          Run.result_bind_some _ _ b hf]

theorem innodb_lines_append (a b : List CStr) : ∀ e : EngineLocals,
    innodb_lines (a ++ b) e = (innodb_lines a e >>= innodb_lines b) := by
  induction a with
  | nil => intro e; rw [List.nil_append, innodb_lines, Run.pure_bind]
  | cons line a ih =>
    intro e
    rw [List.cons_append, innodb_lines, innodb_lines, Run.bind_assoc]
    congr 1
    funext e1
    exact ih e1

theorem innodb_line_unmatched (x : CStr) (e : EngineLocals) (h : Unmatched x) :
    innodb_line x e = pure e := by
  obtain ⟨h1, h2, h3, h4, h5, h6, h7, h8, h9, h10, h11, h12, h13, h14, h15⟩ := h
  unfold innodb_line
  rw [if_neg h1, if_neg h2, if_neg h3, if_neg h4, if_neg h5, if_neg h6, if_neg h7, if_neg h8,
    if_neg h9, if_neg h10, if_neg h11, if_neg h12, if_neg h13, if_neg h14, if_neg h15]

theorem innodb_lines_insert (before after : List CStr) (x : CStr) (e : EngineLocals)
    (h : Unmatched x) :
    innodb_lines (before ++ x :: after) e = innodb_lines (before ++ after) e := by
  rw [innodb_lines_append, innodb_lines_append]
  congr 1
  funext e1
  rw [innodb_lines, innodb_line_unmatched x e1 h, Run.pure_bind]

theorem engine_stats_of_reports {drv : Driver} {blob : CStr} (h : Reports drv blob) :
    mysql_innodb_engine_stats drv =
      (innodb_lines (split_row blob 150) EngineLocals.init >>= fun _ => pure 0) := by
  obtain ⟨res, row, rest, h1, h2, h3, h4⟩ := h
  unfold mysql_innodb_engine_stats
  rw [h1]
  obtain ⟨nf, rows⟩ := res
  simp only at h2 h3
  subst h2
  show (if nf < 3 then _ else _) = _
  rw [if_neg (by omega), h4]
  exact Run.pure_bind _ _


/-- C18: for every diagnostics report and every line that passes none of
the tests of the parser, inserting that line at any position of the report
(the number of non-empty lines staying within the bound of 150) leaves the
run of `mysql_innodb_engine_stats` unchanged: the same samples in the same
order, and the same outcome. -/
theorem C18_unmatched_line_skipped (drv1 drv2 : Driver) (blob1 blob2 : CStr)
    (before after : List CStr) (x : CStr)
    (h1 : Reports drv1 blob1) (h2 : Reports drv2 blob2)
    (hl1 : linesOf blob1 = before ++ after) (hl2 : linesOf blob2 = before ++ x :: after)
    (hb : (before ++ x :: after).length ≤ 150) (hx : Unmatched x) :
    (mysql_innodb_engine_stats drv2).events = (mysql_innodb_engine_stats drv1).events ∧
    (mysql_innodb_engine_stats drv2).result = (mysql_innodb_engine_stats drv1).result := by
  have hb1 : (before ++ after).length ≤ 150 := by
    simp only [List.length_append, List.length_cons] at hb ⊢
    omega
  have e : mysql_innodb_engine_stats drv2 = mysql_innodb_engine_stats drv1 := by
    rw [engine_stats_of_reports h1, engine_stats_of_reports h2,
      split_row_eq blob1 150 (by decide), split_row_eq blob2 150 (by decide), hl1, hl2,
      List.take_of_length_le hb, List.take_of_length_le hb1, innodb_lines_insert _ _ _ _ hx]
  rw [e]
  exact ⟨rfl, rfl⟩

theorem C18_unmatched_line_skipped_witness :
    ((mysql_innodb_engine_stats
        (engineDriver "Free buffers 10\nunknown line\nDatabase pages 20")).events =
      (mysql_innodb_engine_stats (engineDriver "Free buffers 10\nDatabase pages 20")).events ∧
     (mysql_innodb_engine_stats
        (engineDriver "Free buffers 10\nunknown line\nDatabase pages 20")).result =
      (mysql_innodb_engine_stats (engineDriver "Free buffers 10\nDatabase pages 20")).result) ∧
    (mysql_innodb_engine_stats
        (engineDriver "Free buffers 10\nunknown line\nDatabase pages 20")).events =
      [Event.values "innodb_buffer_pool" (some "free_pages")
         [value_t.gauge (Double.atof "10")],
       Event.values "innodb_buffer_pool" (some "database_pages")
         [value_t.gauge (Double.atof "20")]] :=
  ⟨C18_unmatched_line_skipped (engineDriver "Free buffers 10\nDatabase pages 20")
      (engineDriver "Free buffers 10\nunknown line\nDatabase pages 20")
      "Free buffers 10\nDatabase pages 20" "Free buffers 10\nunknown line\nDatabase pages 20"
      ["Free buffers 10"] ["Database pages 20"] "unknown line"
      ⟨_, _, _, rfl, rfl, by decide, rfl⟩ ⟨_, _, _, rfl, rfl, by decide, rfl⟩
      (by decide) (by decide) (by decide) (by unfold Unmatched; decide),
   by decide⟩

/-- C19: the line `Mutex spin waits` tokenizes to three fields, the branch
reads the offset 3, that is the terminating NULL, and the parse faults: the
report and the read cycle that runs it are aborted.  A short line
`Pages read 9` after a longer line reads, at the offsets 4 and 6, the fields
`rounds` and `OS` left over from the earlier line. -/
theorem C19_short_line_faults :
    (split_line "Mutex spin waits" (List.replicate 12 FieldSlot.uninit) 12).2 = 3 ∧
    (mysql_innodb_engine_stats (engineDriver "Mutex spin waits")).events = [] ∧
    (mysql_innodb_engine_stats (engineDriver "Mutex spin waits")).result = none ∧
    (mysql_read (engineDriver "Mutex spin waits")
      (some { mysql_database_t.fresh with innodb_engine_stats := true })).result = none ∧
    (mysql_innodb_engine_stats
      (engineDriver "Mutex spin waits 5, rounds 6, OS waits 7\nPages read 9")).events =
      [Event.values "mysql_semaphores" (some "mutex_spin_waits")
         [value_t.derive_of_double (Double.atof "5")],
       Event.values "mysql_semaphores" (some "mutex_spin_rounds")
         [value_t.derive_of_double (Double.atof "6")],
       Event.values "mysql_semaphores" (some "mutex_OS_waits")
         [value_t.derive_of_double (Double.atof "7")],
       Event.values "innodb_buffer_pool_activity" (some "pages_read")
         [value_t.derive_of_double (Double.atof "9")],
       Event.values "innodb_buffer_pool_activity" (some "pages_created")
         [value_t.derive_of_double (Double.atof "rounds")],
       Event.values "innodb_buffer_pool_activity" (some "pages_written")
         [value_t.derive_of_double (Double.atof "OS")]] := by
  decide

/-! ## The transaction counter across lines (C20) -/

theorem Run.post_pure {α : Type} {Q : α → Prop} {a : α} (h : Q a) :
    Run.Post Q (pure a : Run α) := by
  intro b hb
  have : a = b := Option.some.inj hb
  rw [← this]; exact h

theorem Run.post_bind {α β : Type} {Q : β → Prop} {x : Run α} {f : α → Run β}
    (hf : ∀ a, Run.Post Q (f a)) : Run.Post Q (x >>= f) := by
  intro b hb
  cases hx : x.result with
  | none => rw [Run.result_bind_none _ _ hx] at hb; cases hb
  | some a =>
    rw [Run.result_bind_some _ _ a hx] at hb
    exact hf a b hb

theorem ofNat_add_toNat (n : Nat) (h1 : 65 ≤ n) (h2 : n ≤ 90) :
    (Char.ofNat (n + 32)).toNat = n + 32 := by
  interval_cases n <;> rfl

theorem tolower_toNat (c : Char) :
    (tolower c).toNat = if 65 ≤ c.toNat ∧ c.toNat ≤ 90 then c.toNat + 32 else c.toNat := by
  unfold tolower
  by_cases h : 65 ≤ c.toNat ∧ c.toNat ≤ 90
  · rw [if_pos h, if_pos h]; exact ofNat_add_toNat _ h.1 h.2
  · rw [if_neg h, if_neg h]

theorem char_eq_of_toNat {a b : Char} (h : a.toNat = b.toNat) : a = b :=
  Char.ext (UInt32.ext h)

theorem tolower_eq_iff (a lo up : Char) (h1 : 97 ≤ lo.toNat ∧ lo.toNat ≤ 122)
    (h2 : up.toNat + 32 = lo.toNat) : tolower a = tolower lo ↔ a = lo ∨ a = up := by
  constructor
  · intro h
    have h3 := congrArg Char.toNat h
    rw [tolower_toNat, tolower_toNat] at h3
    by_cases ha : 65 ≤ a.toNat ∧ a.toNat ≤ 90
    · rw [if_pos ha, if_neg (by omega)] at h3
      exact Or.inr (char_eq_of_toNat (by omega))
    · rw [if_neg ha, if_neg (by omega)] at h3
      exact Or.inl (char_eq_of_toNat h3)
  · rintro (h | h)
    · rw [h]
    · apply char_eq_of_toNat
      rw [h, tolower_toNat, tolower_toNat, if_pos (by omega), if_neg (by omega)]
      exact h2

theorem tolower_toNat_ne_zero {c : Char} (h : c.toNat ≠ 0) : (tolower c).toNat ≠ 0 := by
  rw [tolower_toNat]
  by_cases ha : 65 ≤ c.toNat ∧ c.toNat ≤ 90
  · rw [if_pos ha]; omega
  · rw [if_neg ha]; exact h

theorem strcasecmp_cons (a b : Char) (s t : CStr) :
    strcasecmp (a :: s) (b :: t) = 0 ↔ tolower a = tolower b ∧ strcasecmp s t = 0 := by
  rw [strcasecmp]
  by_cases h : tolower a = tolower b
  · rw [if_pos h]; exact ⟨fun h2 => ⟨h, h2⟩, fun h2 => h2.2⟩
  · rw [if_neg h]
    exact ⟨fun h2 => absurd h2 (char_sub_ne_zero h), fun h2 => absurd h2.1 h⟩

theorem strcasecmp_nil_right {s : CStr} (hs : NoNul s) (h : strcasecmp s [] = 0) : s = [] := by
  cases s with
  | nil => rfl
  | cons a s =>
    exfalso
    rw [strcasecmp] at h
    exact tolower_toNat_ne_zero (hs a (List.mem_cons_self _ _)) (by omega)

theorem noNul_tail {a : Char} {s : CStr} (h : NoNul (a :: s)) : NoNul s :=
  fun c hc => h c (List.mem_cons_of_mem _ hc)

theorem strcasecmp_yes (s : CStr) (hs : NoNul s) :
    strcasecmp s "yes" = 0 ↔ s ∈ yes_spellings := by
  constructor
  · intro h
    have h0 : strcasecmp s ['y', 'e', 's'] = 0 := h
    cases s with
    | nil => exact absurd h0 (by decide)
    | cons a s =>
      rw [strcasecmp_cons] at h0
      obtain ⟨ha, h1⟩ := h0
      cases s with
      | nil => exact absurd h1 (by decide)
      | cons b s =>
        rw [strcasecmp_cons] at h1
        obtain ⟨hb, h2⟩ := h1
        cases s with
        | nil => exact absurd h2 (by decide)
        | cons c s =>
          rw [strcasecmp_cons] at h2
          obtain ⟨hc, h3⟩ := h2
          have hnil := strcasecmp_nil_right (noNul_tail (noNul_tail (noNul_tail hs))) h3
          subst hnil
          rcases (tolower_eq_iff a 'y' 'Y' (by decide) (by decide)).mp ha with rfl | rfl <;>
          rcases (tolower_eq_iff b 'e' 'E' (by decide) (by decide)).mp hb with rfl | rfl <;>
          rcases (tolower_eq_iff c 's' 'S' (by decide) (by decide)).mp hc with rfl | rfl <;>
          decide
  · intro h
    unfold yes_spellings at h
    simp only [List.mem_cons, List.mem_singleton, List.mem_nil_iff, or_false] at h
    rcases h with rfl | rfl | rfl | rfl | rfl | rfl | rfl | rfl <;> decide


theorem is_yes_iff (p : Option CStr) (hp : NoNulCell p) : is_yes p = true ↔ SaysYes p := by
  cases p with
  | none =>
    constructor
    · intro h; cases h
    · rintro ⟨s, hs, _⟩; cases hs
  | some s =>
    have hs : NoNul s := hp s rfl
    unfold is_yes SaysYes
    simp only [decide_eq_true_eq]
    rw [strcasecmp_yes s hs]
    constructor
    · intro h; exact ⟨s, rfl, h⟩
    · rintro ⟨t, ht, hm⟩
      rw [Option.some.inj ht]; exact hm

theorem not_yes_iff (p : Option CStr) (hp : NoNulCell p) : not_yes p = true ↔ ¬ SaysYes p := by
  rw [← is_yes_iff p hp, is_yes_eq_not]
  cases not_yes p <;> simp

/-- C26: for every thread-status cell without a NUL character, the test of
`mysql_read_slave_stats` for a running thread holds if and only if the cell
is not NULL and is `yes` in some spelling of upper and lower case letters,
and the test for a stopped thread holds if and only if it is not; the rules
for both threads warn only when the cell does not say `yes` and give the
all-clear only when it does.  `Yes`, `YES` and `yes` are running; NULL, `No`,
`Connecting`, `yes` followed by a space and the empty string are not. -/
theorem C26_yes_test (p : Option CStr) (hp : NoNulCell p) (db : mysql_database_t) :
    (is_yes p = true ↔ SaysYes p) ∧
    (not_yes p = true ↔ ¬ SaysYes p) ∧
    (SaysYes p → (slave_io_rule db p).events =
      if db.slave_io_running = true then []
      else [Event.notification Severity.NOTIF_OKAY msg_io_started]) ∧
    (¬ SaysYes p → (slave_io_rule db p).events =
      if db.slave_io_running = true
      then [Event.notification Severity.NOTIF_WARNING msg_io_stopped] else []) ∧
    (SaysYes p → (slave_sql_rule db p).events =
      if db.slave_sql_running = true then []
      else [Event.notification Severity.NOTIF_OKAY msg_sql_started]) ∧
    (¬ SaysYes p → (slave_sql_rule db p).events =
      if db.slave_sql_running = true
      then [Event.notification Severity.NOTIF_WARNING msg_sql_stopped] else []) ∧
    (is_yes (some "Yes") = true ∧ is_yes (some "YES") = true ∧ is_yes (some "yes") = true) ∧
    (not_yes none = true ∧ not_yes (some "No") = true ∧ not_yes (some "Connecting") = true ∧
      not_yes (some "yes ") = true ∧ not_yes (some "") = true) := by
  have hn := not_yes_iff p hp
  refine ⟨is_yes_iff p hp, hn, ?_, ?_, ?_, ?_, by decide, by decide⟩
  · intro h
    have : not_yes p = false := by
      cases hq : not_yes p
      · rfl
      · exact absurd h (hn.mp hq)
    rw [slave_io_rule_eq, this]
    cases db.slave_io_running <;> rfl
  · intro h
    rw [slave_io_rule_eq, hn.mpr h]
    cases db.slave_io_running <;> rfl
  · intro h
    have : not_yes p = false := by
      cases hq : not_yes p
      · rfl
      · exact absurd h (hn.mp hq)
    rw [slave_sql_rule_eq, this]
    cases db.slave_sql_running <;> rfl
  · intro h
    rw [slave_sql_rule_eq, hn.mpr h]
    cases db.slave_sql_running <;> rfl

theorem C26_yes_test_witness :
    (is_yes (some (lit "yEs")) = true ↔ SaysYes (some (lit "yEs"))) ∧
    SaysYes (some (lit "yEs")) :=
  ⟨(C26_yes_test (some (lit "yEs")) (fun s h => by cases h; decide)
      mysql_database_t.fresh).1,
   ⟨lit "yEs", rfl, by decide⟩⟩

/-! ## Further rows of a single-row report (C24) -/

/-- C24: for each of the three single-row reports, the run (the samples and
notifications, the return value and the database after it) is the same for
two results that have the same number of columns and the same first row,
whatever rows follow: further rows change neither the output nor the return
value. -/
theorem C24_first_row_only (drv1 drv2 : Driver) (db : mysql_database_t) (nf : Nat)
    (row : MYSQL_ROW) (rest1 rest2 : List MYSQL_ROW) :
    (exec_query drv1 "SHOW MASTER STATUS" = some ⟨nf, row :: rest1⟩ →
      exec_query drv2 "SHOW MASTER STATUS" = some ⟨nf, row :: rest2⟩ →
      mysql_read_master_stats drv1 = mysql_read_master_stats drv2) ∧
    (exec_query drv1 "SHOW SLAVE STATUS" = some ⟨nf, row :: rest1⟩ →
      exec_query drv2 "SHOW SLAVE STATUS" = some ⟨nf, row :: rest2⟩ →
      mysql_read_slave_stats db drv1 = mysql_read_slave_stats db drv2) ∧
    (exec_query drv1 "SHOW /*!50000 ENGINE*/ INNODB STATUS" = some ⟨nf, row :: rest1⟩ →
      exec_query drv2 "SHOW /*!50000 ENGINE*/ INNODB STATUS" = some ⟨nf, row :: rest2⟩ →
      mysql_innodb_engine_stats drv1 = mysql_innodb_engine_stats drv2) := by
  refine ⟨?_, ?_, ?_⟩
  · intro h1 h2
    unfold mysql_read_master_stats
    rw [h1, h2]
  · intro h1 h2
    unfold mysql_read_slave_stats
    rw [h1, h2]
  · intro h1 h2
    unfold mysql_innodb_engine_stats
    rw [h1, h2]

theorem C24_first_row_only_witness :
    mysql_read_master_stats (engineDriver "x") =
      mysql_read_master_stats
        { engineDriver "x" with
          store_result := fun _ =>
            some ⟨3, [[some (lit "InnoDB"), some (lit ""), some (lit "x")],
                      [some (lit "more"), some (lit "9"), none]]⟩ } ∧
    (mysql_read_master_stats (engineDriver "x")).events =
      [Event.values "mysql_log_position" (some "master-bin") [value_t.derive 0]] :=
  ⟨(C24_first_row_only (engineDriver "x")
      { engineDriver "x" with
        store_result := fun _ =>
          some ⟨3, [[some (lit "InnoDB"), some (lit ""), some (lit "x")],
                    [some (lit "more"), some (lit "9"), none]]⟩ }
      mysql_database_t.fresh 3 [some (lit "InnoDB"), some (lit ""), some (lit "x")] []
      [[some (lit "more"), some (lit "9"), none]]).1 rfl rfl,
   by decide⟩

/-! ## The order of the tests of the parser (C27, C28) -/

theorem strncmp_beyond {p : CStr} (hp : NoNul p) : ∀ (line : CStr) (n : Nat), NoNul line →
    p.length < n → strncmp p line n = 0 → line = p := by
  induction p with
  | nil =>
    intro line n hl hn h
    obtain ⟨m, rfl⟩ : ∃ m, n = m + 1 := ⟨n - 1, by simp at hn; omega⟩
    cases line with
    | nil => rfl
    | cons b l =>
      rw [strncmp] at h
      exact absurd (by omega) (hl b (List.mem_cons_self _ _))
  | cons a p ih =>
    intro line n hl hn h
    obtain ⟨m, rfl⟩ : ∃ m, n = m + 1 := ⟨n - 1, by simp at hn; omega⟩
    cases line with
    | nil =>
      rw [strncmp] at h
      exact absurd (by omega) (hp a (List.mem_cons_self _ _))
    | cons b l =>
      rw [strncmp] at h
      by_cases hab : a = b
      · rw [if_pos hab] at h
        rw [hab, ih (noNul_tail hp) l m (noNul_tail hl) (by simp at hn; omega) h]
      · rw [if_neg hab] at h
        exact absurd h (char_sub_ne_zero hab)

/-- The test of the branch for `RW-excl spins` compares 15 characters, more
than the literal has: it holds for the line `RW-excl spins` alone. -/
theorem rw_excl_test_iff (line : CStr) (h : NoNul line) :
    strncmp "RW-excl spins" line (strlen "RW-shared spins") = 0 ↔
      line = lit "RW-excl spins" := by
  constructor
  · intro h0
    exact strncmp_beyond (by decide) line _ h (by decide) h0
  · intro h0
    rw [h0]; decide

/-- A line that fails the first four tests of the cascade dispatches neither
of the two counters for the exclusive locks. -/
theorem innodb_line_no_rw_excl (line : CStr) (e : EngineLocals)
    (h1 : ¬ strncmp "Mutex spin waits" line (strlen "Mutex spin waits") = 0)
    (h2 : ¬ (strncmp "RW-shared spins" line (strlen "RW-shared spins") = 0
      ∧ strstr line ";" = true))
    (h3 : ¬ (strncmp "RW-shared spins" line (strlen "RW-shared spins") = 0
      ∧ ¬ (strstr line "RW-excl spins" = true)))
    (h4 : ¬ strncmp "RW-excl spins" line (strlen "RW-shared spins") = 0) :
    Run.All (Event.Other "mysql_semaphores" (some "rw_excl_spin_waits"))
      (innodb_line line e) ∧
    Run.All (Event.Other "mysql_semaphores" (some "rw_excl_os_waits"))
      (innodb_line line e) := by
  unfold innodb_line
  rw [if_neg h1, if_neg h2, if_neg h3, if_neg h4]
  constructor
  all_goals
    repeat' (apply ite_ind <;> intro _)
    all_goals
      repeat' first
        | exact Run.All_pure _ _
        | exact All_atof_field _ _ _
        | exact All_field _ _ _
        | exact All_counter_submit (other_values (by decide))
        | exact All_derive_submit (other_values (by decide))
        | exact All_gauge_submit (other_values (by decide))
        | (refine Run.All_bind ?_ (fun _ => ?_))

/-- A line that starts with `RW-excl spins` and a space dispatches neither
of the two counters for the exclusive locks. -/
theorem innodb_line_rw_excl (rest : CStr) (e : EngineLocals) :
    Run.All (Event.Other "mysql_semaphores" (some "rw_excl_spin_waits"))
      (innodb_line (lit "RW-excl spins " ++ rest) e) ∧
    Run.All (Event.Other "mysql_semaphores" (some "rw_excl_os_waits"))
      (innodb_line (lit "RW-excl spins " ++ rest) e) := by
  apply innodb_line_no_rw_excl
  · simp [lit, strncmp, strlen]
  · simp [lit, strncmp, strlen]
  · simp [lit, strncmp, strlen]
  · simp [lit, strncmp, strlen]

/-- C28: the line `RW-excl spins 5, rounds 6, OS waits 7` dispatches
nothing; after the line for the shared locks of the same dialect the report
has the two counters of the shared locks only; no line that starts with
`RW-excl spins` and a space dispatches `rw_excl_spin_waits` or
`rw_excl_os_waits`; and the bare line `RW-excl spins`, the only one that
passes the test of the branch, dispatches the fields 2 and 7 of the line
before it. -/
theorem C28_rw_excl_line_is_skipped :
    (mysql_innodb_engine_stats
      (engineDriver "RW-excl spins 5, rounds 6, OS waits 7")).events = [] ∧
    (mysql_innodb_engine_stats (engineDriver
      "RW-shared spins 1, rounds 2, OS waits 3\nRW-excl spins 5, rounds 6, OS waits 7")).events =
      [Event.values "mysql_semaphores" (some "rw_shared_spin_waits")
         [value_t.derive_of_double (Double.atof "1")],
       Event.values "mysql_semaphores" (some "rw_shared_os_waits")
         [value_t.derive_of_double (Double.atof "3")]] ∧
    (∀ (rest : CStr) (e : EngineLocals),
      Run.All (Event.Other "mysql_semaphores" (some "rw_excl_spin_waits"))
        (innodb_line (lit "RW-excl spins " ++ rest) e) ∧
      Run.All (Event.Other "mysql_semaphores" (some "rw_excl_os_waits"))
        (innodb_line (lit "RW-excl spins " ++ rest) e)) ∧
    (mysql_innodb_engine_stats (engineDriver
      "RW-shared spins 1, rounds 2, OS waits 3\nRW-excl spins")).events =
      [Event.values "mysql_semaphores" (some "rw_shared_spin_waits")
         [value_t.derive_of_double (Double.atof "1")],
       Event.values "mysql_semaphores" (some "rw_shared_os_waits")
         [value_t.derive_of_double (Double.atof "3")],
       Event.values "mysql_semaphores" (some "rw_excl_spin_waits")
         [value_t.derive_of_double (Double.atof "1")],
       Event.values "mysql_semaphores" (some "rw_excl_os_waits")
         [value_t.derive_of_double (Double.atof "3")]] :=
  ⟨by decide, by decide, innodb_line_rw_excl, by decide⟩


/-- A line that starts with `Pages read ahead` dispatches nothing and leaves
the locals as they are. -/
theorem innodb_line_pages_read_ahead (rest : CStr) (e : EngineLocals) :
    innodb_line (lit "Pages read ahead" ++ rest) e = pure e := by
  have h1 : ¬ strncmp "Mutex spin waits" (lit "Pages read ahead" ++ rest)
      (strlen "Mutex spin waits") = 0 := by simp [lit, strncmp, strlen]
  have h2 : ¬ (strncmp "RW-shared spins" (lit "Pages read ahead" ++ rest)
      (strlen "RW-shared spins") = 0 ∧ strstr (lit "Pages read ahead" ++ rest) ";" = true) := by
    simp [lit, strncmp, strlen]
  have h3 : ¬ (strncmp "RW-shared spins" (lit "Pages read ahead" ++ rest)
      (strlen "RW-shared spins") = 0
        ∧ ¬ (strstr (lit "Pages read ahead" ++ rest) "RW-excl spins" = true)) := by
    simp [lit, strncmp, strlen]
  have h4 : ¬ strncmp "RW-excl spins" (lit "Pages read ahead" ++ rest)
      (strlen "RW-shared spins") = 0 := by simp [lit, strncmp, strlen]
  have h5 : ¬ strncmp "Trx id counter" (lit "Pages read ahead" ++ rest)
      (strlen "Trx id counter") = 0 := by simp [lit, strncmp, strlen]
  have h6 : ¬ strncmp "Purge done for trx" (lit "Pages read ahead" ++ rest)
      (strlen "Trx id counter") = 0 := by simp [lit, strncmp, strlen]
  have h7 : ¬ strncmp "History list length" (lit "Pages read ahead" ++ rest)
      (strlen "History list length") = 0 := by simp [lit, strncmp, strlen]
  have h8 : ¬ strncmp "Buffer pool size " (lit "Pages read ahead" ++ rest)
      (strlen "Buffer pool size ") = 0 := by simp [lit, strncmp, strlen]
  have h9 : ¬ strncmp "Free buffers" (lit "Pages read ahead" ++ rest)
      (strlen "Free buffers") = 0 := by simp [lit, strncmp, strlen]
  have h10 : ¬ strncmp "Database pages" (lit "Pages read ahead" ++ rest)
      (strlen "Database pages") = 0 := by simp [lit, strncmp, strlen]
  have h11 : ¬ strncmp "Modified db pages" (lit "Pages read ahead" ++ rest)
      (strlen "Modified db pages") = 0 := by simp [lit, strncmp, strlen]
  have h12 : strncmp "Pages read ahead" (lit "Pages read ahead" ++ rest)
      (strlen "Pages read ahead") = 0 := strncmp_lit_append _ _
  unfold innodb_line
  rw [if_neg h1, if_neg h2, if_neg h3, if_neg h4, if_neg h5, if_neg h6, if_neg h7, if_neg h8,
    if_neg h9, if_neg h10, if_neg h11, if_pos h12]

/-- A line that starts with `Pages read`, not with `Pages read ahead`, and
has more than 6 fields dispatches the three samples of the buffer pool
activity from its fields 2, 4 and 6. -/
theorem innodb_line_pages_read (rest : CStr) (e : EngineLocals) (he : TwelveSlots e)
    (h12 : ¬ strncmp "Pages read ahead" (lit "Pages read" ++ rest)
      (strlen "Pages read ahead") = 0)
    (hn : 6 < (fieldsOf (lit "Pages read" ++ rest)).length) :
    (innodb_line (lit "Pages read" ++ rest) e).events =
      [Event.values "innodb_buffer_pool_activity" (some "pages_read")
         [value_t.derive_of_double
           (Double.atof ((fieldsOf (lit "Pages read" ++ rest)).getD 2 []))],
       Event.values "innodb_buffer_pool_activity" (some "pages_created")
         [value_t.derive_of_double
           (Double.atof ((fieldsOf (lit "Pages read" ++ rest)).getD 4 []))],
       Event.values "innodb_buffer_pool_activity" (some "pages_written")
         [value_t.derive_of_double
           (Double.atof ((fieldsOf (lit "Pages read" ++ rest)).getD 6 []))]] ∧
    (innodb_line (lit "Pages read" ++ rest) e).result ≠ none := by
  have h1 : ¬ strncmp "Mutex spin waits" (lit "Pages read" ++ rest)
      (strlen "Mutex spin waits") = 0 := by simp [lit, strncmp, strlen]
  have h2 : ¬ (strncmp "RW-shared spins" (lit "Pages read" ++ rest)
      (strlen "RW-shared spins") = 0 ∧ strstr (lit "Pages read" ++ rest) ";" = true) := by
    simp [lit, strncmp, strlen]
  have h3 : ¬ (strncmp "RW-shared spins" (lit "Pages read" ++ rest)
      (strlen "RW-shared spins") = 0
        ∧ ¬ (strstr (lit "Pages read" ++ rest) "RW-excl spins" = true)) := by
    simp [lit, strncmp, strlen]
  have h4 : ¬ strncmp "RW-excl spins" (lit "Pages read" ++ rest)
      (strlen "RW-shared spins") = 0 := by simp [lit, strncmp, strlen]
  have h5 : ¬ strncmp "Trx id counter" (lit "Pages read" ++ rest)
      (strlen "Trx id counter") = 0 := by simp [lit, strncmp, strlen]
  have h6 : ¬ strncmp "Purge done for trx" (lit "Pages read" ++ rest)
      (strlen "Trx id counter") = 0 := by simp [lit, strncmp, strlen]
  have h7 : ¬ strncmp "History list length" (lit "Pages read" ++ rest)
      (strlen "History list length") = 0 := by simp [lit, strncmp, strlen]
  have h8 : ¬ strncmp "Buffer pool size " (lit "Pages read" ++ rest)
      (strlen "Buffer pool size ") = 0 := by simp [lit, strncmp, strlen]
  have h9 : ¬ strncmp "Free buffers" (lit "Pages read" ++ rest)
      (strlen "Free buffers") = 0 := by simp [lit, strncmp, strlen]
  have h10 : ¬ strncmp "Database pages" (lit "Pages read" ++ rest)
      (strlen "Database pages") = 0 := by simp [lit, strncmp, strlen]
  have h11 : ¬ strncmp "Modified db pages" (lit "Pages read" ++ rest)
      (strlen "Modified db pages") = 0 := by simp [lit, strncmp, strlen]
  have h13 : strncmp "Pages read" (lit "Pages read" ++ rest)
      (strlen "Pages read") = 0 := strncmp_lit_append _ _
  unfold innodb_line
  rw [if_neg h1, if_neg h2, if_neg h3, if_neg h4, if_neg h5, if_neg h6, if_neg h7, if_neg h8,
    if_neg h9, if_neg h10, if_neg h11, if_neg h12, if_pos h13]
  dsimp only
  rw [atof_field_split_line (lit "Pages read" ++ rest) e.fields 2 he (by omega) (by omega),
    atof_field_split_line (lit "Pages read" ++ rest) e.fields 4 he (by omega) (by omega),
    atof_field_split_line (lit "Pages read" ++ rest) e.fields 6 he (by omega) (by omega)]
  exact ⟨rfl, by intro h; cases h⟩

/-- C27: the line `Pages read ahead 0.00/s, evicted without access 0.00/s`
dispatches nothing, and `Pages read 1, created 2, written 3` dispatches the
three samples from its fields 2, 4 and 6; the line `Pages read 9`, which
starts with `Pages read` and not with `Pages read ahead`, tokenizes to three
fields, so that one sample is dispatched and the parse then faults on the
offset 4, a slot that no line has filled. -/
theorem C27_pages_read_short_line :
    (mysql_innodb_engine_stats (engineDriver
      "Pages read ahead 0.00/s, evicted without access 0.00/s")).events = [] ∧
    (mysql_innodb_engine_stats (engineDriver "Pages read 1, created 2, written 3")).events =
      [Event.values "innodb_buffer_pool_activity" (some "pages_read")
         [value_t.derive_of_double (Double.atof "1")],
       Event.values "innodb_buffer_pool_activity" (some "pages_created")
         [value_t.derive_of_double (Double.atof "2")],
       Event.values "innodb_buffer_pool_activity" (some "pages_written")
         [value_t.derive_of_double (Double.atof "3")]] ∧
    (split_line "Pages read 9" (List.replicate 12 FieldSlot.uninit) 12).2 = 3 ∧
    (mysql_innodb_engine_stats (engineDriver "Pages read 9")).events =
      [Event.values "innodb_buffer_pool_activity" (some "pages_read")
         [value_t.derive_of_double (Double.atof "9")]] ∧
    (mysql_innodb_engine_stats (engineDriver "Pages read 9")).result = none := by
  decide

/-! ## The connection (C23) -/

theorem getconnection_connect_ok (drv : Driver) (db : mysql_database_t)
    (hi : drv.init db.con ≠ none) (hc : drv.real_connect = true) :
    getconnection_connect drv db =
      ({ db with con := drv.init db.con, state := 1 }, drv.init db.con) := by
  unfold getconnection_connect
  simp only [if_neg hi, hc, Bool.true_eq_false, if_false]

theorem getconnection_connect_fails (drv : Driver) (db : mysql_database_t)
    (h : drv.init db.con = none ∨ drv.real_connect = false) :
    getconnection_connect drv db = ({ db with con := drv.init db.con, state := 0 }, none) := by
  unfold getconnection_connect
  by_cases hi : drv.init db.con = none
  · simp only [if_pos hi]
  · rcases h with h | h
    · exact absurd h hi
    · simp only [if_neg hi, h, if_true]

/-- The function `mysql_read` after `getconnection` has returned a handle. -/
theorem mysql_read_connected (drv : Driver) (db db1 : mysql_database_t) (c : Nat)
    (hg : getconnection drv db = (db1, some c)) :
    mysql_read drv (some db) =
      (match exec_query drv (status_query drv) with
       | none => pure (-1, some db1)
       | some res => do
         let l ← mysql_read_loop db1 res.rows Locals.init
         mysql_read_totals l
         mysql_read_reports drv db1) := by
  unfold mysql_read
  simp only [hg]
  rfl

/-- The function `mysql_read` after `getconnection` has returned NULL. -/
theorem mysql_read_unconnected (drv : Driver) (db db1 : mysql_database_t)
    (hg : getconnection drv db = (db1, none)) :
    mysql_read drv (some db) = pure (-1, some db1) := by
  unfold mysql_read
  simp only [hg]


theorem getconnection_reconnect (drv : Driver) (db : mysql_database_t)
    (h : db.state = 0 ∨ drv.ping ≠ 0) :
    getconnection drv db = getconnection_connect drv { db with state := 0 } := by
  unfold getconnection
  by_cases hs : db.state ≠ 0
  · rcases h with h | h
    · exact absurd h hs
    · rw [if_pos hs, if_pos h]
  · rw [if_neg hs]
    have : db.state = 0 := by
      by_cases h0 : db.state = 0
      · exact h0
      · exact absurd h0 hs
    congr 1
    rw [← this]

/-- C23: with the outcomes of `mysql_ping`, `mysql_init` and
`mysql_real_connect` as inputs, for every database: (1) when the probe fails
(or the session was not connected) and the reconnect succeeds,
`getconnection` returns the handle, leaves the state connected, and
`mysql_read` goes on to the status query; (2) when the probe fails (or the
session was not connected) and the reconnect fails, `getconnection` returns
NULL and leaves the state not connected, and `mysql_read` returns -1 without
an event and with the recorded thread states as they were; (3) from a
consistent session state, the state after the call is connected if and only
if a handle was returned, and it is consistent again; (4) the database of
`mysql_config_database` starts in a consistent state. -/
theorem C23_connection (drv : Driver) (db : mysql_database_t) :
    ((db.state = 0 ∨ drv.ping ≠ 0) → drv.init db.con ≠ none → drv.real_connect = true →
      (getconnection drv db).2 = drv.init db.con ∧
      (getconnection drv db).2 ≠ none ∧
      (getconnection drv db).1.state = 1 ∧
      mysql_read drv (some db) =
        (match exec_query drv (status_query drv) with
         | none => pure (-1, some (getconnection drv db).1)
         | some res => do
           let l ← mysql_read_loop (getconnection drv db).1 res.rows Locals.init
           mysql_read_totals l
           mysql_read_reports drv (getconnection drv db).1)) ∧
    ((db.state = 0 ∨ drv.ping ≠ 0) → (drv.init db.con = none ∨ drv.real_connect = false) →
      (getconnection drv db).2 = none ∧
      (getconnection drv db).1.state = 0 ∧
      (mysql_read drv (some db)).events = [] ∧
      (mysql_read drv (some db)).result = some (-1, some (getconnection drv db).1) ∧
      (getconnection drv db).1.slave_io_running = db.slave_io_running ∧
      (getconnection drv db).1.slave_sql_running = db.slave_sql_running) ∧
    (SessionOk db →
      ((getconnection drv db).1.state ≠ 0 ↔ (getconnection drv db).2 ≠ none) ∧
      SessionOk (getconnection drv db).1) ∧
    SessionOk mysql_database_t.fresh := by
  refine ⟨?_, ?_, ?_, ?_⟩
  · intro h hi hc
    have hg := getconnection_reconnect drv db h
    rw [getconnection_connect_ok drv { db with state := 0 } hi hc] at hg
    obtain ⟨c, hcv⟩ : ∃ c, drv.init db.con = some c := by
      cases hv : drv.init db.con with
      | none => exact absurd hv hi
      | some c => exact ⟨c, rfl⟩
    have hg2 : getconnection drv db = ((getconnection drv db).1, some c) := by
      rw [hg]; simp only; rw [hcv]
    refine ⟨by rw [hg], by rw [hg]; exact hi, by rw [hg], ?_⟩
    exact mysql_read_connected drv db _ c hg2
  · intro h hf
    have hg := getconnection_reconnect drv db h
    rw [getconnection_connect_fails drv { db with state := 0 } hf] at hg
    have hg2 : getconnection drv db = ((getconnection drv db).1, none) := by
      rw [hg]
    have hr := mysql_read_unconnected drv db _ hg2
    refine ⟨by rw [hg], by rw [hg], by rw [hr]; rfl, by rw [hr]; rfl, by rw [hg], by rw [hg]⟩
  · intro hok
    by_cases h : db.state = 0 ∨ drv.ping ≠ 0
    · have hg := getconnection_reconnect drv db h
      by_cases hf : drv.init db.con = none ∨ drv.real_connect = false
      · rw [getconnection_connect_fails drv { db with state := 0 } hf] at hg
        rw [hg]
        exact ⟨⟨fun h1 => absurd rfl h1, fun h1 => absurd rfl h1⟩, fun h1 => absurd rfl h1⟩
      · have hi : drv.init db.con ≠ none := fun hh => hf (Or.inl hh)
        have hc : drv.real_connect = true := by
          cases hv : drv.real_connect with
          | false => exact absurd (Or.inr hv) hf
          | true => rfl
        rw [getconnection_connect_ok drv { db with state := 0 } hi hc] at hg
        rw [hg]
        exact ⟨⟨fun _ => hi, fun _ => (show (1 : Int) ≠ 0 by decide)⟩, fun _ => hi⟩
    · have hs : db.state ≠ 0 := fun hh => h (Or.inl hh)
      have hp : ¬ drv.ping ≠ 0 := fun hh => h (Or.inr hh)
      have hg : getconnection drv db = ({ db with state := 1 }, db.con) := by
        unfold getconnection
        rw [if_pos hs, if_neg hp]
      rw [hg]
      exact ⟨⟨fun _ => hok hs, fun _ => (show (1 : Int) ≠ 0 by decide)⟩, fun _ => hok hs⟩
  · intro h
    exact absurd rfl h

theorem C23_connection_witness :
    (getconnection { engineDriver "x" with ping := 1 }
        { mysql_database_t.fresh with state := 1, con := some 7 }).2 = some 1 ∧
    (getconnection { engineDriver "x" with ping := 1 }
        { mysql_database_t.fresh with state := 1, con := some 7 }).1.state = 1 ∧
    (getconnection { engineDriver "x" with ping := 1, real_connect := false }
        { mysql_database_t.fresh with state := 1, con := some 7 }).2 = none ∧
    (mysql_read { engineDriver "x" with ping := 1, real_connect := false }
        (some { mysql_database_t.fresh with state := 1, con := some 7 })).events = [] :=
  ⟨((C23_connection { engineDriver "x" with ping := 1 }
        { mysql_database_t.fresh with state := 1, con := some 7 }).1
      (Or.inr (by decide)) (by decide) rfl).1,
   ((C23_connection { engineDriver "x" with ping := 1 }
        { mysql_database_t.fresh with state := 1, con := some 7 }).1
      (Or.inr (by decide)) (by decide) rfl).2.2.1,
   ((C23_connection { engineDriver "x" with ping := 1, real_connect := false }
        { mysql_database_t.fresh with state := 1, con := some 7 }).2.1
      (Or.inr (by decide)) (Or.inr rfl)).1,
   ((C23_connection { engineDriver "x" with ping := 1, real_connect := false }
        { mysql_database_t.fresh with state := 1, con := some 7 }).2.1
      (Or.inr (by decide)) (Or.inr rfl)).2.2.1⟩

/-! ## Failures of the reports (C21, C22) -/

/-- The end of `mysql_read` is its three statements in order. -/
theorem mysql_read_reports_eq (drv : Driver) (db : mysql_database_t) :
    mysql_read_reports drv db =
      (do let _ ← master_report drv db
          let db2 ← slave_report drv db
          let _ ← engine_report drv db2
          pure (0, some db2)) := rfl

theorem master_stats_fails (drv : Driver) (h : QueryFails drv "SHOW MASTER STATUS" 2) :
    mysql_read_master_stats drv = pure (-1) := by
  unfold QueryFails at h
  unfold mysql_read_master_stats
  cases hq : exec_query drv (lit "SHOW MASTER STATUS") with
  | none => rfl
  | some res =>
    rw [hq] at h
    obtain ⟨nf, rows⟩ := res
    cases rows with
    | nil => rfl
    | cons row rest =>
      rcases h with h | h
      · cases h
      · show (if nf < 2 then _ else _) = _
        rw [if_pos h]

theorem slave_stats_fails (drv : Driver) (db : mysql_database_t)
    (h : QueryFails drv "SHOW SLAVE STATUS" 33) :
    mysql_read_slave_stats db drv = pure (-1, db) := by
  unfold QueryFails at h
  unfold mysql_read_slave_stats
  cases hq : exec_query drv (lit "SHOW SLAVE STATUS") with
  | none => rfl
  | some res =>
    rw [hq] at h
    obtain ⟨nf, rows⟩ := res
    cases rows with
    | nil => rfl
    | cons row rest =>
      rcases h with h | h
      · cases h
      · show (if nf < 33 then _ else _) = _
        rw [if_pos h]

theorem engine_stats_fails (drv : Driver)
    (h : QueryFails drv "SHOW /*!50000 ENGINE*/ INNODB STATUS" 3) :
    mysql_innodb_engine_stats drv = pure (-1) := by
  unfold QueryFails at h
  unfold mysql_innodb_engine_stats
  cases hq : exec_query drv (lit "SHOW /*!50000 ENGINE*/ INNODB STATUS") with
  | none => rfl
  | some res =>
    rw [hq] at h
    obtain ⟨nf, rows⟩ := res
    cases rows with
    | nil => rfl
    | cons row rest =>
      rcases h with h | h
      · cases h
      · show (if nf < 3 then _ else _) = _
        rw [if_pos h]

theorem master_report_fails (drv : Driver) (db : mysql_database_t)
    (h : QueryFails drv "SHOW MASTER STATUS" 2) : ∃ x, master_report drv db = pure x := by
  unfold master_report
  by_cases hf : db.master_stats = true
  · rw [if_pos hf, master_stats_fails drv h]; exact ⟨_, rfl⟩
  · rw [if_neg hf]; exact ⟨_, rfl⟩

theorem slave_report_fails (drv : Driver) (db : mysql_database_t)
    (h : QueryFails drv "SHOW SLAVE STATUS" 33) : slave_report drv db = pure db := by
  unfold slave_report
  by_cases hf : db.slave_stats = true ∨ db.slave_notif = true
  · rw [if_pos hf, slave_stats_fails drv db h]; rfl
  · rw [if_neg hf]

theorem engine_report_fails (drv : Driver) (db : mysql_database_t)
    (h : QueryFails drv "SHOW /*!50000 ENGINE*/ INNODB STATUS" 3) :
    ∃ x, engine_report drv db = pure x := by
  unfold engine_report
  by_cases hf : db.innodb_engine_stats = true
  · rw [if_pos hf, engine_stats_fails drv h]; exact ⟨_, rfl⟩
  · rw [if_neg hf]; exact ⟨_, rfl⟩

theorem reports_without_master (drv : Driver) (db : mysql_database_t)
    (h : QueryFails drv "SHOW MASTER STATUS" 2) :
    mysql_read_reports drv db =
      (do let db2 ← slave_report drv db
          let _ ← engine_report drv db2
          pure (0, some db2)) := by
  obtain ⟨x, hx⟩ := master_report_fails drv db h
  rw [mysql_read_reports_eq, hx, Run.pure_bind]

theorem reports_without_slave (drv : Driver) (db : mysql_database_t)
    (h : QueryFails drv "SHOW SLAVE STATUS" 33) :
    mysql_read_reports drv db =
      (do let _ ← master_report drv db
          let _ ← engine_report drv db
          pure (0, some db)) := by
  rw [mysql_read_reports_eq, slave_report_fails drv db h]
  rfl

theorem reports_without_engine (drv : Driver) (db : mysql_database_t)
    (h : QueryFails drv "SHOW /*!50000 ENGINE*/ INNODB STATUS" 3) :
    mysql_read_reports drv db =
      (do let _ ← master_report drv db
          let db2 ← slave_report drv db
          pure (0, some db2)) := by
  rw [mysql_read_reports_eq]
  congr 1
  funext _
  congr 1
  funext db2
  obtain ⟨x, hx⟩ := engine_report_fails drv db2 h
  rw [hx, Run.pure_bind]


/-- C22: for every slave status result with fewer than 33 columns,
`mysql_read_slave_stats` returns -1 without an event and leaves the
database, with its recorded thread states, as it was; a cycle with a
connection and a status result is then the status loop, the groups after
it, the master report and the engine report, each as enabled, and it
returns 0 with the database unchanged (when none of these parts faults). -/
theorem C22_slave_shape_error (drv : Driver) (db : mysql_database_t) (res : MYSQL_RES)
    (hq : exec_query drv "SHOW SLAVE STATUS" = some res) (hn : res.num_fields < 33) :
    (mysql_read_slave_stats db drv).events = [] ∧
    (mysql_read_slave_stats db drv).result = some (-1, db) ∧
    (∀ (db0 db1 : mysql_database_t) (c : Nat) (sres : MYSQL_RES),
      getconnection drv db0 = (db1, some c) →
      exec_query drv (status_query drv) = some sres →
      mysql_read drv (some db0) =
        (do let l ← mysql_read_loop db1 sres.rows Locals.init
            mysql_read_totals l
            let _ ← master_report drv db1
            let _ ← engine_report drv db1
            pure (0, some db1)) ∧
      ((mysql_read_loop db1 sres.rows Locals.init).result ≠ none →
        (master_report drv db1).result ≠ none →
        (engine_report drv db1).result ≠ none →
        (mysql_read drv (some db0)).result = some (0, some db1))) := by
  have hf : QueryFails drv "SHOW SLAVE STATUS" 33 := by
    unfold QueryFails
    rw [hq]
    exact Or.inr hn
  refine ⟨by rw [slave_stats_fails drv db hf]; rfl, by rw [slave_stats_fails drv db hf]; rfl, ?_⟩
  intro db0 db1 c sres hg hs
  have e : mysql_read drv (some db0) =
      (do let l ← mysql_read_loop db1 sres.rows Locals.init
          mysql_read_totals l
          let _ ← master_report drv db1
          let _ ← engine_report drv db1
          pure (0, some db1)) := by
    rw [mysql_read_connected drv db0 db1 c hg, hs]
    simp only
    rw [reports_without_slave drv db1 hf]
  refine ⟨e, ?_⟩
  intro hl hm he
  rw [e]
  obtain ⟨l, hl2⟩ := Option.ne_none_iff_exists'.mp hl
  obtain ⟨m, hm2⟩ := Option.ne_none_iff_exists'.mp hm
  obtain ⟨x, hx2⟩ := Option.ne_none_iff_exists'.mp he
  rw [Run.result_bind_some _ _ l hl2, Run.result_bind_some _ _ () (mysql_read_totals_gives l),
    Run.result_bind_some _ _ m hm2, Run.result_bind_some _ _ x hx2]
  rfl


theorem C22_slave_shape_error_witness :
    ((mysql_read_slave_stats
        { mysql_database_t.fresh with slave_stats := true, slave_notif := true,
                                      innodb_engine_stats := true }
        (engineDriver "Free buffers 10")).events = [] ∧
     (mysql_read_slave_stats
        { mysql_database_t.fresh with slave_stats := true, slave_notif := true,
                                      innodb_engine_stats := true }
        (engineDriver "Free buffers 10")).result =
       some (-1, { mysql_database_t.fresh with slave_stats := true, slave_notif := true,
                                               innodb_engine_stats := true })) ∧
    (mysql_read (engineDriver "Free buffers 10")
      (some { mysql_database_t.fresh with slave_stats := true, slave_notif := true,
                                          innodb_engine_stats := true })).events =
      [Event.values "mysql_octets" none [value_t.derive 0, value_t.derive 0],
       Event.values "innodb_buffer_pool" (some "free_pages")
         [value_t.gauge (Double.atof "10")]] ∧
    ((mysql_read (engineDriver "Free buffers 10")
      (some { mysql_database_t.fresh with slave_stats := true, slave_notif := true,
                                          innodb_engine_stats := true })).result.map
        (fun r => r.1)) = some 0 :=
  ⟨⟨(C22_slave_shape_error (engineDriver "Free buffers 10")
        { mysql_database_t.fresh with slave_stats := true, slave_notif := true,
                                      innodb_engine_stats := true }
        ⟨3, [[some (lit "InnoDB"), some (lit ""), some (lit "Free buffers 10")]]⟩
        rfl (by decide)).1,
    (C22_slave_shape_error (engineDriver "Free buffers 10")
        { mysql_database_t.fresh with slave_stats := true, slave_notif := true,
                                      innodb_engine_stats := true }
        ⟨3, [[some (lit "InnoDB"), some (lit ""), some (lit "Free buffers 10")]]⟩
        rfl (by decide)).2.1⟩,
   by decide, by decide⟩

/-- C21, counterexample: with a live connection and the master and engine
reports enabled, a failure of the global status query ends the cycle with -1
and without an event, although the queries of both reports succeed and each
report, run on its own, dispatches its sample. -/
theorem C21_counterexample :
    (getconnection statusFailDriver exampleReportsDb).2 = some 1 ∧
    exec_query statusFailDriver (status_query statusFailDriver) = none ∧
    (mysql_read statusFailDriver (some exampleReportsDb)).events = [] ∧
    ((mysql_read statusFailDriver (some exampleReportsDb)).result.map (fun r => r.1)) =
      some (-1) ∧
    (mysql_read_master_stats statusFailDriver).events =
      [Event.values "mysql_log_position" (some "master-bin") [value_t.derive 7]] ∧
    (mysql_innodb_engine_stats statusFailDriver).events =
      [Event.values "innodb_buffer_pool" (some "free_pages")
         [value_t.gauge (Double.atof "10")]] := by
  decide

/-- C21 (amended): for every cycle, a failure of the query or of the shape
check of the master report, of the slave report or of the engine report
ends that report only: the end of `mysql_read` is then the other two
statements, each run as enabled, and returns 0; a cycle with a connection
and a status result is the status loop, the groups after it and these
reports.  A failure of the global status query, with a live connection,
ends the cycle with -1 before any report runs. -/
theorem C21_report_failures_are_local (drv : Driver) (db : mysql_database_t) :
    (QueryFails drv "SHOW MASTER STATUS" 2 →
      mysql_read_reports drv db =
        (do let db2 ← slave_report drv db
            let _ ← engine_report drv db2
            pure (0, some db2))) ∧
    (QueryFails drv "SHOW SLAVE STATUS" 33 →
      mysql_read_reports drv db =
        (do let _ ← master_report drv db
            let _ ← engine_report drv db
            pure (0, some db))) ∧
    (QueryFails drv "SHOW /*!50000 ENGINE*/ INNODB STATUS" 3 →
      mysql_read_reports drv db =
        (do let _ ← master_report drv db
            let db2 ← slave_report drv db
            pure (0, some db2))) ∧
    (∀ (db1 : mysql_database_t) (c : Nat) (sres : MYSQL_RES),
      getconnection drv db = (db1, some c) →
      exec_query drv (status_query drv) = some sres →
      mysql_read drv (some db) =
        (do let l ← mysql_read_loop db1 sres.rows Locals.init
            mysql_read_totals l
            mysql_read_reports drv db1)) ∧
    (∀ (db1 : mysql_database_t) (c : Nat),
      getconnection drv db = (db1, some c) →
      exec_query drv (status_query drv) = none →
      (mysql_read drv (some db)).events = [] ∧
      (mysql_read drv (some db)).result = some (-1, some db1)) := by
  refine ⟨reports_without_master drv db, reports_without_slave drv db,
    reports_without_engine drv db, ?_, ?_⟩
  · intro db1 c sres hg hs
    rw [mysql_read_connected drv db db1 c hg, hs]
  · intro db1 c hg hs
    rw [mysql_read_connected drv db db1 c hg, hs]
    exact ⟨rfl, rfl⟩

theorem C21_report_failures_are_local_witness :
    mysql_read_reports (engineDriver "Free buffers 10")
        { mysql_database_t.fresh with slave_stats := true, innodb_engine_stats := true } =
      (do let _ ← master_report (engineDriver "Free buffers 10")
            { mysql_database_t.fresh with slave_stats := true, innodb_engine_stats := true }
          let _ ← engine_report (engineDriver "Free buffers 10")
            { mysql_database_t.fresh with slave_stats := true, innodb_engine_stats := true }
          pure (0, some { mysql_database_t.fresh with slave_stats := true,
                                                      innodb_engine_stats := true })) ∧
    (mysql_read_reports (engineDriver "Free buffers 10")
        { mysql_database_t.fresh with slave_stats := true,
                                      innodb_engine_stats := true }).events =
      [Event.values "innodb_buffer_pool" (some "free_pages")
         [value_t.gauge (Double.atof "10")]] :=
  ⟨(C21_report_failures_are_local (engineDriver "Free buffers 10")
      { mysql_database_t.fresh with slave_stats := true, innodb_engine_stats := true }).2.1
      (Or.inr (by decide)),
   by decide⟩

/-! ## The flags of the optional reports (C25) -/

theorem allowed_of_flag {db : mysql_database_t} {t : CStr} {ti : Option CStr}
    {vs : List value_t} {f : Bool} (hn : (!t.isEmpty) = true)
    (e : Event.report_flag db (Event.values t ti vs) = f) (hf : f = true) :
    Event.Allowed db (Event.values t ti vs) := ⟨hn, by rw [e]; exact hf⟩

theorem allowed_notification {db : mysql_database_t} {s : Severity} {m : CStr}
    (h : db.slave_notif = true) : Event.Allowed db (Event.notification s m) := ⟨rfl, h⟩

theorem Run.All_mono {α : Type} {P Q : Event → Prop} {r : Run α} (h : ∀ e, P e → Q e)
    (hr : Run.All P r) : Run.All Q r := fun e he => h e (hr e he)

/-- Every value list of the cascade of the status loop is allowed. -/
theorem classify_allowed (db0 db : mysql_database_t) (key : CStr) (val : Nat) (l : Locals) :
    Run.All (Event.Allowed db0) (classify db key val l) := by
  unfold classify
  repeat' (apply ite_ind <;> intro _)
  all_goals first
    | exact Run.All_pure _ _
    | exact Run.All_bind (All_counter_submit (allowed_of_flag (by decide) rfl rfl))
        (fun _ => Run.All_pure _ _)

theorem mysql_read_loop_allowed (db0 db : mysql_database_t) (rows : List MYSQL_ROW) :
    ∀ l : Locals, Run.All (Event.Allowed db0) (mysql_read_loop db rows l) := by
  induction rows with
  | nil => intro l; exact Run.All_pure _ _
  | cons row rows ih =>
    intro l
    refine Run.All_bind ?_ (fun l => ih l)
    refine Run.All_bind (Run.All_deref _ _) (fun value => ?_)
    refine Run.All_bind (Run.All_deref _ _) (fun key => ?_)
    exact classify_allowed db0 db key _ l

theorem mysql_read_totals_allowed (db0 : mysql_database_t) (l : Locals) :
    Run.All (Event.Allowed db0) (mysql_read_totals l) := by
  unfold mysql_read_totals traffic_submit
  refine Run.All_bind ?_ (fun _ => Run.All_bind ?_ (fun _ => ?_))
  · apply ite_ind <;> intro _
    · repeat' first
        | exact All_derive_submit (allowed_of_flag (by decide) rfl rfl)
        | (refine Run.All_bind ?_ (fun _ => ?_))
    · exact Run.All_pure _ _
  · apply ite_ind <;> intro _
    · repeat' first
        | exact All_derive_submit (allowed_of_flag (by decide) rfl rfl)
        | (refine Run.All_bind ?_ (fun _ => ?_))
    · exact Run.All_pure _ _
  · exact Run.All_emit (allowed_of_flag (by decide) rfl rfl)


theorem master_report_allowed (drv : Driver) (db : mysql_database_t) :
    Run.All (Event.Allowed db) (master_report drv db) := by
  unfold master_report
  apply ite_ind <;> intro hm
  · unfold mysql_read_master_stats
    cases exec_query drv (lit "SHOW MASTER STATUS") with
    | none => exact Run.All_pure _ _
    | some res =>
      obtain ⟨nf, rows⟩ := res
      cases rows with
      | nil => exact Run.All_pure _ _
      | cons row _ =>
        show Run.All _ (if nf < _ then _ else _)
        apply ite_ind <;> intro _
        · exact Run.All_pure _ _
        · refine Run.All_bind (Run.All_deref _ _) (fun _ => ?_)
          exact Run.All_bind (All_counter_submit (allowed_of_flag (by decide) rfl hm))
            (fun _ => Run.All_pure _ _)
  · exact Run.All_pure _ _

theorem slave_stats_block_allowed (db : mysql_database_t) (row : MYSQL_ROW)
    (hs : db.slave_stats = true) : Run.All (Event.Allowed db) (slave_stats_block row) := by
  unfold slave_stats_block
  refine Run.All_bind (Run.All_deref _ _) (fun _ => ?_)
  refine Run.All_bind (All_counter_submit (allowed_of_flag (by decide) rfl hs)) (fun _ => ?_)
  refine Run.All_bind (Run.All_deref _ _) (fun _ => ?_)
  refine Run.All_bind (All_counter_submit (allowed_of_flag (by decide) rfl hs)) (fun _ => ?_)
  cases cell row 32 with
  | none => exact Run.All_pure _ _
  | some s => exact All_gauge_submit (allowed_of_flag (by decide) rfl hs)

theorem slave_io_rule_allowed (db0 db : mysql_database_t) (io : Option CStr)
    (hn : db0.slave_notif = true) : Run.All (Event.Allowed db0) (slave_io_rule db io) := by
  unfold slave_io_rule
  repeat' (apply ite_ind <;> intro _)
  all_goals first
    | exact Run.All_pure _ _
    | exact Run.All_bind (Run.All_emit (allowed_notification hn)) (fun _ => Run.All_pure _ _)

theorem slave_sql_rule_allowed (db0 db : mysql_database_t) (sql : Option CStr)
    (hn : db0.slave_notif = true) : Run.All (Event.Allowed db0) (slave_sql_rule db sql) := by
  unfold slave_sql_rule
  repeat' (apply ite_ind <;> intro _)
  all_goals first
    | exact Run.All_pure _ _
    | exact Run.All_bind (Run.All_emit (allowed_notification hn)) (fun _ => Run.All_pure _ _)

theorem mysql_read_slave_stats_allowed (db : mysql_database_t) (drv : Driver) :
    Run.All (Event.Allowed db) (mysql_read_slave_stats db drv) := by
  unfold mysql_read_slave_stats
  cases exec_query drv (lit "SHOW SLAVE STATUS") with
  | none => exact Run.All_pure _ _
  | some res =>
    obtain ⟨nf, rows⟩ := res
    cases rows with
    | nil => exact Run.All_pure _ _
    | cons row _ =>
      show Run.All _ (if nf < _ then _ else _)
      apply ite_ind <;> intro _
      · exact Run.All_pure _ _
      · refine Run.All_bind ?_ (fun _ => Run.All_bind ?_ (fun _ => Run.All_pure _ _))
        · apply ite_ind <;> intro hs
          · exact slave_stats_block_allowed db row hs
          · exact Run.All_pure _ _
        · apply ite_ind <;> intro hn
          · exact Run.All_bind (slave_io_rule_allowed db _ _ hn)
              (fun _ => slave_sql_rule_allowed db _ _ hn)
          · exact Run.All_pure _ _

theorem slave_report_allowed (drv : Driver) (db : mysql_database_t) :
    Run.All (Event.Allowed db) (slave_report drv db) := by
  unfold slave_report
  apply ite_ind <;> intro _
  · exact Run.All_bind (mysql_read_slave_stats_allowed db drv) (fun _ => Run.All_pure _ _)
  · exact Run.All_pure _ _

theorem innodb_line_allowed (db : mysql_database_t) (he : db.innodb_engine_stats = true)
    (line : CStr) (e : EngineLocals) : Run.All (Event.Allowed db) (innodb_line line e) := by
  unfold innodb_line
  repeat' (apply ite_ind <;> intro _)
  all_goals
    repeat' first
      | exact Run.All_pure _ _
      | exact All_atof_field _ _ _
      | exact All_field _ _ _
      | exact All_counter_submit (allowed_of_flag (by decide) rfl he)
      | (refine Run.All_bind ?_ (fun _ => ?_))

theorem innodb_lines_allowed (db : mysql_database_t) (he : db.innodb_engine_stats = true)
    (lines : List CStr) :
    ∀ e : EngineLocals, Run.All (Event.Allowed db) (innodb_lines lines e) := by
  induction lines with
  | nil => intro e; exact Run.All_pure _ _
  | cons line lines ih =>
    intro e
    exact Run.All_bind (innodb_line_allowed db he line e) (fun e => ih e)

theorem engine_report_allowed (drv : Driver) (db : mysql_database_t) :
    Run.All (Event.Allowed db) (engine_report drv db) := by
  unfold engine_report
  apply ite_ind <;> intro he
  · unfold mysql_innodb_engine_stats
    cases exec_query drv (lit "SHOW /*!50000 ENGINE*/ INNODB STATUS") with
    | none => exact Run.All_pure _ _
    | some res =>
      obtain ⟨nf, rows⟩ := res
      cases rows with
      | nil => exact Run.All_pure _ _
      | cons row _ =>
        show Run.All _ (if nf < _ then _ else _)
        apply ite_ind <;> intro _
        · exact Run.All_pure _ _
        · refine Run.All_bind (Run.All_deref _ _) (fun _ => ?_)
          exact Run.All_bind (innodb_lines_allowed db he _ _) (fun _ => Run.All_pure _ _)
  · exact Run.All_pure _ _


theorem Run.post_bind_of {α β : Type} {R : α → Prop} {Q : β → Prop} {x : Run α}
    {f : α → Run β} (hx : Run.Post R x) (hf : ∀ a, R a → Run.Post Q (f a)) :
    Run.Post Q (x >>= f) := by
  intro b hb
  cases hr : x.result with
  | none => rw [Run.result_bind_none _ _ hr] at hb; cases hb
  | some a =>
    rw [Run.result_bind_some _ _ a hr] at hb
    exact hf a (hx a hr) b hb

theorem Run.All_bind_of {α β : Type} {P : Event → Prop} {x : Run α} {f : α → Run β}
    (hx : Run.All P x) (hf : ∀ a, x.result = some a → Run.All P (f a)) :
    Run.All P (x >>= f) := by
  intro e he
  rw [Run.events_bind] at he
  rcases List.mem_append.mp he with h | h
  · exact hx e h
  · cases hr : x.result with
    | none => rw [hr] at h; exact absurd h (List.not_mem_nil e)
    | some a => rw [hr] at h; exact hf a hr e h

theorem sameFlags_refl (db : mysql_database_t) : SameFlags db db := ⟨rfl, rfl, rfl, rfl⟩

theorem sameFlags_trans {a b c : mysql_database_t} (h1 : SameFlags a b) (h2 : SameFlags b c) :
    SameFlags a c :=
  ⟨h2.1.trans h1.1, h2.2.1.trans h1.2.1, h2.2.2.1.trans h1.2.2.1, h2.2.2.2.trans h1.2.2.2⟩

theorem report_flag_congr {db db1 : mysql_database_t} (h : SameFlags db db1) (e : Event) :
    e.report_flag db1 = e.report_flag db := by
  obtain ⟨h1, h2, h3, h4⟩ := h
  cases e <;> simp only [Event.report_flag, h1, h2, h3, h4]

theorem allowed_congr {db db1 : mysql_database_t} (h : SameFlags db db1) (e : Event)
    (he : Event.Allowed db1 e) : Event.Allowed db e :=
  ⟨he.1, by rw [← report_flag_congr h e]; exact he.2⟩

theorem allowed_congr_symm {db db1 : mysql_database_t} (h : SameFlags db db1) (e : Event)
    (he : Event.Allowed db e) : Event.Allowed db1 e :=
  ⟨he.1, by rw [report_flag_congr h e]; exact he.2⟩

theorem slave_io_rule_flags (db : mysql_database_t) (io : Option CStr) :
    Run.Post (SameFlags db) (slave_io_rule db io) := by
  unfold slave_io_rule
  repeat' (apply ite_ind <;> intro _)
  all_goals exact Run.post_pure (sameFlags_refl db)

theorem slave_sql_rule_flags (db : mysql_database_t) (sql : Option CStr) :
    Run.Post (SameFlags db) (slave_sql_rule db sql) := by
  unfold slave_sql_rule
  repeat' (apply ite_ind <;> intro _)
  all_goals exact Run.post_pure (sameFlags_refl db)

theorem slave_stats_after (db : mysql_database_t) (drv : Driver) :
    Run.Post (fun r => AfterSlave db r.2) (mysql_read_slave_stats db drv) := by
  have h0 : AfterSlave db db := ⟨sameFlags_refl db, fun _ => rfl⟩
  unfold mysql_read_slave_stats
  cases exec_query drv (lit "SHOW SLAVE STATUS") with
  | none => exact Run.post_pure h0
  | some res =>
    obtain ⟨nf, rows⟩ := res
    cases rows with
    | nil => exact Run.post_pure h0
    | cons row _ =>
      show Run.Post _ (if nf < _ then _ else _)
      apply ite_ind <;> intro _
      · exact Run.post_pure h0
      · refine Run.post_bind (fun _ => ?_)
        refine Run.post_bind_of (R := AfterSlave db) ?_ (fun d hd => Run.post_pure hd)
        apply ite_ind <;> intro hn
        · unfold slave_notif_block
          refine Run.post_bind_of (slave_io_rule_flags db _) (fun d1 h1 => ?_)
          intro d2 h2
          exact ⟨sameFlags_trans h1 (slave_sql_rule_flags d1 _ d2 h2),
            fun hf => absurd (hn.symm.trans hf) (by decide)⟩
        · exact Run.post_pure h0

theorem slave_report_after (drv : Driver) (db : mysql_database_t) :
    Run.Post (AfterSlave db) (slave_report drv db) := by
  unfold slave_report
  apply ite_ind <;> intro _
  · exact Run.post_bind_of (slave_stats_after db drv) (fun r hr => Run.post_pure hr)
  · exact Run.post_pure ⟨sameFlags_refl db, fun _ => rfl⟩

theorem mysql_read_reports_allowed (drv : Driver) (db : mysql_database_t) :
    Run.All (Event.Allowed db) (mysql_read_reports drv db) := by
  rw [mysql_read_reports_eq]
  refine Run.All_bind (master_report_allowed drv db) (fun _ => ?_)
  refine Run.All_bind_of (slave_report_allowed drv db) (fun db2 h2 => ?_)
  have hf : SameFlags db db2 := (slave_report_after drv db db2 h2).1
  refine Run.All_bind ?_ (fun _ => Run.All_pure _ _)
  exact Run.All_mono (allowed_congr hf) (engine_report_allowed drv db2)

theorem mysql_read_reports_keeps (drv : Driver) (db : mysql_database_t)
    (hn : db.slave_notif = false) :
    Run.Post (fun r => r.2 = some db) (mysql_read_reports drv db) := by
  rw [mysql_read_reports_eq]
  refine Run.post_bind (fun _ => ?_)
  refine Run.post_bind_of (slave_report_after drv db) (fun db2 h2 => ?_)
  refine Run.post_bind (fun _ => ?_)
  exact Run.post_pure (by rw [h2.2 hn])

theorem getconnection_connect_same (drv : Driver) (db : mysql_database_t) :
    SameFlags db (getconnection_connect drv db).1 ∧
    SameThreads db (getconnection_connect drv db).1 := by
  by_cases hf : drv.init db.con = none ∨ drv.real_connect = false
  · rw [getconnection_connect_fails drv db hf]
    exact ⟨⟨rfl, rfl, rfl, rfl⟩, ⟨rfl, rfl⟩⟩
  · have hi : drv.init db.con ≠ none := fun hh => hf (Or.inl hh)
    have hc : drv.real_connect = true := by
      cases hv : drv.real_connect with
      | false => exact absurd (Or.inr hv) hf
      | true => rfl
    rw [getconnection_connect_ok drv db hi hc]
    exact ⟨⟨rfl, rfl, rfl, rfl⟩, ⟨rfl, rfl⟩⟩

theorem getconnection_same (drv : Driver) (db : mysql_database_t) :
    SameFlags db (getconnection drv db).1 ∧ SameThreads db (getconnection drv db).1 := by
  by_cases h : db.state = 0 ∨ drv.ping ≠ 0
  · rw [getconnection_reconnect drv db h]
    exact getconnection_connect_same drv { db with state := 0 }
  · have hs : db.state ≠ 0 := fun hh => h (Or.inl hh)
    have hp : ¬ drv.ping ≠ 0 := fun hh => h (Or.inr hh)
    have hg : getconnection drv db = ({ db with state := 1 }, db.con) := by
      unfold getconnection
      rw [if_pos hs, if_neg hp]
    rw [hg]
    exact ⟨⟨rfl, rfl, rfl, rfl⟩, ⟨rfl, rfl⟩⟩


/-- Every event of a cycle is allowed by the flags of its database. -/
theorem mysql_read_allowed (drv : Driver) (db : mysql_database_t) :
    Run.All (Event.Allowed db) (mysql_read drv (some db)) := by
  have hs := (getconnection_same drv db).1
  rcases hg : getconnection drv db with ⟨db1, con⟩
  rw [hg] at hs
  cases con with
  | none =>
    rw [mysql_read_unconnected drv db db1 hg]
    exact Run.All_pure _ _
  | some c =>
    rw [mysql_read_connected drv db db1 c hg]
    cases exec_query drv (status_query drv) with
    | none => exact Run.All_pure _ _
    | some res =>
      refine Run.All_bind (mysql_read_loop_allowed db db1 res.rows _) (fun l => ?_)
      refine Run.All_bind (mysql_read_totals_allowed db l) (fun _ => ?_)
      exact Run.All_mono (allowed_congr hs) (mysql_read_reports_allowed drv db1)

/-- With the notifications disabled, the database after a cycle has the
recorded thread states it had. -/
theorem mysql_read_keeps_threads (drv : Driver) (db : mysql_database_t)
    (hn : db.slave_notif = false) : Run.Post (KeepsThreads db) (mysql_read drv (some db)) := by
  obtain ⟨hs, ht⟩ := getconnection_same drv db
  rcases hg : getconnection drv db with ⟨db1, con⟩
  rw [hg] at hs ht
  have hk : KeepsThreads db (-1, some db1) := by
    intro db2 h2
    have : db1 = db2 := Option.some.inj h2
    rw [← this]; exact ht
  cases con with
  | none =>
    rw [mysql_read_unconnected drv db db1 hg]
    exact Run.post_pure hk
  | some c =>
    rw [mysql_read_connected drv db db1 c hg]
    cases exec_query drv (status_query drv) with
    | none => exact Run.post_pure hk
    | some res =>
      refine Run.post_bind (fun l => ?_)
      refine Run.post_bind (fun _ => ?_)
      intro r hr db2 h2
      have h1 := mysql_read_reports_keeps drv db1 (hs.2.2.1.trans hn) r hr
      rw [h1] at h2
      have : db1 = db2 := Option.some.inj h2
      rw [← this]; exact ht

/-- C25: for every cycle and every flag configuration, every dispatched
value list has a non-empty type name, and every event of an optional report
has the flag of its report enabled: the position `master-bin` needs
`master_stats`, the positions `slave-read` and `slave-exec` and `time_offset`
need `slave_stats`, a notification needs `slave_notif`, and a value list of
the engine report needs `innodb_engine_stats`; a call without a database
dispatches nothing; and with `slave_notif` disabled the database after the
cycle has the recorded thread states it had before. -/
theorem C25_flags_gate_reports (drv : Driver) (db : mysql_database_t) :
    (∀ e ∈ (mysql_read drv (some db)).events, e.named = true ∧ e.report_flag db = true) ∧
    (mysql_read drv none).events = [] ∧
    (db.slave_notif = false → ∀ r db2, (mysql_read drv (some db)).result = some r →
      r.2 = some db2 →
      db2.slave_io_running = db.slave_io_running ∧
      db2.slave_sql_running = db.slave_sql_running) :=
  ⟨mysql_read_allowed drv db, rfl,
   fun hn r db2 hr h2 => mysql_read_keeps_threads drv db hn r hr db2 h2⟩

theorem C25_flags_gate_reports_witness :
    (Event.named (Event.values "innodb_buffer_pool" (some "free_pages")
        [value_t.gauge (Double.atof "10")]) = true ∧
      Event.report_flag { mysql_database_t.fresh with innodb_engine_stats := true }
        (Event.values "innodb_buffer_pool" (some "free_pages")
          [value_t.gauge (Double.atof "10")]) = true) ∧
    (mysql_read (engineDriver "Free buffers 10")
      (some { mysql_database_t.fresh with innodb_engine_stats := true })).events =
      [Event.values "mysql_octets" none [value_t.derive 0, value_t.derive 0],
       Event.values "innodb_buffer_pool" (some "free_pages")
         [value_t.gauge (Double.atof "10")]] ∧
    (mysql_read (engineDriver "Free buffers 10") (some mysql_database_t.fresh)).events =
      [Event.values "mysql_octets" none [value_t.derive 0, value_t.derive 0]] :=
  ⟨(C25_flags_gate_reports (engineDriver "Free buffers 10")
      { mysql_database_t.fresh with innodb_engine_stats := true }).1
      (Event.values "innodb_buffer_pool" (some "free_pages")
        [value_t.gauge (Double.atof "10")]) (by decide),
   by decide, by decide⟩

/-! ## The earlier dialect of the lock spins in a report (C16) -/

end Mysql
